import Mathlib

/-!
# ADS1115 driver: register protocol, configuration shadow and conversion polling

A shallow embedding of `src/ADS1115.h` and `src/ADS1115.cpp`.

* Machine integers are natural numbers.  The driver's `uint8_t` members and
  arguments range over `0..255`, its `uint16_t` shadow word over `0..65535`.
* The Arduino `Wire` object and `delay` are external to the repository; they
  are taken as a parameter `TwoWire β`, a deterministic transport over an
  arbitrary bus state `β`.
* Every call the driver makes on the transport is appended to a call log kept
  next to the driver's members, so that the emitted bus traffic can be stated.
-/

namespace ADS1115

/-! ## Constants of `ADS1115.h` -/

/-- Bit value macro `#define _BV(x) (1<<(x))` of `ADS1115.cpp`. -/
def BV (x : Nat) : Nat := 1 <<< x

def ADS1115_ADDRESS_ADDR_GND : Nat := 0x48
def ADS1115_ADDRESS_ADDR_VDD : Nat := 0x49
def ADS1115_ADDRESS_ADDR_SDA : Nat := 0x4A
def ADS1115_ADDRESS_ADDR_SCL : Nat := 0x4B
def ADS1115_DEFAULT_ADDRESS : Nat := ADS1115_ADDRESS_ADDR_GND

def ADS1115_RA_CONVERSION : Nat := 0x00
def ADS1115_RA_CONFIG : Nat := 0x01
def ADS1115_RA_LO_THRESH : Nat := 0x02
def ADS1115_RA_HI_THRESH : Nat := 0x03

def ADS1115_CFG_OS_BIT : Nat := BV 15
def ADS1115_CFG_MUX_MASK : Nat := BV 14 ||| BV 13 ||| BV 12
def ADS1115_CFG_MUX_SHIFT : Nat := 12
def ADS1115_CFG_PGA_MASK : Nat := BV 11 ||| BV 10 ||| BV 9
def ADS1115_CFG_PGA_SHIFT : Nat := 9
def ADS1115_CFG_MODE_BIT : Nat := BV 8
def ADS1115_CFG_DR_MASK : Nat := BV 7 ||| BV 6 ||| BV 5
def ADS1115_CFG_DR_SHIFT : Nat := 5
def ADS1115_CFG_COMP_MODE_BIT : Nat := BV 4
def ADS1115_CFG_COMP_POL_BIT : Nat := BV 3
def ADS1115_CFG_COMP_LAT_BIT : Nat := BV 2
def ADS1115_CFG_COMP_QUE_MASK : Nat := BV 1 ||| BV 0
def ADS1115_CFG_COMP_QUE_SHIFT : Nat := 0

def ADS1115_MUX_P0_N1 : Nat := 0x00
def ADS1115_MUX_P0_N3 : Nat := 0x01
def ADS1115_MUX_P1_N3 : Nat := 0x02
def ADS1115_MUX_P2_N3 : Nat := 0x03
def ADS1115_MUX_P0_NG : Nat := 0x04
def ADS1115_MUX_P1_NG : Nat := 0x05
def ADS1115_MUX_P2_NG : Nat := 0x06
def ADS1115_MUX_P3_NG : Nat := 0x07

def ADS1115_PGA_6P144 : Nat := 0x00
def ADS1115_PGA_4P096 : Nat := 0x01
def ADS1115_PGA_2P048 : Nat := 0x02
def ADS1115_PGA_1P024 : Nat := 0x03
def ADS1115_PGA_0P512 : Nat := 0x04
def ADS1115_PGA_0P256 : Nat := 0x05
def ADS1115_PGA_0P256B : Nat := 0x06
def ADS1115_PGA_0P256C : Nat := 0x07

def ADS1115_MV_6P144 : ℚ := 0.187500
def ADS1115_MV_4P096 : ℚ := 0.125000
def ADS1115_MV_2P048 : ℚ := 0.062500
def ADS1115_MV_1P024 : ℚ := 0.031250
def ADS1115_MV_0P512 : ℚ := 0.015625
def ADS1115_MV_0P256 : ℚ := 0.007813
def ADS1115_MV_0P256B : ℚ := 0.007813
def ADS1115_MV_0P256C : ℚ := 0.007813

def ADS1115_FSR_6P144 : Nat := 6144
def ADS1115_FSR_4P096 : Nat := 4096
def ADS1115_FSR_2P048 : Nat := 2048
def ADS1115_FSR_1P024 : Nat := 1024
def ADS1115_FSR_0P512 : Nat := 512
def ADS1115_FSR_0P256 : Nat := 256

def ADS1115_MODE_CONTINUOUS : Nat := 0x00
def ADS1115_MODE_SINGLESHOT : Nat := 0x01

def ADS1115_RATE_8 : Nat := 0x00
def ADS1115_RATE_16 : Nat := 0x01
def ADS1115_RATE_32 : Nat := 0x02
def ADS1115_RATE_64 : Nat := 0x03
def ADS1115_RATE_128 : Nat := 0x04
def ADS1115_RATE_250 : Nat := 0x05
def ADS1115_RATE_475 : Nat := 0x06
def ADS1115_RATE_860 : Nat := 0x07

def ADS1115_COMP_MODE_HYSTERESIS : Nat := 0x00
def ADS1115_COMP_MODE_WINDOW : Nat := 0x01
def ADS1115_COMP_POL_ACTIVE_LOW : Nat := 0x00
def ADS1115_COMP_POL_ACTIVE_HIGH : Nat := 0x01
def ADS1115_COMP_LAT_NON_LATCHING : Nat := 0x00
def ADS1115_COMP_LAT_LATCHING : Nat := 0x01
def ADS1115_COMP_QUE_ASSERT1 : Nat := 0x00
def ADS1115_COMP_QUE_ASSERT2 : Nat := 0x01
def ADS1115_COMP_QUE_ASSERT4 : Nat := 0x02
def ADS1115_COMP_QUE_DISABLE : Nat := 0x03

/-! ## Machine-integer helpers -/

/-- Bitwise complement `~m` as it acts on a 16-bit operand: `x &= ~m` on a
`uint16_t` clears exactly the bits of `m` among the low sixteen. -/
def bitNot16 (m : Nat) : Nat := 0xFFFF ^^^ m

/-- Conversion of a C `int` to `uint16_t` (value modulo 2^16). -/
def toU16 (i : Int) : Nat := (i % 65536).toNat

/-- Conversion `(int16_t)x` of a 16-bit pattern to its two's-complement value. -/
def toInt16 (x : Nat) : Int :=
  if x % 65536 < 32768 then ((x % 65536 : Nat) : Int) else ((x % 65536 : Nat) : Int) - 65536

/-- Conversion `(uint16_t)t` of a signed 16-bit value to its bit pattern. -/
def ofInt16 (t : Int) : Nat := toU16 t

/-! ## Binary32 arithmetic -/

/-- Rounding of a rational to the nearest integer, a tie going to the even
neighbour. -/
def roundNearestEven (x : ℚ) : ℤ :=
  if x - ⌊x⌋ < 1 / 2 then ⌊x⌋
  else if 1 / 2 < x - ⌊x⌋ then ⌊x⌋ + 1
  else if ⌊x⌋ % 2 = 0 then ⌊x⌋ else ⌊x⌋ + 1

/-- Binary exponent of a positive magnitude in the `float` format (IEEE-754
binary32): the integer part of its base-2 logarithm, not below -126 (the
exponent of the subnormal numbers). -/
def f32Exponent (a : ℚ) : ℤ := max (Int.log 2 a) (-126)

/-- Conversion of an exact value to `float` (IEEE-754 binary32): the nearest
number with a 24-bit significand at the value's exponent, a tie going to the
even significand.  Magnitudes from 2^128 on, which are infinite in binary32,
are outside this model; every value rounded in the driver is at most 6144 in
magnitude. -/
def f32Round (q : ℚ) : ℚ :=
  if q = 0 then 0
  else if q < 0 then
    -((roundNearestEven (-q / 2 ^ (f32Exponent (-q) - 23)) : ℚ) * 2 ^ (f32Exponent (-q) - 23))
  else (roundNearestEven (q / 2 ^ (f32Exponent q - 23)) : ℚ) * 2 ^ (f32Exponent q - 23)

/-! ## The transport and the driver object -/

/-- One call made by the driver on the Arduino runtime. -/
inductive WireCall where
  | begin
  | beginTransmission (address : Nat)
  | write (data : Nat)
  | endTransmission
  | delay (ms : Nat)
  | requestFrom (address quantity : Nat)
  | read
  deriving DecidableEq, Repr

/-- The part of the Arduino runtime used by the driver (`Wire` and `delay`),
as a deterministic machine over a bus state `β`.  `endTransmission` returns
the status code, `requestFrom` the number of bytes received, `read` the next
received byte as an `int` (`-1` when none is available). -/
structure TwoWire (β : Type) where
  begin : β → β
  beginTransmission : β → Nat → β
  write : β → Nat → β
  endTransmission : β → β × Nat
  delay : β → Nat → β
  requestFrom : β → Nat → Nat → β × Nat
  read : β → β × Int

/-- The private members of `class ADS1115`, together with the state of the
bus it talks to and the log of the calls made so far. -/
structure Handle (β : Type) where
  devAddr : Nat
  devMode : Nat
  muxMode : Nat
  pgaMode : Nat
  configValue : Nat
  wire : β
  log : List WireCall

variable {β : Type}

/-- Effect of `Wire.beginTransmission(address)`. -/
def wireBegin (W : TwoWire β) (s : Handle β) (address : Nat) : Handle β :=
  { s with wire := W.beginTransmission s.wire address,
           log := s.log ++ [WireCall.beginTransmission address] }

/-- Effect of `Wire.write(data)`; the argument is a `uint8_t`. -/
def wireWrite (W : TwoWire β) (s : Handle β) (data : Nat) : Handle β :=
  { s with wire := W.write s.wire (data % 256),
           log := s.log ++ [WireCall.write (data % 256)] }

/-- Effect and status of `Wire.endTransmission()`. -/
def wireEnd (W : TwoWire β) (s : Handle β) : Handle β × Nat :=
  ({ s with wire := (W.endTransmission s.wire).1,
            log := s.log ++ [WireCall.endTransmission] },
   (W.endTransmission s.wire).2)

/-- Effect of `delay(ms)`. -/
def wireDelay (W : TwoWire β) (s : Handle β) (ms : Nat) : Handle β :=
  { s with wire := W.delay s.wire ms, log := s.log ++ [WireCall.delay ms] }

/-- Effect and result of `Wire.requestFrom(address, quantity)`. -/
def wireRequestFrom (W : TwoWire β) (s : Handle β) (address quantity : Nat) :
    Handle β × Nat :=
  ({ s with wire := (W.requestFrom s.wire address quantity).1,
            log := s.log ++ [WireCall.requestFrom address quantity] },
   (W.requestFrom s.wire address quantity).2)

/-- Effect and result of `Wire.read()`. -/
def wireRead (W : TwoWire β) (s : Handle β) : Handle β × Int :=
  ({ s with wire := (W.read s.wire).1, log := s.log ++ [WireCall.read] },
   (W.read s.wire).2)

/-- The constructor `ADS1115::ADS1115(address)`: `Wire.begin()` is called and
only `devAddr` is assigned; the other members keep whatever the storage held
(`uninit`). -/
def new (W : TwoWire β) (address : Nat) (uninit : Handle β) : Handle β :=
  { uninit with devAddr := address, wire := W.begin uninit.wire,
                log := uninit.log ++ [WireCall.begin] }

/-! ## Register access primitives -/

/-- Source `ADS1115::readRegister`: pointer-set transaction, `delay(1)`, a
two-byte request, and the two bytes combined most-significant first (the
left operand of `|` is read first). -/
def readRegister (W : TwoWire β) (s : Handle β) (regAddr : Nat) : Handle β × Nat :=
  let s1 := wireBegin W s s.devAddr
  let s2 := wireWrite W s1 regAddr
  let s3 := (wireEnd W s2).1
  let s4 := wireDelay W s3 1
  let s5 := (wireRequestFrom W s4 s4.devAddr 2).1
  let hi := wireRead W s5
  let lo := wireRead W hi.1
  (lo.1, ((toU16 hi.2 <<< 8) ||| toU16 lo.2) % 65536)

/-- Source `ADS1115::writeRegister`: one transaction carrying the register
address and the value, high byte first. -/
def writeRegister (W : TwoWire β) (s : Handle β) (regAddr value : Nat) : Handle β :=
  let s1 := wireBegin W s s.devAddr
  let s2 := wireWrite W s1 regAddr
  let s3 := wireWrite W s2 ((value &&& 0xFF00) >>> 8)
  let s4 := wireWrite W s3 (value &&& 0x00FF)
  (wireEnd W s4).1

/-! ## Connectivity, polling and conversion -/

/-- Source `ADS1115::testConnection`: an empty transaction; true iff the
transport reports status 0. -/
def testConnection (W : TwoWire β) (s : Handle β) : Handle β × Bool :=
  let s1 := wireBegin W s s.devAddr
  let r := wireEnd W s1
  (r.1, r.2 == 0)

/-- Source `ADS1115::isConversionReady`: reads the configuration register and
tests the operational-status bit. -/
def isConversionReady (W : TwoWire β) (s : Handle β) : Handle β × Bool :=
  let r := readRegister W s ADS1115_RA_CONFIG
  (r.1, (r.2 &&& ADS1115_CFG_OS_BIT) != 0)

/-- The `for` loop of `ADS1115::pollConversion`, by the number of iterations
still allowed (`max_retries - i`). -/
def pollConversionLoop (W : TwoWire β) : Nat → Handle β → Handle β × Bool
  | 0, s => (s, false)
  | n + 1, s =>
    if (isConversionReady W s).2 then ((isConversionReady W s).1, true)
    else pollConversionLoop W n (isConversionReady W s).1

/-- Source `ADS1115::pollConversion`. -/
def pollConversion (W : TwoWire β) (s : Handle β) (max_retries : Nat) : Handle β × Bool :=
  pollConversionLoop W max_retries s

/-- Source `ADS1115::triggerConversion`. -/
def triggerConversion (W : TwoWire β) (s : Handle β) : Handle β :=
  let s1 := { s with configValue := s.configValue ||| ADS1115_CFG_OS_BIT }
  writeRegister W s1 ADS1115_RA_CONFIG s1.configValue

/-- Source `ADS1115::getConversion`; the result of `pollConversion(1000)` is
dropped. -/
def getConversion (W : TwoWire β) (s : Handle β) (triggerAndPoll : Bool) : Handle β × Int :=
  let s1 :=
    if triggerAndPoll && s.devMode == ADS1115_MODE_SINGLESHOT then
      (pollConversion W (triggerConversion W s) 1000).1
    else s
  let r := readRegister W s1 ADS1115_RA_CONVERSION
  (r.1, toInt16 r.2)

/-! ## Configuration field accessors -/

/-- Source `ADS1115::getMode`. -/
def getMode (W : TwoWire β) (s : Handle β) : Handle β × Nat :=
  let r := readRegister W s ADS1115_RA_CONFIG
  let v := if (r.2 &&& ADS1115_CFG_MODE_BIT) ≠ 0 then 1 else 0
  ({ r.1 with devMode := v }, v)

/-- Source `ADS1115::setMode`. -/
def setMode (W : TwoWire β) (s : Handle β) (mode : Nat) : Handle β :=
  let s1 := { s with configValue := s.configValue &&& bitNot16 ADS1115_CFG_MODE_BIT }
  let s2 := if mode ≠ 0 then
      { s1 with configValue := s1.configValue ||| ADS1115_CFG_MODE_BIT } else s1
  let s3 := writeRegister W s2 ADS1115_RA_CONFIG s2.configValue
  { s3 with devMode := mode }

/-- Source `ADS1115::getMultiplexer`. -/
def getMultiplexer (W : TwoWire β) (s : Handle β) : Handle β × Nat :=
  let r := readRegister W s ADS1115_RA_CONFIG
  let v := ((r.2 &&& ADS1115_CFG_MUX_MASK) >>> ADS1115_CFG_MUX_SHIFT) % 256
  ({ r.1 with muxMode := v }, v)

/-- Source `ADS1115::setMultiplexer`, with the forced stop/start when the
tracked mode is continuous. -/
def setMultiplexer (W : TwoWire β) (s : Handle β) (mux : Nat) : Handle β :=
  let s1 := { s with configValue := s.configValue &&& bitNot16 ADS1115_CFG_MUX_MASK }
  let s2 := { s1 with configValue :=
    s1.configValue ||| ((mux <<< ADS1115_CFG_MUX_SHIFT) &&& ADS1115_CFG_MUX_MASK) }
  let s3 := writeRegister W s2 ADS1115_RA_CONFIG s2.configValue
  let s4 := { s3 with muxMode := mux }
  if s4.devMode = ADS1115_MODE_CONTINUOUS then
    let s5 := setMode W s4 ADS1115_MODE_SINGLESHOT
    let s6 := (getConversion W s5 true).1
    setMode W s6 ADS1115_MODE_CONTINUOUS
  else s4

/-- Source `ADS1115::getGain`. -/
def getGain (W : TwoWire β) (s : Handle β) : Handle β × Nat :=
  let r := readRegister W s ADS1115_RA_CONFIG
  let v := ((r.2 &&& ADS1115_CFG_PGA_MASK) >>> ADS1115_CFG_PGA_SHIFT) % 256
  ({ r.1 with pgaMode := v }, v)

/-- Source `ADS1115::setGain`, with the forced stop/start when the tracked
mode is continuous. -/
def setGain (W : TwoWire β) (s : Handle β) (gain : Nat) : Handle β :=
  let s1 := { s with configValue := s.configValue &&& bitNot16 ADS1115_CFG_PGA_MASK }
  let s2 := { s1 with configValue :=
    s1.configValue ||| ((gain <<< ADS1115_CFG_PGA_SHIFT) &&& ADS1115_CFG_PGA_MASK) }
  let s3 := writeRegister W s2 ADS1115_RA_CONFIG s2.configValue
  let s4 := { s3 with pgaMode := gain }
  if s4.devMode = ADS1115_MODE_CONTINUOUS then
    let s5 := setMode W s4 ADS1115_MODE_SINGLESHOT
    let s6 := (getConversion W s5 true).1
    setMode W s6 ADS1115_MODE_CONTINUOUS
  else s4

/-- Source `ADS1115::getRate`. -/
def getRate (W : TwoWire β) (s : Handle β) : Handle β × Nat :=
  let r := readRegister W s ADS1115_RA_CONFIG
  (r.1, ((r.2 &&& ADS1115_CFG_DR_MASK) >>> ADS1115_CFG_DR_SHIFT) % 256)

/-- Source `ADS1115::setRate`. -/
def setRate (W : TwoWire β) (s : Handle β) (rate : Nat) : Handle β :=
  let s1 := { s with configValue := s.configValue &&& bitNot16 ADS1115_CFG_DR_MASK }
  let s2 := { s1 with configValue :=
    s1.configValue ||| ((rate <<< ADS1115_CFG_DR_SHIFT) &&& ADS1115_CFG_DR_MASK) }
  writeRegister W s2 ADS1115_RA_CONFIG s2.configValue

/-- Source `ADS1115::getComparatorMode`. -/
def getComparatorMode (W : TwoWire β) (s : Handle β) : Handle β × Nat :=
  let r := readRegister W s ADS1115_RA_CONFIG
  (r.1, if (r.2 &&& ADS1115_CFG_COMP_MODE_BIT) ≠ 0 then 1 else 0)

/-- Source `ADS1115::setComparatorMode`: the shadow word only. -/
def setComparatorMode (_W : TwoWire β) (s : Handle β) (mode : Nat) : Handle β :=
  let s1 := { s with configValue := s.configValue &&& bitNot16 ADS1115_CFG_COMP_MODE_BIT }
  if mode ≠ 0 then
    { s1 with configValue := s1.configValue ||| ADS1115_CFG_COMP_MODE_BIT } else s1

/-- Source `ADS1115::getComparatorPolarity`. -/
def getComparatorPolarity (W : TwoWire β) (s : Handle β) : Handle β × Nat :=
  let r := readRegister W s ADS1115_RA_CONFIG
  (r.1, if (r.2 &&& ADS1115_CFG_COMP_POL_BIT) ≠ 0 then 1 else 0)

/-- Source `ADS1115::setComparatorPolarity`: the shadow word only. -/
def setComparatorPolarity (_W : TwoWire β) (s : Handle β) (polarity : Nat) : Handle β :=
  let s1 := { s with configValue := s.configValue &&& bitNot16 ADS1115_CFG_COMP_POL_BIT }
  if polarity ≠ 0 then
    { s1 with configValue := s1.configValue ||| ADS1115_CFG_COMP_POL_BIT } else s1

/-- Source `ADS1115::getComparatorLatchEnabled`. -/
def getComparatorLatchEnabled (W : TwoWire β) (s : Handle β) : Handle β × Nat :=
  let r := readRegister W s ADS1115_RA_CONFIG
  (r.1, if (r.2 &&& ADS1115_CFG_COMP_LAT_BIT) ≠ 0 then 1 else 0)

/-- Source `ADS1115::setComparatorLatchEnabled`: the shadow word only. -/
def setComparatorLatchEnabled (_W : TwoWire β) (s : Handle β) (enabled : Nat) : Handle β :=
  let s1 := { s with configValue := s.configValue &&& bitNot16 ADS1115_CFG_COMP_LAT_BIT }
  if enabled ≠ 0 then
    { s1 with configValue := s1.configValue ||| ADS1115_CFG_COMP_LAT_BIT } else s1

/-- Source `ADS1115::getComparatorQueueMode`. -/
def getComparatorQueueMode (W : TwoWire β) (s : Handle β) : Handle β × Nat :=
  let r := readRegister W s ADS1115_RA_CONFIG
  (r.1, ((r.2 &&& ADS1115_CFG_COMP_QUE_MASK) >>> ADS1115_CFG_COMP_QUE_SHIFT) % 256)

/-- Source `ADS1115::setComparatorQueueMode`. -/
def setComparatorQueueMode (W : TwoWire β) (s : Handle β) (mode : Nat) : Handle β :=
  let s1 := { s with configValue := s.configValue &&& bitNot16 ADS1115_CFG_COMP_QUE_MASK }
  let s2 := { s1 with configValue :=
    s1.configValue ||| ((mode <<< ADS1115_CFG_COMP_QUE_SHIFT) &&& ADS1115_CFG_COMP_QUE_MASK) }
  writeRegister W s2 ADS1115_RA_CONFIG s2.configValue

/-! ## Threshold registers and the alert pin -/

/-- Source `ADS1115::getLowThreshold`. -/
def getLowThreshold (W : TwoWire β) (s : Handle β) : Handle β × Int :=
  let r := readRegister W s ADS1115_RA_LO_THRESH
  (r.1, toInt16 r.2)

/-- Source `ADS1115::setLowThreshold`. -/
def setLowThreshold (W : TwoWire β) (s : Handle β) (threshold : Int) : Handle β :=
  writeRegister W s ADS1115_RA_LO_THRESH (ofInt16 threshold)

/-- Source `ADS1115::getHighThreshold`. -/
def getHighThreshold (W : TwoWire β) (s : Handle β) : Handle β × Int :=
  let r := readRegister W s ADS1115_RA_HI_THRESH
  (r.1, toInt16 r.2)

/-- Source `ADS1115::setHighThreshold`. -/
def setHighThreshold (W : TwoWire β) (s : Handle β) (threshold : Int) : Handle β :=
  writeRegister W s ADS1115_RA_HI_THRESH (ofInt16 threshold)

/-- Source `ADS1115::setConversionReadyPinMode`. -/
def setConversionReadyPinMode (W : TwoWire β) (s : Handle β) : Handle β :=
  let s1 := setHighThreshold W s (-1)
  let s2 := setLowThreshold W s1 0
  let s3 := setComparatorPolarity W s2 0
  setComparatorQueueMode W s3 0

/-- Source `ADS1115::showConfigRegister` with `ADS1115_SERIAL_DEBUG` undefined
(as shipped): one read of the configuration register, nothing printed. -/
def showConfigRegister (W : TwoWire β) (s : Handle β) : Handle β :=
  (readRegister W s ADS1115_RA_CONFIG).1

/-! ## Initialisation -/

/-- Source `ADS1115::initialize` (the name is reserved in Lean). -/
def initializeDevice (W : TwoWire β) (s : Handle β) : Handle β :=
  let s0 := { s with configValue := 0 }
  let s1 := setMultiplexer W s0 ADS1115_MUX_P0_N1
  let s2 := setGain W s1 ADS1115_PGA_2P048
  let s3 := setMode W s2 ADS1115_MODE_SINGLESHOT
  let s4 := setRate W s3 ADS1115_RATE_128
  let s5 := setComparatorMode W s4 ADS1115_COMP_MODE_HYSTERESIS
  let s6 := setComparatorPolarity W s5 ADS1115_COMP_POL_ACTIVE_LOW
  let s7 := setComparatorLatchEnabled W s6 ADS1115_COMP_LAT_NON_LATCHING
  setComparatorQueueMode W s7 ADS1115_COMP_QUE_DISABLE

/-! ## Convenience conversions -/

/-- Source `ADS1115::getConversionP0N1`. -/
def getConversionP0N1 (W : TwoWire β) (s : Handle β) : Handle β × Int :=
  let s1 := if s.muxMode ≠ ADS1115_MUX_P0_N1 then setMultiplexer W s ADS1115_MUX_P0_N1 else s
  getConversion W s1 true

/-- Source `ADS1115::getConversionP0N3`. -/
def getConversionP0N3 (W : TwoWire β) (s : Handle β) : Handle β × Int :=
  let s1 := if s.muxMode ≠ ADS1115_MUX_P0_N3 then setMultiplexer W s ADS1115_MUX_P0_N3 else s
  getConversion W s1 true

/-- Source `ADS1115::getConversionP1N3`. -/
def getConversionP1N3 (W : TwoWire β) (s : Handle β) : Handle β × Int :=
  let s1 := if s.muxMode ≠ ADS1115_MUX_P1_N3 then setMultiplexer W s ADS1115_MUX_P1_N3 else s
  getConversion W s1 true

/-- Source `ADS1115::getConversionP2N3`. -/
def getConversionP2N3 (W : TwoWire β) (s : Handle β) : Handle β × Int :=
  let s1 := if s.muxMode ≠ ADS1115_MUX_P2_N3 then setMultiplexer W s ADS1115_MUX_P2_N3 else s
  getConversion W s1 true

/-- Source `ADS1115::getConversionP0GND`. -/
def getConversionP0GND (W : TwoWire β) (s : Handle β) : Handle β × Int :=
  let s1 := if s.muxMode ≠ ADS1115_MUX_P0_NG then setMultiplexer W s ADS1115_MUX_P0_NG else s
  getConversion W s1 true

/-- Source `ADS1115::getConversionP1GND`. -/
def getConversionP1GND (W : TwoWire β) (s : Handle β) : Handle β × Int :=
  let s1 := if s.muxMode ≠ ADS1115_MUX_P1_NG then setMultiplexer W s ADS1115_MUX_P1_NG else s
  getConversion W s1 true

/-- Source `ADS1115::getConversionP2GND`. -/
def getConversionP2GND (W : TwoWire β) (s : Handle β) : Handle β × Int :=
  let s1 := if s.muxMode ≠ ADS1115_MUX_P2_NG then setMultiplexer W s ADS1115_MUX_P2_NG else s
  getConversion W s1 true

/-- Source `ADS1115::getConversionP3GND`. -/
def getConversionP3GND (W : TwoWire β) (s : Handle β) : Handle β × Int :=
  let s1 := if s.muxMode ≠ ADS1115_MUX_P3_NG then setMultiplexer W s ADS1115_MUX_P3_NG else s
  getConversion W s1 true

/-! ## Voltage scaling -/

/-- Source `ADS1115::getMvPerCount`, the `float` constants read as exact
decimals. -/
def getMvPerCount (s : Handle β) : ℚ :=
  if s.pgaMode = ADS1115_PGA_6P144 then ADS1115_MV_6P144
  else if s.pgaMode = ADS1115_PGA_4P096 then ADS1115_MV_4P096
  else if s.pgaMode = ADS1115_PGA_2P048 then ADS1115_MV_2P048
  else if s.pgaMode = ADS1115_PGA_1P024 then ADS1115_MV_1P024
  else if s.pgaMode = ADS1115_PGA_0P512 then ADS1115_MV_0P512
  else if s.pgaMode = ADS1115_PGA_0P256 ∨ s.pgaMode = ADS1115_PGA_0P256B
      ∨ s.pgaMode = ADS1115_PGA_0P256C then ADS1115_MV_0P256
  else 0

/-- Source `ADS1115::getFullScale`. -/
def getFullScale (pga : Nat) : Nat :=
  if pga = ADS1115_PGA_6P144 then ADS1115_FSR_6P144
  else if pga = ADS1115_PGA_4P096 then ADS1115_FSR_4P096
  else if pga = ADS1115_PGA_2P048 then ADS1115_FSR_2P048
  else if pga = ADS1115_PGA_1P024 then ADS1115_FSR_1P024
  else if pga = ADS1115_PGA_0P512 then ADS1115_FSR_0P512
  else if pga = ADS1115_PGA_0P256 ∨ pga = ADS1115_PGA_0P256B
      ∨ pga = ADS1115_PGA_0P256C then ADS1115_FSR_0P256
  else 0

/-- Source `ADS1115::getMilliVolts`: `(float)reading * factor` in binary32.
The reading is converted to `float`, `factor` is the `float` returned by
`getMvPerCount()` (the decimal constant rounded to binary32), and their
product is rounded to binary32. -/
def getMilliVolts (W : TwoWire β) (s : Handle β) (triggerAndPoll : Bool) : Handle β × ℚ :=
  let r := getConversion W s triggerAndPoll
  let factor := f32Round (getMvPerCount r.1)
  (r.1, f32Round (f32Round (r.2 : ℚ) * factor))

/-! ## Vocabulary for stating bus traffic -/

/-- One write transaction on device `devAddr`: the register address, then
the high byte and the low byte of `value`. -/
def writeTxn (devAddr regAddr value : Nat) : List WireCall :=
  [WireCall.beginTransmission devAddr, WireCall.write (regAddr % 256),
   WireCall.write (value / 256 % 256), WireCall.write (value % 256),
   WireCall.endTransmission]

/-- One register read on device `devAddr`: the pointer-set transaction, the
delay, the two-byte request and the two byte reads. -/
def readTxn (devAddr regAddr : Nat) : List WireCall :=
  [WireCall.beginTransmission devAddr, WireCall.write (regAddr % 256),
   WireCall.endTransmission, WireCall.delay 1, WireCall.requestFrom devAddr 2,
   WireCall.read, WireCall.read]

/-- The call list `txn` repeated `k` times. -/
def repeatCalls : Nat → List WireCall → List WireCall
  | 0, _ => []
  | k + 1, txn => txn ++ repeatCalls k txn

/-- The driver after `k` consecutive ready checks. -/
def afterChecks (W : TwoWire β) (s : Handle β) (k : Nat) : Handle β :=
  Nat.iterate (fun t => (isConversionReady W t).1) k s

/-- The 16-bit value the configuration register returns to the ready check
number `i` (counted from 0) of a run of consecutive checks started in `s`. -/
def configReadAt (W : TwoWire β) (s : Handle β) (i : Nat) : Nat :=
  (readRegister W (afterChecks W s i) ADS1115_RA_CONFIG).2

/-- A transport whose configuration register reads back the value just
written to it: a read of register 0x01 that directly follows a write of `v`
to register 0x01 by the same device address returns `v`. -/
def EchoesConfig (W : TwoWire β) : Prop :=
  ∀ (s t : Handle β) (v : Nat), v < 65536 → t.devAddr = s.devAddr →
    t.wire = (writeRegister W s ADS1115_RA_CONFIG v).wire →
    (readRegister W t ADS1115_RA_CONFIG).2 = v

/-- A transport that never reports a finished conversion. -/
def NeverReady (W : TwoWire β) : Prop :=
  ∀ t : Handle β, (isConversionReady W t).2 = false

/-- The last bus operation was a write of the whole shadow word to the
configuration register. -/
def Flushed (W : TwoWire β) (t : Handle β) : Prop :=
  ∃ s : Handle β, s.devAddr = t.devAddr ∧
    t.wire = (writeRegister W s ADS1115_RA_CONFIG t.configValue).wire

/-- Update of a multi-bit field: `c1` is `c` with the field `mask` replaced by
`v` shifted into place, every bit outside `mask` is as in `c`, and the field
of `c1` holds `v` reduced to `width` bits. -/
def IsFieldUpdate (mask shift width c v c1 : Nat) : Prop :=
  c1 = (c &&& (0xFFFF - mask)) ||| ((v <<< shift) &&& mask) ∧
  c1 &&& (0xFFFF - mask) = c &&& (0xFFFF - mask) ∧
  (c1 &&& mask) >>> shift = v % 2 ^ width

/-- Update of a one-bit flag: `c1` is `c` with the bit `flag` set when `v` is
non-zero and cleared when `v` is zero, every other bit as in `c`. -/
def IsFlagUpdate (flag c v c1 : Nat) : Prop :=
  c1 = (if v ≠ 0 then c ||| flag else c &&& (0xFFFF - flag)) ∧
  c1 &&& (0xFFFF - flag) = c &&& (0xFFFF - flag) ∧
  (c1 &&& flag = flag ↔ v ≠ 0) ∧ (c1 &&& flag = 0 ↔ v = 0)

/-- The order of the transactions of a continuous-mode field change: the
field write `c0`, the single-shot write `c1`, the trigger write `c2`, `k`
polls, the conversion read, the restoring write `c3`. -/
def IsStopStartTraffic (logBefore logAfter : List WireCall) (addr c0 : Nat) : Prop :=
  ∃ k c1 c2 c3, 1 ≤ k ∧ k ≤ 1000 ∧
    logAfter = logBefore ++ writeTxn addr 0x01 c0 ++ writeTxn addr 0x01 c1
      ++ writeTxn addr 0x01 c2 ++ repeatCalls k (readTxn addr 0x01) ++ readTxn addr 0x00
      ++ writeTxn addr 0x01 c3 ∧
    c1 = (c0 &&& (0xFFFF - 0x0100)) ||| 0x0100 ∧ c2 = c1 ||| 0x8000 ∧
    c3 = c2 &&& (0xFFFF - 0x0100) ∧
    c1 &&& 0x0100 = 0x0100 ∧ c2 &&& 0x8000 = 0x8000 ∧ c3 &&& 0x0100 = 0

/-- What a convenience conversion `f` with mux selector `target` does, from
every driver state: when the tracked selector differs it is `setMultiplexer`
followed by a triggering `getConversion`, a configuration write `c0` whose mux
field is `target` precedes the final read of the conversion register; when
the tracked selector equals `target` it is the triggering `getConversion`
alone; in both cases the tracked selector is `target` afterwards. -/
def IsConvenienceConversion (W : TwoWire β) (f : Handle β → Handle β × Int)
    (target : Nat) : Prop :=
  ∀ s : Handle β,
    (s.muxMode ≠ target →
      f s = getConversion W (setMultiplexer W s target) true ∧
      ∃ c0 rest, (f s).1.log
          = s.log ++ writeTxn s.devAddr 0x01 c0 ++ rest ++ readTxn s.devAddr 0x00 ∧
        (c0 &&& 0x7000) >>> 12 = target) ∧
    (s.muxMode = target → f s = getConversion W s true) ∧
    (f s).1.muxMode = target

/-! ## Transport doubles -/

/-- State of a simulated device: the four registers, the address pointer,
and the bytes queued in either direction. -/
structure SimBus where
  conversion : Nat
  config : Nat
  loThresh : Nat
  hiThresh : Nat
  pointer : Nat
  txBuffer : List Nat
  rxBuffer : List Nat
  deriving DecidableEq, Repr

/-- Register selected by the address pointer of the simulated device. -/
def SimBus.selected (b : SimBus) : Nat :=
  if b.pointer = 0 then b.conversion
  else if b.pointer = 1 then b.config
  else if b.pointer = 2 then b.loThresh
  else if b.pointer = 3 then b.hiThresh
  else 0

/-- Completion of a write transaction on the simulated device: one byte
sets the address pointer, three bytes set the pointer and store the 16-bit
value (the conversion register is read-only). -/
def SimBus.commit (b : SimBus) : SimBus :=
  match b.txBuffer with
  | [r] => { b with pointer := r, txBuffer := [] }
  | [r, hi, lo] =>
    let v := hi % 256 * 256 + lo % 256
    if r = 1 then { b with pointer := r, txBuffer := [], config := v }
    else if r = 2 then { b with pointer := r, txBuffer := [], loThresh := v }
    else if r = 3 then { b with pointer := r, txBuffer := [], hiThresh := v }
    else { b with pointer := r, txBuffer := [] }
  | _ => { b with txBuffer := [] }

/-- Transport double that echoes writes: every register reads back the last
value written to it, on any device address. -/
def echoWire : TwoWire SimBus where
  begin b := b
  beginTransmission b _ := { b with txBuffer := [] }
  write b d := { b with txBuffer := b.txBuffer ++ [d] }
  endTransmission b := (b.commit, 0)
  delay b _ := b
  requestFrom b _ n :=
    ({ b with rxBuffer := List.take n [b.selected / 256 % 256, b.selected % 256] }, min n 2)
  read b :=
    match b.rxBuffer with
    | [] => (b, -1)
    | x :: xs => ({ b with rxBuffer := xs }, (x : Int))

/-- Transport double of a device that is converting forever: as `echoWire`,
but the operational-status bit of the configuration register always reads 0. -/
def busyWire : TwoWire SimBus where
  begin b := b
  beginTransmission b _ := { b with txBuffer := [] }
  write b d := { b with txBuffer := b.txBuffer ++ [d] }
  endTransmission b := (b.commit, 0)
  delay b _ := b
  requestFrom b _ n :=
    let v := if b.pointer = 1 then b.selected % 32768 else b.selected
    ({ b with rxBuffer := List.take n [v / 256 % 256, v % 256] }, min n 2)
  read b :=
    match b.rxBuffer with
    | [] => (b, -1)
    | x :: xs => ({ b with rxBuffer := xs }, (x : Int))

/-- A simulated device with all registers zero and nothing queued. -/
def simBus0 : SimBus :=
  { conversion := 0, config := 0, loThresh := 0, hiThresh := 0, pointer := 0,
    txBuffer := [], rxBuffer := [] }

/-- A driver at the default address with zeroed members, an empty log and
the given bus state. -/
def handle0 (b : SimBus) : Handle SimBus :=
  { devAddr := ADS1115_DEFAULT_ADDRESS, devMode := 0, muxMode := 0, pgaMode := 0,
    configValue := 0, wire := b, log := [] }

/-- A single-shot driver on the echoing double whose shadow word has every
bit set. -/
def handleOnes : Handle SimBus :=
  { handle0 simBus0 with devMode := 1, configValue := 0xFFFF }

/-- A driver in continuous mode on the echoing double, shadow word zero. -/
def handleContinuous : Handle SimBus := handle0 simBus0

/-- The driver constructed at the default address and initialised against
the echoing double. -/
def handleReady : Handle SimBus :=
  initializeDevice echoWire (new echoWire ADS1115_DEFAULT_ADDRESS (handle0 simBus0))

/-- A driver constructed over storage that held the shadow word 0x0100 and
tracked mode 0, and not initialised: the tracked mode is continuous while the
mode bit of the shadow word is set. -/
def handleStale : Handle SimBus :=
  new echoWire ADS1115_DEFAULT_ADDRESS { handle0 simBus0 with configValue := 0x0100 }

/-- A single-shot driver on the always-busy double whose conversion register
holds 0x8001. -/
def handleBusy : Handle SimBus :=
  { handle0 { simBus0 with conversion := 0x8001 } with devMode := 1 }

/-- Transport double of a device that is always ready and whose conversion
register always holds `sample`: as `echoWire`, but the configuration register
reads with the operational-status bit set and register 0x00 reads `sample`. -/
def readyWire (sample : Nat) : TwoWire SimBus where
  begin b := b
  beginTransmission b _ := { b with txBuffer := [] }
  write b d := { b with txBuffer := b.txBuffer ++ [d] }
  endTransmission b := (b.commit, 0)
  delay b _ := b
  requestFrom b _ n :=
    let v := if b.pointer = 0 then sample
      else if b.pointer = 1 then b.selected % 32768 + 32768 else b.selected
    ({ b with rxBuffer := List.take n [v / 256 % 256, v % 256] }, min n 2)
  read b :=
    match b.rxBuffer with
    | [] => (b, -1)
    | x :: xs => ({ b with rxBuffer := xs }, (x : Int))

/-- A transport that reports a finished conversion at every ready check. -/
def AlwaysReady (W : TwoWire β) : Prop :=
  ∀ t : Handle β, (isConversionReady W t).2 = true

/-- A transport whose conversion register reads `v` at every read. -/
def HoldsConversion (W : TwoWire β) (v : Nat) : Prop :=
  ∀ t : Handle β, (readRegister W t ADS1115_RA_CONVERSION).2 = v

/-- State of a byte-echoing double: for every register address the two
bytes last written to it, the address pointer, and the bytes queued in either
direction. -/
structure MemBus where
  cells : Nat → Nat × Nat
  pointer : Nat
  txBuffer : List Nat
  rxBuffer : List Nat

/-- Completion of a write transaction on the byte-echoing double: one byte
sets the address pointer, three bytes set the pointer and store the two data
bytes at that address. -/
def MemBus.commit (b : MemBus) : MemBus :=
  match b.txBuffer with
  | [r] => { b with pointer := r, txBuffer := [] }
  | [r, hi, lo] =>
    { b with pointer := r, txBuffer := [],
             cells := fun x => if x = r then (hi, lo) else b.cells x }
  | _ => { b with txBuffer := [] }

/-- Transport double that echoes the written bytes: a read of any register
address returns the two bytes last written to that address, in the order
they were written. -/
def memWire : TwoWire MemBus where
  begin b := b
  beginTransmission b _ := { b with txBuffer := [] }
  write b d := { b with txBuffer := b.txBuffer ++ [d] }
  endTransmission b := (b.commit, 0)
  delay b _ := b
  requestFrom b _ n :=
    ({ b with rxBuffer := List.take n [(b.cells b.pointer).1, (b.cells b.pointer).2] },
     min n 2)
  read b :=
    match b.rxBuffer with
    | [] => (b, -1)
    | x :: xs => ({ b with rxBuffer := xs }, (x : Int))

/-- A driver on the byte-echoing double with every cell zero. -/
def handleMem : Handle MemBus :=
  { devAddr := ADS1115_DEFAULT_ADDRESS, devMode := 1, muxMode := 0, pgaMode := 2,
    configValue := 0, log := [],
    wire := { cells := fun _ => (0, 0), pointer := 0, txBuffer := [], rxBuffer := [] } }

/-- The driver inside `readRegister(regAddr)` after the pointer-set
transaction, the delay and the two-byte request, just before the two
`Wire.read()` calls. -/
def requestState (W : TwoWire β) (s : Handle β) (regAddr : Nat) : Handle β :=
  (wireRequestFrom W
    (wireDelay W (wireEnd W (wireWrite W (wireBegin W s s.devAddr) regAddr)).1 1)
    s.devAddr 2).1

/-- The transport failure of the specification's error model. -/
inductive BusError where
  | transactionFailed
  deriving DecidableEq, Repr

/-- The read primitive as the specification words it, for comparison with
`readRegister`: a pointer-set transaction writing the register address byte,
then (after the inter-phase delay) a two-byte read transaction; the two bytes
are returned big-endian, the first byte most significant.  It fails with
`BusError` if either transaction does not complete: the pointer-set
transaction reports a non-zero status, or the request delivers fewer than two
bytes. -/
def readRegisterSpec (W : TwoWire β) (s : Handle β) (regAddr : Nat) :
    Except BusError (Handle β × Nat) :=
  let e := wireEnd W (wireWrite W (wireBegin W s s.devAddr) regAddr)
  if e.2 ≠ 0 then Except.error BusError.transactionFailed
  else
    let q := wireRequestFrom W (wireDelay W e.1 1) s.devAddr 2
    if q.2 < 2 then Except.error BusError.transactionFailed
    else
      let first := wireRead W q.1
      let second := wireRead W first.1
      Except.ok (second.1, first.2.toNat * 256 + second.2.toNat)

/-- The write primitive as the specification words it, for comparison with
`writeRegister`: one transaction containing the register address byte
followed by the 16-bit value big-endian (`value div 256`, then
`value mod 256`).  It fails with `BusError` when the transport reports the
transaction as failed (non-zero status). -/
def writeRegisterSpec (W : TwoWire β) (s : Handle β) (regAddr value : Nat) :
    Except BusError (Handle β) :=
  let e := wireEnd W (wireWrite W (wireWrite W (wireWrite W (wireBegin W s s.devAddr) regAddr)
    (value / 256)) (value % 256))
  if e.2 ≠ 0 then Except.error BusError.transactionFailed
  else Except.ok e.1

/-- The transport `W` with its reports replaced: `endTransmission` reports
`status` and `requestFrom` reports `count`, while the effect on the bus and
the bytes read are those of `W`. -/
def withStatus (W : TwoWire β) (status count : Nat) : TwoWire β :=
  { W with endTransmission := fun b => ((W.endTransmission b).1, status),
           requestFrom := fun b a n => ((W.requestFrom b a n).1, count) }

/-- Transport double of a bus on which nothing answers: every transaction
ends with status 2 (address not acknowledged), every request delivers no
byte, and `read` finds nothing. -/
def deadWire : TwoWire Unit where
  begin b := b
  beginTransmission b _ := b
  write b _ := b
  endTransmission b := (b, 2)
  delay b _ := b
  requestFrom b _ _ := (b, 0)
  read b := (b, -1)

/-- A driver with the default configuration on the dead bus. -/
def handleDead : Handle Unit :=
  { devAddr := ADS1115_DEFAULT_ADDRESS, devMode := 1, muxMode := 0, pgaMode := 2,
    configValue := 0x0583, wire := (), log := [] }

/-- The five members of the driver object. -/
def Handle.members (s : Handle β) : Nat × Nat × Nat × Nat × Nat :=
  (s.devAddr, s.devMode, s.muxMode, s.pgaMode, s.configValue)

/-- The bus traffic of a getter: from `s` to `after` exactly one read of the
configuration register 0x01 was made, and nothing else. -/
def ReadsConfigOnce (W : TwoWire β) (s after : Handle β) : Prop :=
  after.log = s.log ++ readTxn s.devAddr 0x01 ∧
  after.wire = (readRegister W s ADS1115_RA_CONFIG).1.wire

/-- A freshly constructed driver (zeroed members) in front of a device that
kept an earlier configuration, 0x5A63, in its configuration register. -/
def handlePreset : Handle SimBus :=
  new echoWire ADS1115_DEFAULT_ADDRESS (handle0 { simBus0 with config := 0x5A63 })

/-! ## Sequences of public operations -/

/-- The public operations of `class ADS1115` (the constructor apart), with
their arguments; `init` stands for `initialize()`. -/
inductive Op where
  | init
  | testConnection
  | pollConversion (max_retries : Nat)
  | triggerConversion
  | getConversion (triggerAndPoll : Bool)
  | getConversionP0N1
  | getConversionP0N3
  | getConversionP1N3
  | getConversionP2N3
  | getConversionP0GND
  | getConversionP1GND
  | getConversionP2GND
  | getConversionP3GND
  | getMilliVolts (triggerAndPoll : Bool)
  | getMvPerCount
  | getFullScale (pga : Nat)
  | isConversionReady
  | getMultiplexer
  | setMultiplexer (mux : Nat)
  | getGain
  | setGain (gain : Nat)
  | getMode
  | setMode (mode : Nat)
  | getRate
  | setRate (rate : Nat)
  | getComparatorMode
  | setComparatorMode (mode : Nat)
  | getComparatorPolarity
  | setComparatorPolarity (polarity : Nat)
  | getComparatorLatchEnabled
  | setComparatorLatchEnabled (enabled : Nat)
  | getComparatorQueueMode
  | setComparatorQueueMode (mode : Nat)
  | setConversionReadyPinMode
  | getLowThreshold
  | setLowThreshold (threshold : Int)
  | getHighThreshold
  | setHighThreshold (threshold : Int)
  | showConfigRegister
  deriving DecidableEq, Repr

/-- The driver after one public operation (the value returned to the caller
is dropped). -/
def runOp (W : TwoWire β) (s : Handle β) : Op → Handle β
  | Op.init => initializeDevice W s
  | Op.testConnection => (testConnection W s).1
  | Op.pollConversion n => (pollConversion W s n).1
  | Op.triggerConversion => triggerConversion W s
  | Op.getConversion tp => (getConversion W s tp).1
  | Op.getConversionP0N1 => (getConversionP0N1 W s).1
  | Op.getConversionP0N3 => (getConversionP0N3 W s).1
  | Op.getConversionP1N3 => (getConversionP1N3 W s).1
  | Op.getConversionP2N3 => (getConversionP2N3 W s).1
  | Op.getConversionP0GND => (getConversionP0GND W s).1
  | Op.getConversionP1GND => (getConversionP1GND W s).1
  | Op.getConversionP2GND => (getConversionP2GND W s).1
  | Op.getConversionP3GND => (getConversionP3GND W s).1
  | Op.getMilliVolts tp => (getMilliVolts W s tp).1
  | Op.getMvPerCount => s
  | Op.getFullScale _ => s
  | Op.isConversionReady => (isConversionReady W s).1
  | Op.getMultiplexer => (getMultiplexer W s).1
  | Op.setMultiplexer mux => setMultiplexer W s mux
  | Op.getGain => (getGain W s).1
  | Op.setGain gain => setGain W s gain
  | Op.getMode => (getMode W s).1
  | Op.setMode mode => setMode W s mode
  | Op.getRate => (getRate W s).1
  | Op.setRate rate => setRate W s rate
  | Op.getComparatorMode => (getComparatorMode W s).1
  | Op.setComparatorMode mode => setComparatorMode W s mode
  | Op.getComparatorPolarity => (getComparatorPolarity W s).1
  | Op.setComparatorPolarity polarity => setComparatorPolarity W s polarity
  | Op.getComparatorLatchEnabled => (getComparatorLatchEnabled W s).1
  | Op.setComparatorLatchEnabled enabled => setComparatorLatchEnabled W s enabled
  | Op.getComparatorQueueMode => (getComparatorQueueMode W s).1
  | Op.setComparatorQueueMode mode => setComparatorQueueMode W s mode
  | Op.setConversionReadyPinMode => setConversionReadyPinMode W s
  | Op.getLowThreshold => (getLowThreshold W s).1
  | Op.setLowThreshold t => setLowThreshold W s t
  | Op.getHighThreshold => (getHighThreshold W s).1
  | Op.setHighThreshold t => setHighThreshold W s t
  | Op.showConfigRegister => showConfigRegister W s

/-- The driver after a sequence of public operations, first to last. -/
def runOps (W : TwoWire β) (s : Handle β) (ops : List Op) : Handle β :=
  ops.foldl (runOp W) s

/-- The operations that write the shadow word through to the device. -/
def Op.writesThrough : Op → Bool
  | Op.setMultiplexer _ => true
  | Op.setGain _ => true
  | Op.setMode _ => true
  | Op.setRate _ => true
  | Op.setComparatorQueueMode _ => true
  | Op.triggerConversion => true
  | Op.init => true
  | Op.setConversionReadyPinMode => true
  | _ => false

/-- The write-through operations that set no comparator bit themselves. -/
def Op.writesOnly : Op → Bool
  | Op.setMultiplexer _ => true
  | Op.setGain _ => true
  | Op.setMode _ => true
  | Op.setRate _ => true
  | Op.setComparatorQueueMode _ => true
  | Op.triggerConversion => true
  | _ => false

/-- Arguments within the field range: mux and gain selectors in 0..7, mode
in 0..1. -/
def Op.inRange : Op → Bool
  | Op.setMultiplexer mux => decide (mux < 8)
  | Op.setGain gain => decide (gain < 8)
  | Op.setMode mode => decide (mode < 2)
  | _ => true

/-- The getters that store the value read from the device in a tracked
member. -/
def Op.cachesDeviceField : Op → Bool
  | Op.getMultiplexer => true
  | Op.getGain => true
  | Op.getMode => true
  | _ => false

/-- The values of the write transactions to the configuration register 0x01
found in a call log, first to last. -/
def configWrites : List WireCall → List Nat
  | WireCall.beginTransmission _ :: WireCall.write r :: WireCall.write hi :: WireCall.write lo
      :: WireCall.endTransmission :: rest =>
    if r = 1 then (hi * 256 + lo) :: configWrites rest else configWrites rest
  | _ :: rest => configWrites rest
  | [] => []

/-- The tracked selectors agree with the shadow word: tracked mux = mux field,
tracked gain = gain field, tracked mode = mode bit. -/
def TrackedMatchesShadow (s : Handle β) : Prop :=
  s.muxMode = (s.configValue &&& 0x7000) >>> 12 ∧
  s.pgaMode = (s.configValue &&& 0x0E00) >>> 9 ∧
  s.devMode = (s.configValue &&& 0x0100) >>> 8

/-- From `s` to `after` the last transaction was a write of the complete
16-bit shadow word of `after` to the configuration register. -/
def WritesShadowLast (W : TwoWire β) (s after : Handle β) : Prop :=
  (∃ mid, after.log = s.log ++ mid ++ writeTxn s.devAddr 0x01 after.configValue) ∧
  Flushed W after ∧ after.configValue < 65536

/-- From `t` to `after` at least one write to the configuration register
was made, and every such write carries a word with the start-conversion bit
(bit 15) set. -/
def WritesHaveStartBit (t after : Handle β) : Prop :=
  ∃ new, after.log = t.log ++ new ∧ configWrites new ≠ [] ∧
    ∀ w, w ∈ configWrites new → w.testBit 15 = true

/-- The values written to the configuration register between the states
`s` and `after` of one run: the configuration writes found among the calls
logged after those of `s`, first to last. -/
def configWritesBetween (s after : Handle β) : List Nat :=
  configWrites (after.log.drop s.log.length)

/-- The calls logged from `s` to `after` contain exactly the configuration
writes `vals`, whatever calls follow them. -/
def TrafficWrites (s after : Handle β) (vals : List Nat) : Prop :=
  ∃ new, after.log = s.log ++ new ∧
    ∀ rest, configWrites (new ++ rest) = vals ++ configWrites rest

/-- The operations that issue no write to the configuration register. -/
def Op.issuesNoConfigWrite : Op → Bool
  | Op.testConnection => true
  | Op.pollConversion _ => true
  | Op.isConversionReady => true
  | Op.getMvPerCount => true
  | Op.getFullScale _ => true
  | Op.getMultiplexer => true
  | Op.getGain => true
  | Op.getMode => true
  | Op.getRate => true
  | Op.getComparatorMode => true
  | Op.setComparatorMode _ => true
  | Op.getComparatorPolarity => true
  | Op.setComparatorPolarity _ => true
  | Op.getComparatorLatchEnabled => true
  | Op.setComparatorLatchEnabled _ => true
  | Op.getComparatorQueueMode => true
  | Op.getLowThreshold => true
  | Op.setLowThreshold _ => true
  | Op.getHighThreshold => true
  | Op.setHighThreshold _ => true
  | Op.showConfigRegister => true
  | _ => false

/-- The driver constructed at the default address, initialised and set to
gain selector 5 (a 0.256 V range), in front of the always-ready double whose
conversion register holds 0x3039 (12345). -/
def handleLowRange : Handle SimBus :=
  setGain (readyWire 0x3039)
    (initializeDevice (readyWire 0x3039)
      (new (readyWire 0x3039) ADS1115_DEFAULT_ADDRESS (handle0 simBus0))) 5

/-- The driver constructed at the default address, initialised and given the
gain argument 10, in front of the always-ready double whose conversion
register holds 0xFFFF (-1). -/
def handleBadGain : Handle SimBus :=
  setGain (readyWire 0xFFFF)
    (initializeDevice (readyWire 0xFFFF)
      (new (readyWire 0xFFFF) ADS1115_DEFAULT_ADDRESS (handle0 simBus0))) 10

/-! ## Frame and traffic lemmas for the register primitives -/

section Bytes

/-- High byte sent by `writeRegister`. -/
theorem hi_byte (v : Nat) : (v &&& 0xFF00) >>> 8 = v / 256 % 256 := by
  apply Nat.eq_of_testBit_eq
  intro i
  have h1 : (0xFF00 : Nat) = (2 ^ 8 - 1) <<< 8 := by decide
  have h3 : v / 256 % 256 = (v >>> 8) % 2 ^ 8 := by simp [Nat.shiftRight_eq_div_pow]
  rw [h3, Nat.testBit_shiftRight, Nat.testBit_and, h1, Nat.testBit_shiftLeft,
    Nat.testBit_two_pow_sub_one, Nat.testBit_mod_two_pow, Nat.testBit_shiftRight]
  by_cases hi : i < 8 <;> simp [hi]

/-- Low byte sent by `writeRegister`. -/
theorem lo_byte (v : Nat) : v &&& 0x00FF = v % 256 := by
  have := Nat.and_pow_two_sub_one_eq_mod v 8
  simpa using this

/-- Two received bytes combined by `readRegister`. -/
theorem combine_bytes (a b : Nat) (hb : b < 256) : (a <<< 8 ||| b) = a * 256 + b := by
  have := Nat.mul_add_lt_is_or (show b < 2 ^ 8 by simpa using hb) a
  rw [Nat.shiftLeft_eq, Nat.mul_comm a (2 ^ 8), ← this]

end Bytes

section Primitives

variable (W : TwoWire β) (s : Handle β)

@[simp]
theorem writeRegister_members (r v : Nat) :
    (writeRegister W s r v).devAddr = s.devAddr ∧
    (writeRegister W s r v).devMode = s.devMode ∧
    (writeRegister W s r v).muxMode = s.muxMode ∧
    (writeRegister W s r v).pgaMode = s.pgaMode ∧
    (writeRegister W s r v).configValue = s.configValue := by
  simp [writeRegister, wireBegin, wireWrite, wireEnd]

@[simp]
theorem readRegister_members (r : Nat) :
    (readRegister W s r).1.devAddr = s.devAddr ∧
    (readRegister W s r).1.devMode = s.devMode ∧
    (readRegister W s r).1.muxMode = s.muxMode ∧
    (readRegister W s r).1.pgaMode = s.pgaMode ∧
    (readRegister W s r).1.configValue = s.configValue := by
  simp [readRegister, wireBegin, wireWrite, wireEnd, wireDelay, wireRequestFrom, wireRead]

@[simp]
theorem writeRegister_log (r v : Nat) :
    (writeRegister W s r v).log = s.log ++ writeTxn s.devAddr r v := by
  simp [writeRegister, wireBegin, wireWrite, wireEnd, writeTxn, hi_byte, lo_byte]

@[simp]
theorem readRegister_log (r : Nat) :
    (readRegister W s r).1.log = s.log ++ readTxn s.devAddr r := by
  simp [readRegister, wireBegin, wireWrite, wireEnd, wireDelay, wireRequestFrom, wireRead,
    readTxn]

theorem readRegister_lt (r : Nat) : (readRegister W s r).2 < 65536 :=
  Nat.mod_lt _ (by decide)

@[simp]
theorem isConversionReady_members :
    (isConversionReady W s).1.devAddr = s.devAddr ∧
    (isConversionReady W s).1.devMode = s.devMode ∧
    (isConversionReady W s).1.muxMode = s.muxMode ∧
    (isConversionReady W s).1.pgaMode = s.pgaMode ∧
    (isConversionReady W s).1.configValue = s.configValue := by
  simp [isConversionReady]

@[simp]
theorem isConversionReady_log :
    (isConversionReady W s).1.log = s.log ++ readTxn s.devAddr ADS1115_RA_CONFIG := by
  simp [isConversionReady]

theorem afterChecks_succ (k : Nat) :
    afterChecks W s (k + 1) = afterChecks W (isConversionReady W s).1 k := rfl

@[simp]
theorem afterChecks_zero : afterChecks W s 0 = s := rfl

theorem afterChecks_members (k : Nat) :
    (afterChecks W s k).devAddr = s.devAddr ∧
    (afterChecks W s k).devMode = s.devMode ∧
    (afterChecks W s k).muxMode = s.muxMode ∧
    (afterChecks W s k).pgaMode = s.pgaMode ∧
    (afterChecks W s k).configValue = s.configValue := by
  induction k generalizing s with
  | zero => simp
  | succ k ih =>
    rw [afterChecks_succ]
    have h := ih (isConversionReady W s).1
    simpa using h

theorem afterChecks_log (k : Nat) :
    (afterChecks W s k).log
      = s.log ++ repeatCalls k (readTxn s.devAddr ADS1115_RA_CONFIG) := by
  induction k generalizing s with
  | zero => simp [repeatCalls]
  | succ k ih =>
    rw [afterChecks_succ, ih]
    simp [repeatCalls, List.append_assoc]

/-- The polling loop with budget `n` stops after some `k ≤ n` checks: the
first `k - 1` of them were negative, and either the last one was positive
(result true) or the whole budget was used without success (result false). -/
theorem pollConversionLoop_run (n : Nat) :
    ∃ k, k ≤ n ∧ (pollConversionLoop W n s).1 = afterChecks W s k ∧
      (∀ i, i + 1 < k → (isConversionReady W (afterChecks W s i)).2 = false) ∧
      (((pollConversionLoop W n s).2 = true ∧ 0 < k ∧
          (isConversionReady W (afterChecks W s (k - 1))).2 = true) ∨
       ((pollConversionLoop W n s).2 = false ∧ k = n ∧
          ∀ i, i < n → (isConversionReady W (afterChecks W s i)).2 = false)) := by
  induction n generalizing s with
  | zero =>
    refine ⟨0, le_refl _, rfl, ?_, Or.inr ⟨rfl, rfl, ?_⟩⟩
    · intro i hi; omega
    · intro i hi; omega
  | succ n ih =>
    by_cases hr : (isConversionReady W s).2 = true
    · refine ⟨1, by omega, ?_, ?_, Or.inl ⟨?_, by omega, ?_⟩⟩
      · simp [pollConversionLoop, hr, afterChecks_succ]
      · intro i hi; omega
      · simp [pollConversionLoop, hr]
      · simpa using hr
    · obtain ⟨k, hk, hst, hbefore, hlast⟩ := ih (isConversionReady W s).1
      have hloop : pollConversionLoop W (n + 1) s
          = pollConversionLoop W n (isConversionReady W s).1 := by
        simp [pollConversionLoop, hr]
      have hfalse : (isConversionReady W s).2 = false := by simpa using hr
      refine ⟨k + 1, by omega, ?_, ?_, ?_⟩
      · rw [hloop, hst, afterChecks_succ]
      · intro i hi
        cases i with
        | zero => simpa using hfalse
        | succ j => rw [afterChecks_succ]; exact hbefore j (by omega)
      · rcases hlast with ⟨hres, hpos, hready⟩ | ⟨hres, hkn, hnone⟩
        · refine Or.inl ⟨by rw [hloop]; exact hres, by omega, ?_⟩
          obtain ⟨j, rfl⟩ : ∃ j, k = j + 1 := ⟨k - 1, by omega⟩
          simpa [afterChecks_succ] using hready
        · refine Or.inr ⟨by rw [hloop]; exact hres, by omega, ?_⟩
          intro i hi
          cases i with
          | zero => simpa using hfalse
          | succ j => rw [afterChecks_succ]; exact hnone j (by omega)

theorem pollConversion_members (n : Nat) :
    (pollConversion W s n).1.devAddr = s.devAddr ∧
    (pollConversion W s n).1.devMode = s.devMode ∧
    (pollConversion W s n).1.muxMode = s.muxMode ∧
    (pollConversion W s n).1.pgaMode = s.pgaMode ∧
    (pollConversion W s n).1.configValue = s.configValue := by
  obtain ⟨k, -, hst, -, -⟩ := pollConversionLoop_run W s n
  unfold pollConversion
  rw [hst]
  exact afterChecks_members W s k

end Primitives

/-! ## Bit-field arithmetic -/

section Bits

@[simp]
theorem os_bit_eq : ADS1115_CFG_OS_BIT = 32768 := by decide
@[simp]
theorem mux_mask_eq : ADS1115_CFG_MUX_MASK = 28672 := by decide
@[simp]
theorem mux_shift_eq : ADS1115_CFG_MUX_SHIFT = 12 := rfl
@[simp]
theorem pga_mask_eq : ADS1115_CFG_PGA_MASK = 3584 := by decide
@[simp]
theorem pga_shift_eq : ADS1115_CFG_PGA_SHIFT = 9 := rfl
@[simp]
theorem mode_bit_eq : ADS1115_CFG_MODE_BIT = 256 := by decide
@[simp]
theorem dr_mask_eq : ADS1115_CFG_DR_MASK = 224 := by decide
@[simp]
theorem dr_shift_eq : ADS1115_CFG_DR_SHIFT = 5 := rfl
@[simp]
theorem comp_mode_bit_eq : ADS1115_CFG_COMP_MODE_BIT = 16 := by decide
@[simp]
theorem comp_pol_bit_eq : ADS1115_CFG_COMP_POL_BIT = 8 := by decide
@[simp]
theorem comp_lat_bit_eq : ADS1115_CFG_COMP_LAT_BIT = 4 := by decide
@[simp]
theorem comp_que_mask_eq : ADS1115_CFG_COMP_QUE_MASK = 3 := by decide
@[simp]
theorem comp_que_shift_eq : ADS1115_CFG_COMP_QUE_SHIFT = 0 := rfl
@[simp]
theorem ra_conversion_eq : ADS1115_RA_CONVERSION = 0 := rfl
@[simp]
theorem ra_config_eq : ADS1115_RA_CONFIG = 1 := rfl
@[simp]
theorem mode_continuous_eq : ADS1115_MODE_CONTINUOUS = 0 := rfl
@[simp]
theorem mode_singleshot_eq : ADS1115_MODE_SINGLESHOT = 1 := rfl

@[simp]
theorem bitNot16_28672 : bitNot16 28672 = 36863 := by decide
@[simp]
theorem bitNot16_3584 : bitNot16 3584 = 61951 := by decide
@[simp]
theorem bitNot16_256 : bitNot16 256 = 65279 := by decide
@[simp]
theorem bitNot16_224 : bitNot16 224 = 65311 := by decide
@[simp]
theorem bitNot16_16 : bitNot16 16 = 65519 := by decide
@[simp]
theorem bitNot16_8 : bitNot16 8 = 65527 := by decide
@[simp]
theorem bitNot16_4 : bitNot16 4 = 65531 := by decide
@[simp]
theorem bitNot16_3 : bitNot16 3 = 65532 := by decide

/-- Merging a field into a word: the field of the result is the new field. -/
theorem merge_and_mask (c x m n : Nat) (h : n &&& m = 0) :
    ((c &&& n) ||| (x &&& m)) &&& m = x &&& m := by
  apply Nat.eq_of_testBit_eq
  intro i
  have hi := congrArg (fun t => Nat.testBit t i) h
  simp only [Nat.testBit_and, Nat.testBit_or, Nat.zero_testBit] at hi ⊢
  cases hc : c.testBit i <;> cases hx : x.testBit i <;> cases hm : m.testBit i <;>
    cases hn : n.testBit i <;> simp_all

/-- Merging a field into a word: the bits kept by `n` are those of the old
word. -/
theorem merge_and_compl (c x m n : Nat) (h : n &&& m = 0) :
    ((c &&& n) ||| (x &&& m)) &&& n = c &&& n := by
  apply Nat.eq_of_testBit_eq
  intro i
  have hi := congrArg (fun t => Nat.testBit t i) h
  simp only [Nat.testBit_and, Nat.testBit_or, Nat.zero_testBit] at hi ⊢
  cases hc : c.testBit i <;> cases hx : x.testBit i <;> cases hm : m.testBit i <;>
    cases hn : n.testBit i <;> simp_all

theorem and_u16 (c : Nat) (h : c < 65536) : c &&& 65535 = c := by
  have := Nat.and_pow_two_sub_one_eq_mod c 16
  simpa [Nat.mod_eq_of_lt h] using this

/-- Clearing a flag and setting it again is setting it, on a word covered by
`n ||| f`. -/
theorem clear_set_flag (c f n : Nat) (hc : c &&& (n ||| f) = c) :
    (c &&& n) ||| f = c ||| f := by
  apply Nat.eq_of_testBit_eq
  intro i
  have hi := congrArg (fun t => Nat.testBit t i) hc
  simp only [Nat.testBit_and, Nat.testBit_or] at hi ⊢
  cases hc : c.testBit i <;> cases hm : f.testBit i <;>
    cases hn : n.testBit i <;> simp_all

theorem or_and_self (c f : Nat) : (c ||| f) &&& f = f := by
  apply Nat.eq_of_testBit_eq
  intro i
  simp only [Nat.testBit_and, Nat.testBit_or]
  cases c.testBit i <;> cases f.testBit i <;> rfl

theorem and_and_disjoint (c f n : Nat) (h : n &&& f = 0) : (c &&& n) &&& f = 0 := by
  rw [Nat.and_assoc, h, Nat.and_zero]

theorem or_and_compl (c f n : Nat) (h : n &&& f = 0) : (c ||| f) &&& n = c &&& n := by
  apply Nat.eq_of_testBit_eq
  intro i
  have hi := congrArg (fun t => Nat.testBit t i) h
  simp only [Nat.testBit_and, Nat.testBit_or, Nat.zero_testBit] at hi ⊢
  cases hc : c.testBit i <;> cases hm : f.testBit i <;>
    cases hn : n.testBit i <;> simp_all

set_option maxRecDepth 100000 in
theorem extract_mux : ∀ x, x < 256 → ((x <<< 12) &&& 28672) >>> 12 = x % 8 := by decide

set_option maxRecDepth 100000 in
theorem extract_pga : ∀ x, x < 256 → ((x <<< 9) &&& 3584) >>> 9 = x % 8 := by decide

set_option maxRecDepth 100000 in
theorem extract_dr : ∀ x, x < 256 → ((x <<< 5) &&& 224) >>> 5 = x % 8 := by decide

set_option maxRecDepth 100000 in
theorem extract_que : ∀ x, x < 256 → ((x <<< 0) &&& 3) >>> 0 = x % 4 := by decide

/-- The multi-bit update computed by the setters is a field update. -/
theorem isFieldUpdate_merge (mask shift width c v : Nat)
    (hm : (65535 - mask) &&& mask = 0)
    (hx : ((v <<< shift) &&& mask) >>> shift = v % 2 ^ width) :
    IsFieldUpdate mask shift width c v
      ((c &&& (65535 - mask)) ||| ((v <<< shift) &&& mask)) := by
  refine ⟨rfl, merge_and_compl _ _ _ _ hm, ?_⟩
  rw [merge_and_mask _ _ _ _ hm, hx]

/-- The one-bit update computed by the setters is a flag update. -/
theorem isFlagUpdate_merge (flag c v : Nat) (hc : c < 65536) (hf : 0 < flag)
    (hm : (65535 - flag) &&& flag = 0) (hu : (65535 - flag) ||| flag = 65535) :
    IsFlagUpdate flag c v
      (if v ≠ 0 then (c &&& (65535 - flag)) ||| flag else c &&& (65535 - flag)) := by
  have hcov : c &&& ((65535 - flag) ||| flag) = c := by rw [hu]; exact and_u16 c hc
  have hne : flag ≠ 0 := by omega
  by_cases hv : v = 0
  · subst hv
    have h0 : (c &&& (65535 - flag)) &&& flag = 0 := and_and_disjoint _ _ _ hm
    simp only [IsFlagUpdate, ne_eq, not_true_eq_false, if_false, h0, true_and, true_iff,
      iff_false, Nat.and_assoc, Nat.and_self]
    exact ⟨fun h => hne h.symm, trivial⟩
  · have h1 : ((c &&& (65535 - flag)) ||| flag) &&& flag = flag := or_and_self _ _
    have h2 : ((c &&& (65535 - flag)) ||| flag) &&& (65535 - flag) = c &&& (65535 - flag) := by
      rw [or_and_compl _ _ _ hm, Nat.and_assoc, Nat.and_self]
    simp only [IsFlagUpdate, ne_eq, hv, not_false_eq_true, if_true, h1, h2, true_and,
      iff_true, iff_false]
    exact ⟨clear_set_flag _ _ _ hcov, hne⟩

end Bits

/-! ## Frame and traffic lemmas for the driver operations -/

section Operations

variable (W : TwoWire β) (s : Handle β)

@[simp]
theorem triggerConversion_members :
    (triggerConversion W s).devAddr = s.devAddr ∧
    (triggerConversion W s).devMode = s.devMode ∧
    (triggerConversion W s).muxMode = s.muxMode ∧
    (triggerConversion W s).pgaMode = s.pgaMode ∧
    (triggerConversion W s).configValue = s.configValue ||| 32768 := by
  simp [triggerConversion]

@[simp]
theorem triggerConversion_log :
    (triggerConversion W s).log
      = s.log ++ writeTxn s.devAddr 1 (s.configValue ||| 32768) := by
  simp [triggerConversion]

@[simp]
theorem setMode_members (mode : Nat) :
    (setMode W s mode).devAddr = s.devAddr ∧
    (setMode W s mode).devMode = mode ∧
    (setMode W s mode).muxMode = s.muxMode ∧
    (setMode W s mode).pgaMode = s.pgaMode ∧
    (setMode W s mode).configValue
      = (if mode ≠ 0 then (s.configValue &&& 65279) ||| 256 else s.configValue &&& 65279) := by
  by_cases h : mode = 0 <;> simp [setMode, h]

@[simp]
theorem setMode_log (mode : Nat) :
    (setMode W s mode).log
      = s.log ++ writeTxn s.devAddr 1 (setMode W s mode).configValue := by
  by_cases h : mode = 0 <;> simp [setMode, h]

@[simp]
theorem setRate_members (rate : Nat) :
    (setRate W s rate).devAddr = s.devAddr ∧
    (setRate W s rate).devMode = s.devMode ∧
    (setRate W s rate).muxMode = s.muxMode ∧
    (setRate W s rate).pgaMode = s.pgaMode ∧
    (setRate W s rate).configValue
      = (s.configValue &&& 65311) ||| ((rate <<< 5) &&& 224) := by
  simp [setRate]

@[simp]
theorem setRate_log (rate : Nat) :
    (setRate W s rate).log
      = s.log ++ writeTxn s.devAddr 1 (setRate W s rate).configValue := by
  simp [setRate]

@[simp]
theorem setComparatorQueueMode_members (mode : Nat) :
    (setComparatorQueueMode W s mode).devAddr = s.devAddr ∧
    (setComparatorQueueMode W s mode).devMode = s.devMode ∧
    (setComparatorQueueMode W s mode).muxMode = s.muxMode ∧
    (setComparatorQueueMode W s mode).pgaMode = s.pgaMode ∧
    (setComparatorQueueMode W s mode).configValue
      = (s.configValue &&& 65532) ||| ((mode <<< 0) &&& 3) := by
  simp [setComparatorQueueMode]

@[simp]
theorem setComparatorQueueMode_log (mode : Nat) :
    (setComparatorQueueMode W s mode).log
      = s.log ++ writeTxn s.devAddr 1 (setComparatorQueueMode W s mode).configValue := by
  simp [setComparatorQueueMode]

@[simp]
theorem setComparatorMode_members (mode : Nat) :
    (setComparatorMode W s mode).devAddr = s.devAddr ∧
    (setComparatorMode W s mode).devMode = s.devMode ∧
    (setComparatorMode W s mode).muxMode = s.muxMode ∧
    (setComparatorMode W s mode).pgaMode = s.pgaMode ∧
    (setComparatorMode W s mode).wire = s.wire ∧
    (setComparatorMode W s mode).log = s.log ∧
    (setComparatorMode W s mode).configValue
      = (if mode ≠ 0 then (s.configValue &&& 65519) ||| 16 else s.configValue &&& 65519) := by
  by_cases h : mode = 0 <;> simp [setComparatorMode, h]

@[simp]
theorem setComparatorPolarity_members (polarity : Nat) :
    (setComparatorPolarity W s polarity).devAddr = s.devAddr ∧
    (setComparatorPolarity W s polarity).devMode = s.devMode ∧
    (setComparatorPolarity W s polarity).muxMode = s.muxMode ∧
    (setComparatorPolarity W s polarity).pgaMode = s.pgaMode ∧
    (setComparatorPolarity W s polarity).wire = s.wire ∧
    (setComparatorPolarity W s polarity).log = s.log ∧
    (setComparatorPolarity W s polarity).configValue
      = (if polarity ≠ 0 then (s.configValue &&& 65527) ||| 8
         else s.configValue &&& 65527) := by
  by_cases h : polarity = 0 <;> simp [setComparatorPolarity, h]

@[simp]
theorem setComparatorLatchEnabled_members (enabled : Nat) :
    (setComparatorLatchEnabled W s enabled).devAddr = s.devAddr ∧
    (setComparatorLatchEnabled W s enabled).devMode = s.devMode ∧
    (setComparatorLatchEnabled W s enabled).muxMode = s.muxMode ∧
    (setComparatorLatchEnabled W s enabled).pgaMode = s.pgaMode ∧
    (setComparatorLatchEnabled W s enabled).wire = s.wire ∧
    (setComparatorLatchEnabled W s enabled).log = s.log ∧
    (setComparatorLatchEnabled W s enabled).configValue
      = (if enabled ≠ 0 then (s.configValue &&& 65531) ||| 4
         else s.configValue &&& 65531) := by
  by_cases h : enabled = 0 <;> simp [setComparatorLatchEnabled, h]

/-- Members after `getConversion`: only the shadow word can change, by the
start-conversion bit being set when a conversion is triggered. -/
@[simp]
theorem getConversion_members (tp : Bool) :
    (getConversion W s tp).1.devAddr = s.devAddr ∧
    (getConversion W s tp).1.devMode = s.devMode ∧
    (getConversion W s tp).1.muxMode = s.muxMode ∧
    (getConversion W s tp).1.pgaMode = s.pgaMode ∧
    (getConversion W s tp).1.configValue
      = (if tp = true ∧ s.devMode = 1 then s.configValue ||| 32768 else s.configValue) := by
  by_cases h : tp = true ∧ s.devMode = 1
  · have hp := pollConversion_members W (triggerConversion W s) 1000
    obtain ⟨h1, h2⟩ := h
    simp [getConversion, h1, h2, hp]
  · have h2 : (tp && s.devMode == 1) = false := by
      cases tp <;> simp_all
    simp [getConversion, h2, h]

/-- Traffic of a triggered `getConversion`: the trigger write, between one
and a thousand reads of the configuration register, one read of the
conversion register. -/
theorem getConversion_log_triggered (h : s.devMode = 1) :
    ∃ k, 1 ≤ k ∧ k ≤ 1000 ∧
      (pollConversion W (triggerConversion W s) 1000).1
        = afterChecks W (triggerConversion W s) k ∧
      ((pollConversion W (triggerConversion W s) 1000).2 = false → k = 1000) ∧
      (getConversion W s true).1.log
        = s.log ++ writeTxn s.devAddr 1 (s.configValue ||| 32768)
            ++ repeatCalls k (readTxn s.devAddr 1) ++ readTxn s.devAddr 0 := by
  obtain ⟨k, hk, hst, -, hlast⟩ := pollConversionLoop_run W (triggerConversion W s) 1000
  have hk1 : 1 ≤ k := by
    rcases hlast with ⟨-, hpos, -⟩ | ⟨-, hkn, -⟩ <;> omega
  refine ⟨k, hk1, hk, hst, ?_, ?_⟩
  · intro hf
    rcases hlast with ⟨ht, -, -⟩ | ⟨-, hkn, -⟩
    · unfold pollConversion at hf; rw [hf] at ht; exact absurd ht (by decide)
    · exact hkn
  · have hm := afterChecks_members W (triggerConversion W s) k
    have hl := afterChecks_log W (triggerConversion W s) k
    simp [getConversion, h, pollConversion, hst, hm, hl]

/-- Traffic of an untriggered `getConversion`: one read of the conversion
register. -/
theorem getConversion_log_plain (tp : Bool) (h : ¬ (tp = true ∧ s.devMode = 1)) :
    (getConversion W s tp).1.log = s.log ++ readTxn s.devAddr 0 := by
  have h2 : (tp && s.devMode == 1) = false := by
    cases tp <;> simp_all
  simp [getConversion, h2]

@[simp]
theorem setMultiplexer_members (mux : Nat) :
    (setMultiplexer W s mux).devAddr = s.devAddr ∧
    (setMultiplexer W s mux).devMode = s.devMode ∧
    (setMultiplexer W s mux).muxMode = mux ∧
    (setMultiplexer W s mux).pgaMode = s.pgaMode := by
  by_cases h : s.devMode = 0
  · simp [setMultiplexer, h]
  · simp [setMultiplexer, h]

@[simp]
theorem setGain_members (gain : Nat) :
    (setGain W s gain).devAddr = s.devAddr ∧
    (setGain W s gain).devMode = s.devMode ∧
    (setGain W s gain).muxMode = s.muxMode ∧
    (setGain W s gain).pgaMode = gain := by
  by_cases h : s.devMode = 0
  · simp [setGain, h]
  · simp [setGain, h]

/-- Shadow word after `setMultiplexer`, in either tracked mode. -/
theorem setMultiplexer_configValue (mux : Nat) :
    (setMultiplexer W s mux).configValue
      = (if s.devMode = 0 then
          ((((s.configValue &&& 36863) ||| ((mux <<< 12) &&& 28672)) &&& 65279 ||| 256)
            ||| 32768) &&& 65279
         else (s.configValue &&& 36863) ||| ((mux <<< 12) &&& 28672)) := by
  by_cases h : s.devMode = 0
  · simp [setMultiplexer, h]
  · simp [setMultiplexer, h]

/-- Shadow word after `setGain`, in either tracked mode. -/
theorem setGain_configValue (gain : Nat) :
    (setGain W s gain).configValue
      = (if s.devMode = 0 then
          ((((s.configValue &&& 61951) ||| ((gain <<< 9) &&& 3584)) &&& 65279 ||| 256)
            ||| 32768) &&& 65279
         else (s.configValue &&& 61951) ||| ((gain <<< 9) &&& 3584)) := by
  by_cases h : s.devMode = 0
  · simp [setGain, h]
  · simp [setGain, h]

end Operations

/-! ## Field setters -/

/-- Claim C1.  For every 16-bit shadow word `c` and every 8-bit argument `v`:
`setMultiplexer` (mask 0x7000, shift 12) and `setGain` (mask 0x0E00, shift 9),
when the tracked mode is not continuous, and `setRate` (mask 0x00E0, shift 5)
and `setComparatorQueueMode` (mask 0x0003, shift 0) leave the shadow equal to
`(c AND NOT mask) OR ((v << shift) AND mask)`, every bit outside the mask
unchanged and the field holding `v` reduced to the field width; `setMode`
(0x0100), `setComparatorMode` (0x0010), `setComparatorPolarity` (0x0008) and
`setComparatorLatchEnabled` (0x0004) leave the shadow equal to `c` with the
one flag bit set iff `v` is non-zero. -/
theorem setters_update_exactly_their_field (W : TwoWire β) (s : Handle β) (v : Nat)
    (hc : s.configValue < 65536) (hv : v < 256) :
    (s.devMode ≠ ADS1115_MODE_CONTINUOUS →
      IsFieldUpdate 0x7000 12 3 s.configValue v (setMultiplexer W s v).configValue) ∧
    (s.devMode ≠ ADS1115_MODE_CONTINUOUS →
      IsFieldUpdate 0x0E00 9 3 s.configValue v (setGain W s v).configValue) ∧
    IsFieldUpdate 0x00E0 5 3 s.configValue v (setRate W s v).configValue ∧
    IsFieldUpdate 0x0003 0 2 s.configValue v (setComparatorQueueMode W s v).configValue ∧
    IsFlagUpdate 0x0100 s.configValue v (setMode W s v).configValue ∧
    IsFlagUpdate 0x0010 s.configValue v (setComparatorMode W s v).configValue ∧
    IsFlagUpdate 0x0008 s.configValue v (setComparatorPolarity W s v).configValue ∧
    IsFlagUpdate 0x0004 s.configValue v (setComparatorLatchEnabled W s v).configValue := by
  refine ⟨?_, ?_, ?_, ?_, ?_, ?_, ?_, ?_⟩
  · intro hm
    have hm0 : ¬ s.devMode = 0 := by simpa using hm
    rw [setMultiplexer_configValue, if_neg hm0]
    exact isFieldUpdate_merge 28672 12 3 _ v (by decide) (extract_mux v hv)
  · intro hm
    have hm0 : ¬ s.devMode = 0 := by simpa using hm
    rw [setGain_configValue, if_neg hm0]
    exact isFieldUpdate_merge 3584 9 3 _ v (by decide) (extract_pga v hv)
  · rw [(setRate_members W s v).2.2.2.2]
    exact isFieldUpdate_merge 224 5 3 _ v (by decide) (extract_dr v hv)
  · rw [(setComparatorQueueMode_members W s v).2.2.2.2]
    exact isFieldUpdate_merge 3 0 2 _ v (by decide) (extract_que v hv)
  · rw [(setMode_members W s v).2.2.2.2]
    exact isFlagUpdate_merge 256 _ v hc (by decide) (by decide) (by decide)
  · rw [(setComparatorMode_members W s v).2.2.2.2.2.2]
    exact isFlagUpdate_merge 16 _ v hc (by decide) (by decide) (by decide)
  · rw [(setComparatorPolarity_members W s v).2.2.2.2.2.2]
    exact isFlagUpdate_merge 8 _ v hc (by decide) (by decide) (by decide)
  · rw [(setComparatorLatchEnabled_members W s v).2.2.2.2.2.2]
    exact isFlagUpdate_merge 4 _ v hc (by decide) (by decide) (by decide)

/-- Witness for claim C1: the out-of-range argument 255 on a single-shot
driver whose shadow word is 0xFFFF. -/
theorem setters_update_exactly_their_field_witness :
    handleOnes.configValue < 65536 ∧ 255 < 256 ∧
    handleOnes.devMode ≠ ADS1115_MODE_CONTINUOUS ∧
    IsFieldUpdate 0x7000 12 3 0xFFFF 255 (setMultiplexer echoWire handleOnes 255).configValue ∧
    IsFieldUpdate 0x0E00 9 3 0xFFFF 255 (setGain echoWire handleOnes 255).configValue ∧
    IsFlagUpdate 0x0100 0xFFFF 255 (setMode echoWire handleOnes 255).configValue :=
  ⟨by decide, by decide, by decide,
   (setters_update_exactly_their_field echoWire handleOnes 255 (by decide) (by decide)).1
     (by decide),
   (setters_update_exactly_their_field echoWire handleOnes 255 (by decide) (by decide)).2.1
     (by decide),
   (setters_update_exactly_their_field echoWire handleOnes 255 (by decide)
     (by decide)).2.2.2.2.1⟩

/-! ## The echoing transport double -/

section Echo

theorem toU16_natCast (n : Nat) : toU16 (n : Int) = n % 65536 := by
  unfold toU16; omega

theorem toU16_hi (n : Nat) : toU16 ((n : Int) / 256 % 256) = n / 256 % 256 := by
  unfold toU16; omega

theorem toU16_lo (n : Nat) : toU16 ((n : Int) % 256) = n % 256 := by
  unfold toU16; omega

theorem echo_write_config (s : Handle SimBus) (v : Nat) :
    (writeRegister echoWire s 1 v).wire.config = v % 65536 := by
  simp [writeRegister, wireBegin, wireWrite, wireEnd, echoWire, SimBus.commit, hi_byte, lo_byte]
  omega

theorem echo_read_config (t : Handle SimBus) :
    (readRegister echoWire t 1).2 = t.wire.config % 65536 := by
  simp [readRegister, wireBegin, wireWrite, wireEnd, wireDelay, wireRequestFrom, wireRead,
    echoWire, SimBus.commit, SimBus.selected, toU16_natCast, toU16_hi, toU16_lo]
  rw [combine_bytes _ _ (by omega)]
  omega

/-- The echoing double reads back the configuration word just written. -/
theorem echoWire_echoes : EchoesConfig echoWire := by
  intro s t v hv _ hw
  have h := echo_read_config t
  rw [hw] at h
  have h2 := echo_write_config s v
  simp only [ra_config_eq] at h ⊢
  rw [h, h2]
  omega

end Echo

/-! ## Write-through setters leave the device holding the shadow word -/

section Flush

variable (W : TwoWire β) (s : Handle β)

theorem flushed_writeRegister (t : Handle β) (hc : t.configValue = s.configValue)
    (ha : t.devAddr = s.devAddr)
    (hw : t.wire = (writeRegister W s ADS1115_RA_CONFIG s.configValue).wire) :
    Flushed W t :=
  ⟨s, ha.symm, by rw [hw, hc]⟩

theorem flushed_setMode (mode : Nat) : Flushed W (setMode W s mode) := by
  by_cases h : mode = 0
  · exact flushed_writeRegister W { s with configValue := s.configValue &&& 65279 } _
      (by simp [setMode, h]) (by simp [setMode, h]) (by simp [setMode, h])
  · exact flushed_writeRegister W { s with configValue := (s.configValue &&& 65279) ||| 256 } _
      (by simp [setMode, h]) (by simp [setMode, h]) (by simp [setMode, h])

theorem flushed_triggerConversion : Flushed W (triggerConversion W s) :=
  flushed_writeRegister W { s with configValue := s.configValue ||| 32768 } _
    (by simp [triggerConversion]) (by simp [triggerConversion]) (by simp [triggerConversion])

theorem flushed_setRate (rate : Nat) : Flushed W (setRate W s rate) :=
  flushed_writeRegister W
    { s with configValue := (s.configValue &&& 65311) ||| ((rate <<< 5) &&& 224) } _
    (by simp [setRate]) (by simp [setRate]) (by simp [setRate])

theorem flushed_setComparatorQueueMode (mode : Nat) :
    Flushed W (setComparatorQueueMode W s mode) :=
  flushed_writeRegister W
    { s with configValue := (s.configValue &&& 65532) ||| ((mode <<< 0) &&& 3) } _
    (by simp [setComparatorQueueMode]) (by simp [setComparatorQueueMode])
    (by simp [setComparatorQueueMode])

theorem flushed_setMultiplexer (mux : Nat) : Flushed W (setMultiplexer W s mux) := by
  by_cases h : s.devMode = 0
  · have hs : ∃ t, setMultiplexer W s mux = setMode W t 0 := by
      simp only [setMultiplexer, writeRegister_members, h, mode_continuous_eq, if_true]
      exact ⟨_, rfl⟩
    obtain ⟨t, ht⟩ := hs
    rw [ht]
    exact flushed_setMode W t 0
  · exact flushed_writeRegister W
      { s with configValue := (s.configValue &&& 36863) ||| ((mux <<< 12) &&& 28672) } _
      (by simp [setMultiplexer, h]) (by simp [setMultiplexer, h]) (by simp [setMultiplexer, h])

theorem flushed_setGain (gain : Nat) : Flushed W (setGain W s gain) := by
  by_cases h : s.devMode = 0
  · have hs : ∃ t, setGain W s gain = setMode W t 0 := by
      simp only [setGain, writeRegister_members, h, mode_continuous_eq, if_true]
      exact ⟨_, rfl⟩
    obtain ⟨t, ht⟩ := hs
    rw [ht]
    exact flushed_setMode W t 0
  · exact flushed_writeRegister W
      { s with configValue := (s.configValue &&& 61951) ||| ((gain <<< 9) &&& 3584) } _
      (by simp [setGain, h]) (by simp [setGain, h]) (by simp [setGain, h])

/-- On an echoing transport a flushed 16-bit shadow word is what the next
read of the configuration register returns. -/
theorem read_flushed (hW : EchoesConfig W) (t : Handle β) (hf : Flushed W t)
    (hc : t.configValue < 65536) :
    (readRegister W t ADS1115_RA_CONFIG).2 = t.configValue := by
  obtain ⟨u, ha, hw⟩ := hf
  exact hW u t _ hc ha.symm hw

theorem merge_lt (c x m n : Nat) (hn : n < 65536) (hm : m < 65536) :
    (c &&& n) ||| (x &&& m) < 65536 :=
  Nat.or_lt_two_pow (n := 16) (Nat.and_lt_two_pow c (n := 16) hn)
    (Nat.and_lt_two_pow x (n := 16) hm)

theorem and_const_lt (c n : Nat) (hn : n < 65536) : c &&& n < 65536 :=
  Nat.and_lt_two_pow c (n := 16) hn

theorem setMultiplexer_lt (mux : Nat) : (setMultiplexer W s mux).configValue < 65536 := by
  rw [setMultiplexer_configValue]
  split
  · exact and_const_lt _ _ (by decide)
  · exact merge_lt _ _ _ _ (by decide) (by decide)

theorem setGain_lt (gain : Nat) : (setGain W s gain).configValue < 65536 := by
  rw [setGain_configValue]
  split
  · exact and_const_lt _ _ (by decide)
  · exact merge_lt _ _ _ _ (by decide) (by decide)

theorem setMode_lt (mode : Nat) : (setMode W s mode).configValue < 65536 := by
  rw [(setMode_members W s mode).2.2.2.2]
  split
  · exact Nat.or_lt_two_pow (n := 16) (and_const_lt _ _ (by decide)) (by decide)
  · exact and_const_lt _ _ (by decide)

theorem setRate_lt (rate : Nat) : (setRate W s rate).configValue < 65536 := by
  rw [(setRate_members W s rate).2.2.2.2]
  exact merge_lt _ _ _ _ (by decide) (by decide)

theorem setComparatorQueueMode_lt (mode : Nat) :
    (setComparatorQueueMode W s mode).configValue < 65536 := by
  rw [(setComparatorQueueMode_members W s mode).2.2.2.2]
  exact merge_lt _ _ _ _ (by decide) (by decide)

theorem and_and_sub (w n m : Nat) (h : n &&& m = m) : (w &&& n) &&& m = w &&& m := by
  rw [Nat.and_assoc, h]

/-- The stop/start cycle touches only the start-conversion and mode bits:
any mask `k` avoiding both sees the word as it was before the cycle. -/
theorem cycle_keeps (y k : Nat) (h1 : 65279 &&& k = k) (h2 : k &&& 32768 = 0)
    (h3 : k &&& 256 = 0) :
    ((((y &&& 65279) ||| 256) ||| 32768) &&& 65279) &&& k = y &&& k := by
  rw [and_and_sub _ _ _ h1, or_and_compl _ _ _ h2, or_and_compl _ _ _ h3,
    and_and_sub _ _ _ h1]

end Flush

/-! ## Set-then-get round trips -/

section RoundTrip

variable (W : TwoWire β) (s : Handle β)

theorem merge_and_sub (c x m n k : Nat) (h1 : n &&& k = k) (h2 : m &&& k = 0) :
    ((c &&& n) ||| (x &&& m)) &&& k = c &&& k := by
  apply Nat.eq_of_testBit_eq
  intro i
  have hi1 := congrArg (fun t => Nat.testBit t i) h1
  have hi2 := congrArg (fun t => Nat.testBit t i) h2
  simp only [Nat.testBit_and, Nat.testBit_or, Nat.zero_testBit] at hi1 hi2 ⊢
  cases hc : c.testBit i <;> cases hx : x.testBit i <;> cases hm : m.testBit i <;>
    cases hn : n.testBit i <;> cases hk : k.testBit i <;> simp_all

/-- The value a register read returns depends on the device address and the
bus state only. -/
theorem readRegister_value_congr (t : Handle β) (r : Nat) (ha : t.devAddr = s.devAddr)
    (hw : t.wire = s.wire) : (readRegister W t r).2 = (readRegister W s r).2 := by
  simp [readRegister, wireBegin, wireWrite, wireEnd, wireDelay, wireRequestFrom, wireRead,
    ha, hw]

theorem getMultiplexer_setMultiplexer (hW : EchoesConfig W) (m : Nat) (hm : m < 8) :
    (getMultiplexer W (setMultiplexer W s m)).2 = m := by
  have hr := read_flushed W hW _ (flushed_setMultiplexer W s m) (setMultiplexer_lt W s m)
  have hx := extract_mux m (by omega)
  simp only [getMultiplexer, hr, mux_mask_eq, mux_shift_eq]
  rw [setMultiplexer_configValue]
  split
  · rw [cycle_keeps _ 28672 (by decide) (by decide) (by decide),
      merge_and_mask _ _ _ _ (by decide), hx]
    omega
  · rw [merge_and_mask _ _ _ _ (by decide), hx]
    omega

theorem getGain_setGain (hW : EchoesConfig W) (g : Nat) (hg : g < 8) :
    (getGain W (setGain W s g)).2 = g := by
  have hr := read_flushed W hW _ (flushed_setGain W s g) (setGain_lt W s g)
  have hx := extract_pga g (by omega)
  simp only [getGain, hr, pga_mask_eq, pga_shift_eq]
  rw [setGain_configValue]
  split
  · rw [cycle_keeps _ 3584 (by decide) (by decide) (by decide),
      merge_and_mask _ _ _ _ (by decide), hx]
    omega
  · rw [merge_and_mask _ _ _ _ (by decide), hx]
    omega

theorem getRate_setRate (hW : EchoesConfig W) (r : Nat) (hr8 : r < 8) :
    (getRate W (setRate W s r)).2 = r := by
  have hr := read_flushed W hW _ (flushed_setRate W s r) (setRate_lt W s r)
  have hx := extract_dr r (by omega)
  simp only [getRate, hr, dr_mask_eq, dr_shift_eq]
  rw [(setRate_members W s r).2.2.2.2, merge_and_mask _ _ _ _ (by decide), hx]
  omega

theorem getQueue_setQueue (hW : EchoesConfig W) (q : Nat) (hq : q < 4) :
    (getComparatorQueueMode W (setComparatorQueueMode W s q)).2 = q := by
  have hr := read_flushed W hW _ (flushed_setComparatorQueueMode W s q)
    (setComparatorQueueMode_lt W s q)
  have hx := extract_que q (by omega)
  simp only [getComparatorQueueMode, hr, comp_que_mask_eq, comp_que_shift_eq]
  rw [(setComparatorQueueMode_members W s q).2.2.2.2, merge_and_mask _ _ _ _ (by decide), hx]
  omega

theorem getMode_setMode (hW : EchoesConfig W) (d : Nat) (hd : d < 2) :
    (getMode W (setMode W s d)).2 = d := by
  have hr := read_flushed W hW _ (flushed_setMode W s d) (setMode_lt W s d)
  simp only [getMode, hr, mode_bit_eq]
  rw [(setMode_members W s d).2.2.2.2]
  by_cases h0 : d = 0
  · subst h0
    simp [and_and_disjoint _ 256 65279 (by decide)]
  · have h1 : d = 1 := by omega
    subst h1
    simp [or_and_self]

end RoundTrip

/-- Claim C2.  Against a transport whose configuration register reads back the
value last written to it, from every driver state: `setMultiplexer(m)` then
`getMultiplexer()` returns `m` for `m` in 0..7, `setGain(g)` then `getGain()`
returns `g` for `g` in 0..7, `setRate(r)` then `getRate()` returns `r` for `r`
in 0..7, `setComparatorQueueMode(q)` then `getComparatorQueueMode()` returns
`q` for `q` in 0..3, and `setMode(d)` then `getMode()` returns `d` for `d` in
0..1. -/
theorem set_then_get_returns_value (W : TwoWire β) (hW : EchoesConfig W) (s : Handle β) :
    (∀ m, m < 8 → (getMultiplexer W (setMultiplexer W s m)).2 = m) ∧
    (∀ g, g < 8 → (getGain W (setGain W s g)).2 = g) ∧
    (∀ r, r < 8 → (getRate W (setRate W s r)).2 = r) ∧
    (∀ q, q < 4 → (getComparatorQueueMode W (setComparatorQueueMode W s q)).2 = q) ∧
    (∀ d, d < 2 → (getMode W (setMode W s d)).2 = d) :=
  ⟨getMultiplexer_setMultiplexer W s hW, getGain_setGain W s hW, getRate_setRate W s hW,
   getQueue_setQueue W s hW, getMode_setMode W s hW⟩

/-- Witness for claim C2: the echoing double, a driver in continuous mode
(so that the stop/start cycle runs), and the largest selectors. -/
theorem set_then_get_returns_value_witness :
    EchoesConfig echoWire ∧
    (getMultiplexer echoWire (setMultiplexer echoWire handleContinuous 7)).2 = 7 ∧
    (getGain echoWire (setGain echoWire handleContinuous 7)).2 = 7 ∧
    (getRate echoWire (setRate echoWire handleContinuous 7)).2 = 7 ∧
    (getComparatorQueueMode echoWire (setComparatorQueueMode echoWire handleContinuous 3)).2 = 3 ∧
    (getMode echoWire (setMode echoWire handleContinuous 1)).2 = 1 :=
  ⟨echoWire_echoes,
   (set_then_get_returns_value echoWire echoWire_echoes handleContinuous).1 7 (by decide),
   (set_then_get_returns_value echoWire echoWire_echoes handleContinuous).2.1 7 (by decide),
   (set_then_get_returns_value echoWire echoWire_echoes handleContinuous).2.2.1 7 (by decide),
   (set_then_get_returns_value echoWire echoWire_echoes handleContinuous).2.2.2.1 3
     (by decide),
   (set_then_get_returns_value echoWire echoWire_echoes handleContinuous).2.2.2.2 1
     (by decide)⟩

/-! ## Comparator flags live in the shadow until the next write-through -/

section ComparatorFlags

variable (W : TwoWire β) (s : Handle β)

/-- The flag bit `flag` the device returns after a queue-mode write is the
one of the shadow word before that write. -/
theorem flag_after_queue_write (hW : EchoesConfig W) (q flag : Nat)
    (h1 : 65532 &&& flag = flag) (h2 : 3 &&& flag = 0) :
    ((readRegister W (setComparatorQueueMode W s q) ADS1115_RA_CONFIG).2 &&& flag)
      = s.configValue &&& flag := by
  have hr := read_flushed W hW _ (flushed_setComparatorQueueMode W s q)
    (setComparatorQueueMode_lt W s q)
  rw [hr, (setComparatorQueueMode_members W s q).2.2.2.2, merge_and_sub _ _ _ _ _ h1 h2]

/-- The flag bit of a word produced by a one-bit setter. -/
theorem flag_of_update (c v flag n : Nat) (hv : v < 2) (hd : n &&& flag = 0)
    (hf : flag ≠ 0) :
    (if ((if v ≠ 0 then (c &&& n) ||| flag else c &&& n) &&& flag) ≠ 0 then 1 else 0) = v := by
  by_cases h0 : v = 0
  · subst h0
    simp [and_and_disjoint _ _ _ hd]
  · have h1 : v = 1 := by omega
    subst h1
    simp [or_and_self, hf]

end ComparatorFlags

/-- Claim C3, refuted as stated: on the echoing double, after construction and
`initialize()`, setting the comparator-mode, comparator-polarity or
comparator-latch flag to 1 and immediately calling the getter returns 0, not 1. -/
theorem comparator_flag_get_after_set_counterexample :
    EchoesConfig echoWire ∧
    (getComparatorMode echoWire (setComparatorMode echoWire handleReady 1)).2 ≠ 1 ∧
    (getComparatorPolarity echoWire (setComparatorPolarity echoWire handleReady 1)).2 ≠ 1 ∧
    (getComparatorLatchEnabled echoWire
      (setComparatorLatchEnabled echoWire handleReady 1)).2 ≠ 1 :=
  ⟨echoWire_echoes, by decide, by decide, by decide⟩

/-- Claim C3, amended.  Against a transport whose configuration register reads
back the value last written to it, from every driver state and for `v` in
0..1: a comparator-mode, comparator-polarity or comparator-latch setter
changes the shadow word only, so the getter called right after it returns what
it would have returned without the setter; once the shadow word has been
written through by `setComparatorQueueMode(q)` (any `q`), the getter returns
`v`. -/
theorem comparator_flag_get_after_flush (W : TwoWire β) (hW : EchoesConfig W)
    (s : Handle β) (v q : Nat) (hv : v < 2) :
    (getComparatorMode W (setComparatorQueueMode W (setComparatorMode W s v) q)).2 = v ∧
    (getComparatorPolarity W
      (setComparatorQueueMode W (setComparatorPolarity W s v) q)).2 = v ∧
    (getComparatorLatchEnabled W
      (setComparatorQueueMode W (setComparatorLatchEnabled W s v) q)).2 = v ∧
    (getComparatorMode W (setComparatorMode W s v)).2 = (getComparatorMode W s).2 ∧
    (getComparatorPolarity W (setComparatorPolarity W s v)).2
      = (getComparatorPolarity W s).2 ∧
    (getComparatorLatchEnabled W (setComparatorLatchEnabled W s v)).2
      = (getComparatorLatchEnabled W s).2 := by
  refine ⟨?_, ?_, ?_, ?_, ?_, ?_⟩
  · simp only [getComparatorMode, comp_mode_bit_eq]
    rw [flag_after_queue_write W _ hW q 16 (by decide) (by decide),
      (setComparatorMode_members W s v).2.2.2.2.2.2]
    exact flag_of_update _ v 16 65519 hv (by decide) (by decide)
  · simp only [getComparatorPolarity, comp_pol_bit_eq]
    rw [flag_after_queue_write W _ hW q 8 (by decide) (by decide),
      (setComparatorPolarity_members W s v).2.2.2.2.2.2]
    exact flag_of_update _ v 8 65527 hv (by decide) (by decide)
  · simp only [getComparatorLatchEnabled, comp_lat_bit_eq]
    rw [flag_after_queue_write W _ hW q 4 (by decide) (by decide),
      (setComparatorLatchEnabled_members W s v).2.2.2.2.2.2]
    exact flag_of_update _ v 4 65531 hv (by decide) (by decide)
  · simp only [getComparatorMode]
    rw [readRegister_value_congr W s (setComparatorMode W s v) _ (by simp) (by simp)]
  · simp only [getComparatorPolarity]
    rw [readRegister_value_congr W s (setComparatorPolarity W s v) _ (by simp) (by simp)]
  · simp only [getComparatorLatchEnabled]
    rw [readRegister_value_congr W s (setComparatorLatchEnabled W s v) _ (by simp) (by simp)]

/-- Witness for the amended claim C3: the echoing double, the initialised
driver, flag value 1 and queue selector 3. -/
theorem comparator_flag_get_after_flush_witness :
    EchoesConfig echoWire ∧ 1 < 2 ∧
    (getComparatorMode echoWire
      (setComparatorQueueMode echoWire (setComparatorMode echoWire handleReady 1) 3)).2 = 1 ∧
    (getComparatorMode echoWire (setComparatorMode echoWire handleReady 1)).2
      = (getComparatorMode echoWire handleReady).2 :=
  ⟨echoWire_echoes, by decide,
   (comparator_flag_get_after_flush echoWire echoWire_echoes handleReady 1 3 (by decide)).1,
   (comparator_flag_get_after_flush echoWire echoWire_echoes handleReady 1 3
     (by decide)).2.2.2.1⟩

/-- Claim C4.  For every driver state and argument, `setComparatorMode`,
`setComparatorPolarity` and `setComparatorLatchEnabled` make no call on the
transport (log and bus state unchanged, only the shadow word changes), while
`setMode`, `setRate` and `setComparatorQueueMode` each append exactly one
write transaction, to register 0x01 and carrying the updated shadow word,
whether or not the field value changes. -/
theorem comparator_setters_silent_others_write_once (W : TwoWire β) (s : Handle β)
    (v : Nat) :
    setComparatorMode W s v
      = { s with configValue := (setComparatorMode W s v).configValue } ∧
    setComparatorPolarity W s v
      = { s with configValue := (setComparatorPolarity W s v).configValue } ∧
    setComparatorLatchEnabled W s v
      = { s with configValue := (setComparatorLatchEnabled W s v).configValue } ∧
    (setMode W s v).log
      = s.log ++ writeTxn s.devAddr 0x01 (setMode W s v).configValue ∧
    (setRate W s v).log
      = s.log ++ writeTxn s.devAddr 0x01 (setRate W s v).configValue ∧
    (setComparatorQueueMode W s v).log
      = s.log ++ writeTxn s.devAddr 0x01 (setComparatorQueueMode W s v).configValue := by
  refine ⟨?_, ?_, ?_, setMode_log W s v, setRate_log W s v,
    setComparatorQueueMode_log W s v⟩
  · by_cases h : v = 0 <;> simp [setComparatorMode, h]
  · by_cases h : v = 0 <;> simp [setComparatorPolarity, h]
  · by_cases h : v = 0 <;> simp [setComparatorLatchEnabled, h]

/-! ## The forced stop/start cycle in continuous mode -/

section Cycle

variable (W : TwoWire β) (s : Handle β)

/-- Traffic and final state of the stop/start cycle `setMode(SINGLESHOT);
getConversion(); setMode(CONTINUOUS)` started in `t`. -/
theorem cycle_run (t : Handle β) :
    ∃ k, 1 ≤ k ∧ k ≤ 1000 ∧
      (setMode W (getConversion W (setMode W t 1) true).1 0).log
        = t.log ++ writeTxn t.devAddr 1 ((t.configValue &&& 65279) ||| 256)
            ++ writeTxn t.devAddr 1 (((t.configValue &&& 65279) ||| 256) ||| 32768)
            ++ repeatCalls k (readTxn t.devAddr 1) ++ readTxn t.devAddr 0
            ++ writeTxn t.devAddr 1
                ((((t.configValue &&& 65279) ||| 256) ||| 32768) &&& 65279) := by
  obtain ⟨k, hk1, hk2, -, -, hlog⟩ :=
    getConversion_log_triggered W (setMode W t 1) (by simp)
  refine ⟨k, hk1, hk2, ?_⟩
  rw [setMode_log, hlog]
  simp

/-- In continuous mode `setMultiplexer` is the field write followed by the
stop/start cycle. -/
theorem setMultiplexer_continuous (mux : Nat) (h : s.devMode = 0) :
    ∃ t : Handle β, setMultiplexer W s mux
        = setMode W (getConversion W (setMode W t 1) true).1 0 ∧
      t.devAddr = s.devAddr ∧
      t.configValue = (s.configValue &&& 36863) ||| ((mux <<< 12) &&& 28672) ∧
      t.log = s.log ++ writeTxn s.devAddr 1
        ((s.configValue &&& 36863) ||| ((mux <<< 12) &&& 28672)) := by
  refine ⟨{ writeRegister W
      { s with configValue := (s.configValue &&& 36863) ||| ((mux <<< 12) &&& 28672) } 1
      ((s.configValue &&& 36863) ||| ((mux <<< 12) &&& 28672)) with muxMode := mux },
    ?_, ?_, ?_, ?_⟩
  · simp [setMultiplexer, h]
  · simp
  · simp
  · simp

/-- In continuous mode `setGain` is the field write followed by the
stop/start cycle. -/
theorem setGain_continuous (gain : Nat) (h : s.devMode = 0) :
    ∃ t : Handle β, setGain W s gain
        = setMode W (getConversion W (setMode W t 1) true).1 0 ∧
      t.devAddr = s.devAddr ∧
      t.configValue = (s.configValue &&& 61951) ||| ((gain <<< 9) &&& 3584) ∧
      t.log = s.log ++ writeTxn s.devAddr 1
        ((s.configValue &&& 61951) ||| ((gain <<< 9) &&& 3584)) := by
  refine ⟨{ writeRegister W
      { s with configValue := (s.configValue &&& 61951) ||| ((gain <<< 9) &&& 3584) } 1
      ((s.configValue &&& 61951) ||| ((gain <<< 9) &&& 3584)) with pgaMode := gain },
    ?_, ?_, ?_, ?_⟩
  · simp [setGain, h]
  · simp
  · simp
  · simp

theorem isStopStartTraffic_of_cycle (t : Handle β) (l0 : List WireCall)
    (hl : t.log = l0 ++ writeTxn t.devAddr 1 t.configValue) :
    IsStopStartTraffic l0 (setMode W (getConversion W (setMode W t 1) true).1 0).log
      t.devAddr t.configValue := by
  obtain ⟨k, hk1, hk2, hlog⟩ := cycle_run W t
  refine ⟨k, _, _, _, hk1, hk2, ?_, rfl, rfl, rfl, ?_, ?_, ?_⟩
  · rw [hlog, hl]
  · exact or_and_self _ _
  · exact or_and_self _ _
  · exact and_and_disjoint _ 256 65279 (by decide)

end Cycle

/-- Claim C5.  When the tracked mode is continuous, `setMultiplexer(m)` and
`setGain(g)` emit, after the write of the new field, in this order: a
configuration write with the mode bit 0x0100 set, a configuration write with
the start-conversion bit 0x8000 set, between 1 and 1000 reads of the
configuration register, one read of the conversion register, and last a
configuration write with the mode bit clear; afterwards the tracked mode is
continuous and the field of the shadow word holds the new selector (the
argument reduced to three bits, hence the argument itself when it is in 0..7). -/
theorem continuous_setters_force_stop_start (W : TwoWire β) (s : Handle β) (v : Nat)
    (hmode : s.devMode = ADS1115_MODE_CONTINUOUS) (hv : v < 256) :
    (IsStopStartTraffic s.log (setMultiplexer W s v).log s.devAddr
        ((s.configValue &&& (0xFFFF - 0x7000)) ||| ((v <<< 12) &&& 0x7000)) ∧
      (setMultiplexer W s v).devMode = ADS1115_MODE_CONTINUOUS ∧
      ((setMultiplexer W s v).configValue &&& 0x7000) >>> 12 = v % 8 ∧
      (v < 8 → ((setMultiplexer W s v).configValue &&& 0x7000) >>> 12 = v) ∧
      (setMultiplexer W s v).configValue &&& 0x0100 = 0) ∧
    (IsStopStartTraffic s.log (setGain W s v).log s.devAddr
        ((s.configValue &&& (0xFFFF - 0x0E00)) ||| ((v <<< 9) &&& 0x0E00)) ∧
      (setGain W s v).devMode = ADS1115_MODE_CONTINUOUS ∧
      ((setGain W s v).configValue &&& 0x0E00) >>> 9 = v % 8 ∧
      (v < 8 → ((setGain W s v).configValue &&& 0x0E00) >>> 9 = v) ∧
      (setGain W s v).configValue &&& 0x0100 = 0) := by
  have h0 : s.devMode = 0 := hmode
  constructor
  · obtain ⟨t, ht, ha, hc, hl⟩ := setMultiplexer_continuous W s v h0
    have hfield : ((setMultiplexer W s v).configValue &&& 0x7000) >>> 12 = v % 8 := by
      rw [setMultiplexer_configValue, if_pos h0,
        cycle_keeps _ 28672 (by decide) (by decide) (by decide),
        merge_and_mask _ _ _ _ (by decide), extract_mux v hv]
    refine ⟨?_, ?_, hfield, ?_, ?_⟩
    · have := isStopStartTraffic_of_cycle W t s.log (by rw [hl, ha, hc])
      rw [← ht, ha, hc] at this
      exact this
    · rw [(setMultiplexer_members W s v).2.1]; exact hmode
    · intro h8; rw [hfield]; omega
    · rw [setMultiplexer_configValue, if_pos h0]
      exact and_and_disjoint _ 256 65279 (by decide)
  · obtain ⟨t, ht, ha, hc, hl⟩ := setGain_continuous W s v h0
    have hfield : ((setGain W s v).configValue &&& 0x0E00) >>> 9 = v % 8 := by
      rw [setGain_configValue, if_pos h0,
        cycle_keeps _ 3584 (by decide) (by decide) (by decide),
        merge_and_mask _ _ _ _ (by decide), extract_pga v hv]
    refine ⟨?_, ?_, hfield, ?_, ?_⟩
    · have := isStopStartTraffic_of_cycle W t s.log (by rw [hl, ha, hc])
      rw [← ht, ha, hc] at this
      exact this
    · rw [(setGain_members W s v).2.1]; exact hmode
    · intro h8; rw [hfield]; omega
    · rw [setGain_configValue, if_pos h0]
      exact and_and_disjoint _ 256 65279 (by decide)

/-- Witness for claim C5: a continuous-mode driver on the echoing double and
the selector 5. -/
theorem continuous_setters_force_stop_start_witness :
    handleContinuous.devMode = ADS1115_MODE_CONTINUOUS ∧ 5 < 256 ∧
    IsStopStartTraffic handleContinuous.log (setMultiplexer echoWire handleContinuous 5).log
      handleContinuous.devAddr
      ((handleContinuous.configValue &&& (0xFFFF - 0x7000)) ||| ((5 <<< 12) &&& 0x7000)) ∧
    ((setMultiplexer echoWire handleContinuous 5).configValue &&& 0x7000) >>> 12 = 5 :=
  ⟨rfl, by decide,
   (continuous_setters_force_stop_start echoWire handleContinuous 5 rfl (by decide)).1.1,
   (continuous_setters_force_stop_start echoWire handleContinuous 5 rfl
     (by decide)).1.2.2.2.1 (by decide)⟩

/-- Claim C6, refuted as stated: a continuous-mode driver with shadow word 0
on the echoing double has shadow word 0x8000 after `setMultiplexer(0)` and
after `setGain(0)`, so the start-conversion bit, which lies outside both
fields, has changed; and from the shadow word 0x0100 with tracked mode
continuous both calls clear the mode bit. -/
theorem continuous_setters_frame_counterexample :
    handleContinuous.devMode = ADS1115_MODE_CONTINUOUS ∧
    (setMultiplexer echoWire handleContinuous 0).configValue &&& (0xFFFF - 0x7000)
      ≠ handleContinuous.configValue &&& (0xFFFF - 0x7000) ∧
    (setGain echoWire handleContinuous 0).configValue &&& (0xFFFF - 0x0E00)
      ≠ handleContinuous.configValue &&& (0xFFFF - 0x0E00) ∧
    handleContinuous.configValue &&& 0x8000 = 0 ∧
    (setMultiplexer echoWire handleContinuous 0).configValue &&& 0x8000 = 0x8000 ∧
    (setGain echoWire handleContinuous 0).configValue &&& 0x8000 = 0x8000 ∧
    handleStale.devMode = ADS1115_MODE_CONTINUOUS ∧
    handleStale.configValue &&& 0x0100 = 0x0100 ∧
    (setMultiplexer echoWire handleStale 0).configValue &&& 0x0100 = 0 ∧
    (setGain echoWire handleStale 0).configValue &&& 0x0100 = 0 :=
  ⟨rfl, by decide, by decide, by decide, by decide, by decide, rfl, by decide, by decide,
   by decide⟩

/-- Claim C6, amended.  When the tracked mode is continuous, `setMultiplexer`
and `setGain` leave every bit of the shadow word outside the mux (resp. gain)
field, the start-conversion bit 0x8000 and the mode bit 0x0100 exactly as it
was; after the forced stop/start cycle the start-conversion bit is set and the
mode bit is clear, whatever they were before. -/
theorem continuous_setters_frame (W : TwoWire β) (s : Handle β) (v : Nat)
    (hmode : s.devMode = ADS1115_MODE_CONTINUOUS) :
    ((setMultiplexer W s v).configValue &&& (0xFFFF - 0x7000 - 0x8000 - 0x0100)
        = s.configValue &&& (0xFFFF - 0x7000 - 0x8000 - 0x0100) ∧
      (setMultiplexer W s v).configValue &&& 0x8000 = 0x8000 ∧
      (setMultiplexer W s v).configValue &&& 0x0100 = 0) ∧
    ((setGain W s v).configValue &&& (0xFFFF - 0x0E00 - 0x8000 - 0x0100)
        = s.configValue &&& (0xFFFF - 0x0E00 - 0x8000 - 0x0100) ∧
      (setGain W s v).configValue &&& 0x8000 = 0x8000 ∧
      (setGain W s v).configValue &&& 0x0100 = 0) := by
  have h0 : s.devMode = 0 := hmode
  refine ⟨⟨?_, ?_, ?_⟩, ⟨?_, ?_, ?_⟩⟩
  · rw [setMultiplexer_configValue, if_pos h0]
    exact (cycle_keeps _ 3839 (by decide) (by decide) (by decide)).trans
      (merge_and_sub _ _ 28672 36863 3839 (by decide) (by decide))
  · rw [setMultiplexer_configValue, if_pos h0, and_and_sub _ 65279 32768 (by decide)]
    exact or_and_self _ _
  · rw [setMultiplexer_configValue, if_pos h0]
    exact and_and_disjoint _ 256 65279 (by decide)
  · rw [setGain_configValue, if_pos h0]
    exact (cycle_keeps _ 28927 (by decide) (by decide) (by decide)).trans
      (merge_and_sub _ _ 3584 61951 28927 (by decide) (by decide))
  · rw [setGain_configValue, if_pos h0, and_and_sub _ 65279 32768 (by decide)]
    exact or_and_self _ _
  · rw [setGain_configValue, if_pos h0]
    exact and_and_disjoint _ 256 65279 (by decide)

/-- Witness for the amended claim C6: the continuous-mode driver on the
echoing double and selector 5. -/
theorem continuous_setters_frame_witness :
    handleContinuous.devMode = ADS1115_MODE_CONTINUOUS ∧
    (setMultiplexer echoWire handleContinuous 5).configValue
        &&& (0xFFFF - 0x7000 - 0x8000 - 0x0100)
      = handleContinuous.configValue &&& (0xFFFF - 0x7000 - 0x8000 - 0x0100) ∧
    (setGain echoWire handleContinuous 5).configValue &&& 0x8000 = 0x8000 :=
  ⟨rfl, (continuous_setters_frame echoWire handleContinuous 5 rfl).1.1,
   (continuous_setters_frame echoWire handleContinuous 5 rfl).2.2.1⟩

/-! ## Polling -/

section Polling

variable (W : TwoWire β) (s : Handle β)

theorem and_two_pow15_eq_zero_iff (x : Nat) : x &&& 32768 = 0 ↔ x.testBit 15 = false := by
  have h : (32768 : Nat) = 2 ^ 15 := by decide
  constructor
  · intro hx
    rw [h] at hx
    have h2 : (x &&& 2 ^ 15).testBit 15 = (0 : Nat).testBit 15 := by rw [hx]
    rw [Nat.testBit_and, Nat.testBit_two_pow_self, Nat.zero_testBit, Bool.and_true] at h2
    exact h2
  · intro hb
    apply Nat.eq_of_testBit_eq
    intro i
    rw [Nat.testBit_and, h, Nat.testBit_two_pow, Nat.zero_testBit]
    by_cases hi : 15 = i
    · subst hi; simp [hb]
    · simp [hi]

/-- A ready check is positive exactly when bit 15 of the configuration word
it read is set. -/
theorem isConversionReady_iff_bit (t : Handle β) :
    (isConversionReady W t).2 = true
      ↔ (readRegister W t ADS1115_RA_CONFIG).2.testBit 15 = true := by
  have h := and_two_pow15_eq_zero_iff (readRegister W t ADS1115_RA_CONFIG).2
  simp only [isConversionReady, os_bit_eq, bne_iff_ne, ne_eq]
  rw [h]
  simp

theorem isConversionReady_false_iff_bit (t : Handle β) :
    (isConversionReady W t).2 = false
      ↔ (readRegister W t ADS1115_RA_CONFIG).2.testBit 15 = false := by
  have h := isConversionReady_iff_bit W t
  constructor
  · intro hf
    cases hb : (readRegister W t ADS1115_RA_CONFIG).2.testBit 15
    · rfl
    · rw [h.mpr hb] at hf; exact absurd hf (by decide)
  · intro hb
    cases hr : (isConversionReady W t).2
    · rfl
    · rw [h.mp hr] at hb; exact absurd hb (by decide)

theorem pollConversion_false_of_neverReady (hW : NeverReady W) (n : Nat) :
    (pollConversion W s n).2 = false := by
  obtain ⟨k, -, -, -, hlast⟩ := pollConversionLoop_run W s n
  rcases hlast with ⟨-, -, hready⟩ | ⟨hres, -, -⟩
  · rw [hW _] at hready; exact absurd hready (by decide)
  · exact hres

end Polling

/-- Claim C7.  `pollConversion(N)` returns true iff one of the first `N`
consecutive reads of the configuration register has bit 15 set; it performs
exactly `k` ready checks, where `k ≤ N`, the reads before the `k`-th have bit
15 clear, and either the `k`-th read has bit 15 set or `k = N` and none of the
`N` reads has it.  Hence `pollConversion(0)` returns false without touching
the transport, and on a transport that never reports ready `pollConversion(N)`
returns false after exactly `N` ready checks. -/
theorem pollConversion_stops_at_first_ready (W : TwoWire β) (s : Handle β) (N : Nat) :
    ((pollConversion W s N).2 = true
      ↔ ∃ i, i < N ∧ (configReadAt W s i).testBit 15 = true) ∧
    (∃ k, k ≤ N ∧ (pollConversion W s N).1 = afterChecks W s k ∧
      (pollConversion W s N).1.log
        = s.log ++ repeatCalls k (readTxn s.devAddr ADS1115_RA_CONFIG) ∧
      (∀ i, i + 1 < k → (configReadAt W s i).testBit 15 = false) ∧
      ((0 < k ∧ (configReadAt W s (k - 1)).testBit 15 = true) ∨
        (k = N ∧ ∀ i, i < N → (configReadAt W s i).testBit 15 = false))) ∧
    pollConversion W s 0 = (s, false) ∧
    (NeverReady W →
      pollConversion W s N = (afterChecks W s N, false) ∧
      (pollConversion W s N).1.log
        = s.log ++ repeatCalls N (readTxn s.devAddr ADS1115_RA_CONFIG)) := by
  obtain ⟨k, hk, hst, hbefore, hlast⟩ := pollConversionLoop_run W s N
  have hst2 : (pollConversion W s N).1 = afterChecks W s k := hst
  refine ⟨?_, ⟨k, hk, hst2, ?_, ?_, ?_⟩, rfl, ?_⟩
  · constructor
    · intro htrue
      rcases hlast with ⟨-, hpos, hready⟩ | ⟨hres, -, -⟩
      · exact ⟨k - 1, by omega, (isConversionReady_iff_bit W _).mp hready⟩
      · have hres2 : (pollConversion W s N).2 = false := hres
        rw [hres2] at htrue; exact absurd htrue (by decide)
    · rintro ⟨i, hi, hbit⟩
      rcases hlast with ⟨hres, -, -⟩ | ⟨-, -, hnone⟩
      · exact hres
      · have := (isConversionReady_false_iff_bit W _).mp (hnone i hi)
        unfold configReadAt at hbit
        rw [this] at hbit; exact absurd hbit (by decide)
  · rw [hst2]; exact afterChecks_log W s k
  · intro i hi
    exact (isConversionReady_false_iff_bit W _).mp (hbefore i hi)
  · rcases hlast with ⟨-, hpos, hready⟩ | ⟨-, hkn, hnone⟩
    · exact Or.inl ⟨hpos, (isConversionReady_iff_bit W _).mp hready⟩
    · exact Or.inr ⟨hkn, fun i hi => (isConversionReady_false_iff_bit W _).mp (hnone i hi)⟩
  · intro hW
    have hres := pollConversion_false_of_neverReady W s hW N
    have hkn : k = N := by
      rcases hlast with ⟨-, -, hready⟩ | ⟨-, hkn, -⟩
      · rw [hW _] at hready; exact absurd hready (by decide)
      · exact hkn
    subst hkn
    refine ⟨Prod.ext hst2 hres, ?_⟩
    rw [hst2]; exact afterChecks_log W s k

/-! ## The always-busy transport double -/

section Busy

theorem toU16_hi_masked (n : Nat) :
    toU16 ((n : Int) % 32768 / 256 % 256) = n % 32768 / 256 % 256 := by
  unfold toU16; omega

theorem toU16_lo_masked (n : Nat) :
    toU16 ((n : Int) % 32768 % 256) = n % 32768 % 256 := by
  unfold toU16; omega

theorem busy_read_config (t : Handle SimBus) :
    (readRegister busyWire t 1).2 = t.wire.config % 32768 := by
  simp [readRegister, wireBegin, wireWrite, wireEnd, wireDelay, wireRequestFrom, wireRead,
    busyWire, SimBus.commit, SimBus.selected, toU16_hi_masked, toU16_lo_masked]
  rw [combine_bytes _ _ (by omega)]
  omega

/-- The always-busy double never reports a finished conversion. -/
theorem busyWire_neverReady : NeverReady busyWire := by
  intro t
  rw [isConversionReady_false_iff_bit]
  apply Nat.testBit_lt_two_pow
  have h := busy_read_config t
  simp only [ra_config_eq]
  rw [h]
  omega

end Busy

/-- Witness for claim C7: three polls of the always-busy double. -/
theorem pollConversion_stops_at_first_ready_witness :
    NeverReady busyWire ∧
    pollConversion busyWire handleBusy 3 = (afterChecks busyWire handleBusy 3, false) ∧
    (pollConversion busyWire handleBusy 3).1.log
      = handleBusy.log ++ repeatCalls 3 (readTxn handleBusy.devAddr ADS1115_RA_CONFIG) :=
  ⟨busyWire_neverReady,
   ((pollConversion_stops_at_first_ready busyWire handleBusy 3).2.2.2 busyWire_neverReady).1,
   ((pollConversion_stops_at_first_ready busyWire handleBusy 3).2.2.2 busyWire_neverReady).2⟩

/-! ## Conversions -/

theorem toInt16_of_lt (r : Nat) (h : r < 65536) :
    toInt16 r = (if r < 32768 then (r : Int) else (r : Int) - 65536) := by
  simp [toInt16, Nat.mod_eq_of_lt h]

/-- Claim C8.  With `triggerAndPoll` true and the tracked mode single-shot,
`getConversion` emits one trigger write (the shadow word with bit 15 set), then
`k` ready checks with `1 ≤ k ≤ 1000`, then exactly one read of the conversion
register 0x00, and returns the 16-bit value `r` of that read as a
two's-complement integer (`r - 65536` when `r ≥ 0x8000`), whatever the outcome
of the polling; when polling fails, in particular on a transport that never
reports ready, `k = 1000` and the value is returned all the same. -/
theorem getConversion_reads_whatever_poll_says (W : TwoWire β) (s : Handle β)
    (hmode : s.devMode = ADS1115_MODE_SINGLESHOT) :
    ∃ k r, 1 ≤ k ∧ k ≤ 1000 ∧
      (getConversion W s true).1.log
        = s.log ++ writeTxn s.devAddr 0x01 (s.configValue ||| 0x8000)
            ++ repeatCalls k (readTxn s.devAddr 0x01) ++ readTxn s.devAddr 0x00 ∧
      r = (readRegister W (afterChecks W (triggerConversion W s) k) 0x00).2 ∧
      r < 65536 ∧
      (getConversion W s true).2 = (if r < 32768 then (r : Int) else (r : Int) - 65536) ∧
      ((pollConversion W (triggerConversion W s) 1000).2 = false → k = 1000) ∧
      (NeverReady W → k = 1000) := by
  have h1 : s.devMode = 1 := hmode
  obtain ⟨k, hk1, hk2, hst, hfail, hlog⟩ := getConversion_log_triggered W s h1
  refine ⟨k, _, hk1, hk2, hlog, rfl, readRegister_lt W _ _, ?_, hfail, ?_⟩
  · rw [← toInt16_of_lt _ (readRegister_lt W _ _), ← hst]
    simp [getConversion, h1]
  · intro hW
    exact hfail (pollConversion_false_of_neverReady W _ hW 1000)

/-- Witness for claim C8: the always-busy double, whose polling always
fails. -/
theorem getConversion_reads_whatever_poll_says_witness :
    NeverReady busyWire ∧ handleBusy.devMode = ADS1115_MODE_SINGLESHOT ∧
    ∃ r, (getConversion busyWire handleBusy true).1.log
        = handleBusy.log ++ writeTxn handleBusy.devAddr 0x01 (handleBusy.configValue ||| 0x8000)
            ++ repeatCalls 1000 (readTxn handleBusy.devAddr 0x01)
            ++ readTxn handleBusy.devAddr 0x00 ∧
      r = (readRegister busyWire
            (afterChecks busyWire (triggerConversion busyWire handleBusy) 1000) 0x00).2 ∧
      (getConversion busyWire handleBusy true).2
        = (if r < 32768 then (r : Int) else (r : Int) - 65536) :=
  ⟨busyWire_neverReady, rfl,
   match getConversion_reads_whatever_poll_says busyWire handleBusy rfl with
   | ⟨_, r, _, _, hlog, hr, _, hval, _, hnever⟩ =>
     ⟨r, by rw [← hnever busyWire_neverReady]; exact hlog,
      by rw [← hnever busyWire_neverReady]; exact hr, hval⟩⟩

/-! ## Convenience conversions -/

section Convenience

variable (W : TwoWire β) (s : Handle β)

theorem append_rest5 {α : Type} (l a b c d e : List α) :
    l ++ a ++ b ++ c ++ d ++ e = l ++ (a ++ b ++ c ++ d ++ e) := by
  simp only [List.append_assoc]

theorem append_mid2 {α : Type} (l a b e : List α) :
    l ++ a ++ b ++ e = l ++ (a ++ b) ++ e := by
  simp only [List.append_assoc]

/-- The traffic of `setMultiplexer` starts with the write of the new field. -/
theorem setMultiplexer_log_starts (mux : Nat) :
    ∃ rest, (setMultiplexer W s mux).log
      = s.log ++ writeTxn s.devAddr 1
          ((s.configValue &&& 36863) ||| ((mux <<< 12) &&& 28672)) ++ rest := by
  by_cases h : s.devMode = 0
  · obtain ⟨t, ht, ha, hc, hl⟩ := setMultiplexer_continuous W s mux h
    obtain ⟨k, -, -, hlog⟩ := cycle_run W t
    rw [ht, hlog, hl]
    exact ⟨_, append_rest5 _ _ _ _ _ _⟩
  · exact ⟨[], by simp [setMultiplexer, h]⟩

/-- The traffic of `getConversion` ends with the read of the conversion
register. -/
theorem getConversion_log_ends (t : Handle β) (tp : Bool) :
    ∃ mid, (getConversion W t tp).1.log = t.log ++ mid ++ readTxn t.devAddr 0 := by
  by_cases h : tp = true ∧ t.devMode = 1
  · obtain ⟨h1, h2⟩ := h
    subst h1
    obtain ⟨k, -, -, -, -, hlog⟩ := getConversion_log_triggered W t h2
    rw [hlog]
    exact ⟨_, append_mid2 _ _ _ _⟩
  · exact ⟨[], by rw [getConversion_log_plain W t tp h]; simp⟩

/-- Every function of the shape shared by the eight convenience conversions
behaves as `IsConvenienceConversion` says. -/
theorem isConvenienceConversion_of_shape (f : Handle β → Handle β × Int) (target : Nat)
    (ht : target < 8)
    (hf : ∀ s, f s = getConversion W
      (if s.muxMode ≠ target then setMultiplexer W s target else s) true) :
    IsConvenienceConversion W f target := by
  intro s
  refine ⟨?_, ?_, ?_⟩
  · intro hne
    have hfs : f s = getConversion W (setMultiplexer W s target) true := by
      rw [hf s, if_pos hne]
    refine ⟨hfs, ?_⟩
    obtain ⟨rest, hrest⟩ := setMultiplexer_log_starts W s target
    obtain ⟨mid, hmid⟩ := getConversion_log_ends W (setMultiplexer W s target) true
    refine ⟨(s.configValue &&& 36863) ||| ((target <<< 12) &&& 28672), rest ++ mid, ?_, ?_⟩
    · rw [hfs, hmid, hrest, (setMultiplexer_members W s target).1]
      simp only [List.append_assoc]
    · rw [merge_and_mask _ _ _ _ (by decide), extract_mux target (by omega)]
      omega
  · intro heq
    rw [hf s, if_neg (by simpa using heq)]
  · rw [hf s]
    by_cases hne : s.muxMode = target
    · rw [if_neg (by simpa using hne)]
      simpa using hne
    · rw [if_pos hne]
      simp

end Convenience

/-- Claim C9.  Each of the eight convenience conversions has a fixed mux
selector (P0N1 0, P0N3 1, P1N3 2, P2N3 3, P0GND 4, P1GND 5, P2GND 6, P3GND 7):
when the tracked selector differs it first performs `setMultiplexer(target)`,
so a configuration write with that mux field precedes the conversion read and
the tracked selector becomes the target; when it already equals the target no
mux write is made; in both cases the result is that of `getConversion` with
triggering enabled. -/
theorem convenience_conversions_select_mux (W : TwoWire β) :
    IsConvenienceConversion W (getConversionP0N1 W) 0 ∧
    IsConvenienceConversion W (getConversionP0N3 W) 1 ∧
    IsConvenienceConversion W (getConversionP1N3 W) 2 ∧
    IsConvenienceConversion W (getConversionP2N3 W) 3 ∧
    IsConvenienceConversion W (getConversionP0GND W) 4 ∧
    IsConvenienceConversion W (getConversionP1GND W) 5 ∧
    IsConvenienceConversion W (getConversionP2GND W) 6 ∧
    IsConvenienceConversion W (getConversionP3GND W) 7 :=
  ⟨isConvenienceConversion_of_shape W _ 0 (by decide) (fun _ => rfl),
   isConvenienceConversion_of_shape W _ 1 (by decide) (fun _ => rfl),
   isConvenienceConversion_of_shape W _ 2 (by decide) (fun _ => rfl),
   isConvenienceConversion_of_shape W _ 3 (by decide) (fun _ => rfl),
   isConvenienceConversion_of_shape W _ 4 (by decide) (fun _ => rfl),
   isConvenienceConversion_of_shape W _ 5 (by decide) (fun _ => rfl),
   isConvenienceConversion_of_shape W _ 6 (by decide) (fun _ => rfl),
   isConvenienceConversion_of_shape W _ 7 (by decide) (fun _ => rfl)⟩

/-- Witness for claim C9: on the initialised driver (tracked selector 0),
`getConversionP0GND` switches the mux to 4 and `getConversionP0N1` does not
touch it. -/
theorem convenience_conversions_select_mux_witness :
    handleReady.muxMode ≠ 4 ∧ handleReady.muxMode = 0 ∧
    getConversionP0GND echoWire handleReady
      = getConversion echoWire (setMultiplexer echoWire handleReady 4) true ∧
    (getConversionP0GND echoWire handleReady).1.muxMode = 4 ∧
    getConversionP0N1 echoWire handleReady = getConversion echoWire handleReady true :=
  ⟨by decide, by decide,
   (((convenience_conversions_select_mux echoWire).2.2.2.2.1 handleReady).1 (by decide)).1,
   ((convenience_conversions_select_mux echoWire).2.2.2.2.1 handleReady).2.2,
   ((convenience_conversions_select_mux echoWire).1 handleReady).2.1 (by decide)⟩

/-! ## Initialisation -/

/-- Shadow word after `initialize()`: 0x0583, with the start-conversion bit
added when the prior tracked mode was continuous (the mux and gain writes then
ran the stop/start cycle). -/
theorem initializeDevice_configValue (W : TwoWire β) (s : Handle β) :
    (initializeDevice W s).configValue = (if s.devMode = 0 then 0x8583 else 0x0583) := by
  simp only [initializeDevice, setComparatorQueueMode_members,
    setComparatorLatchEnabled_members, setComparatorPolarity_members,
    setComparatorMode_members, setRate_members, setMode_members, setGain_configValue,
    setGain_members, setMultiplexer_configValue, setMultiplexer_members]
  by_cases h : s.devMode = 0
  · simp only [h, if_true]
    decide
  · simp only [h, if_false]
    decide

theorem initializeDevice_members (W : TwoWire β) (s : Handle β) :
    (initializeDevice W s).devAddr = s.devAddr ∧
    (initializeDevice W s).devMode = 1 ∧
    (initializeDevice W s).muxMode = 0 ∧
    (initializeDevice W s).pgaMode = 2 := by
  simp [initializeDevice, ADS1115_MUX_P0_N1, ADS1115_PGA_2P048]

/-- Claim C10.  For every prior driver state and every transport, after
`initialize()` the shadow word has mux field 0, gain field 2, mode bit 1, rate
field 4, comparator-mode, comparator-polarity and comparator-latch bits 0 and
comparator-queue field 3, and the tracked mux, gain and mode are 0, 2 and 1. -/
theorem initialize_applies_defaults (W : TwoWire β) (s : Handle β) :
    ((initializeDevice W s).configValue &&& 0x7000) >>> 12 = ADS1115_MUX_P0_N1 ∧
    ((initializeDevice W s).configValue &&& 0x0E00) >>> 9 = ADS1115_PGA_2P048 ∧
    ((initializeDevice W s).configValue &&& 0x0100) >>> 8 = ADS1115_MODE_SINGLESHOT ∧
    ((initializeDevice W s).configValue &&& 0x00E0) >>> 5 = ADS1115_RATE_128 ∧
    ((initializeDevice W s).configValue &&& 0x0010) >>> 4 = ADS1115_COMP_MODE_HYSTERESIS ∧
    ((initializeDevice W s).configValue &&& 0x0008) >>> 3 = ADS1115_COMP_POL_ACTIVE_LOW ∧
    ((initializeDevice W s).configValue &&& 0x0004) >>> 2 = ADS1115_COMP_LAT_NON_LATCHING ∧
    ((initializeDevice W s).configValue &&& 0x0003) = ADS1115_COMP_QUE_DISABLE ∧
    (initializeDevice W s).muxMode = ADS1115_MUX_P0_N1 ∧
    (initializeDevice W s).pgaMode = ADS1115_PGA_2P048 ∧
    (initializeDevice W s).devMode = ADS1115_MODE_SINGLESHOT := by
  have hm := initializeDevice_members W s
  rw [initializeDevice_configValue]
  refine ⟨?_, ?_, ?_, ?_, ?_, ?_, ?_, ?_, hm.2.2.1, hm.2.2.2, hm.2.1⟩ <;>
    (split <;> decide)

/-! ## Registers of the echoing double -/

section EchoRegisters

/-- Effect of a register write on the echoing double. -/
theorem echo_write_regs (s : Handle SimBus) (v : Nat) :
    (writeRegister echoWire s 1 v).wire
      = { s.wire with pointer := 1, txBuffer := [], config := v % 65536 } ∧
    (writeRegister echoWire s 2 v).wire
      = { s.wire with pointer := 2, txBuffer := [], loThresh := v % 65536 } ∧
    (writeRegister echoWire s 3 v).wire
      = { s.wire with pointer := 3, txBuffer := [], hiThresh := v % 65536 } := by
  refine ⟨?_, ?_, ?_⟩ <;>
  · simp [writeRegister, wireBegin, wireWrite, wireEnd, echoWire, SimBus.commit, hi_byte,
      lo_byte]
    omega

/-- Value a register read returns on the echoing double. -/
theorem echo_read_regs (t : Handle SimBus) :
    (readRegister echoWire t 0).2 = t.wire.conversion % 65536 ∧
    (readRegister echoWire t 1).2 = t.wire.config % 65536 ∧
    (readRegister echoWire t 2).2 = t.wire.loThresh % 65536 ∧
    (readRegister echoWire t 3).2 = t.wire.hiThresh % 65536 := by
  refine ⟨?_, ?_, ?_, ?_⟩ <;>
  · simp [readRegister, wireBegin, wireWrite, wireEnd, wireDelay, wireRequestFrom, wireRead,
      echoWire, SimBus.commit, SimBus.selected, toU16_natCast, toU16_hi, toU16_lo]
    rw [combine_bytes _ _ (by omega)]
    omega

/-- A register read leaves the registers of the echoing double alone. -/
theorem echo_read_wire (t : Handle SimBus) (r : Nat) :
    (readRegister echoWire t r).1.wire.conversion = t.wire.conversion ∧
    (readRegister echoWire t r).1.wire.config = t.wire.config ∧
    (readRegister echoWire t r).1.wire.loThresh = t.wire.loThresh ∧
    (readRegister echoWire t r).1.wire.hiThresh = t.wire.hiThresh := by
  simp [readRegister, wireBegin, wireWrite, wireEnd, wireDelay, wireRequestFrom, wireRead,
      echoWire, SimBus.commit, SimBus.selected]

end EchoRegisters

/-! ## Thresholds and the conversion-ready pin -/

section Thresholds

variable (W : TwoWire β) (s : Handle β)

@[simp]
theorem setLowThreshold_members (t : Int) :
    (setLowThreshold W s t).devAddr = s.devAddr ∧
    (setLowThreshold W s t).devMode = s.devMode ∧
    (setLowThreshold W s t).muxMode = s.muxMode ∧
    (setLowThreshold W s t).pgaMode = s.pgaMode ∧
    (setLowThreshold W s t).configValue = s.configValue := by
  simp [setLowThreshold]

@[simp]
theorem setHighThreshold_members (t : Int) :
    (setHighThreshold W s t).devAddr = s.devAddr ∧
    (setHighThreshold W s t).devMode = s.devMode ∧
    (setHighThreshold W s t).muxMode = s.muxMode ∧
    (setHighThreshold W s t).pgaMode = s.pgaMode ∧
    (setHighThreshold W s t).configValue = s.configValue := by
  simp [setHighThreshold]

@[simp]
theorem setLowThreshold_log (t : Int) :
    (setLowThreshold W s t).log = s.log ++ writeTxn s.devAddr 2 (ofInt16 t) := by
  simp [setLowThreshold, ADS1115_RA_LO_THRESH]

@[simp]
theorem setHighThreshold_log (t : Int) :
    (setHighThreshold W s t).log = s.log ++ writeTxn s.devAddr 3 (ofInt16 t) := by
  simp [setHighThreshold, ADS1115_RA_HI_THRESH]

theorem ofInt16_neg_one : ofInt16 (-1) = 65535 := by decide

theorem ofInt16_zero : ofInt16 0 = 0 := by decide

/-- Shadow word after `setConversionReadyPinMode`. -/
theorem setConversionReadyPinMode_configValue :
    (setConversionReadyPinMode W s).configValue
      = ((s.configValue &&& 65527) &&& 65532) ||| ((0 <<< 0) &&& 3) := by
  simp [setConversionReadyPinMode]

theorem setConversionReadyPinMode_log :
    (setConversionReadyPinMode W s).log
      = s.log ++ writeTxn s.devAddr 3 65535 ++ writeTxn s.devAddr 2 0
          ++ writeTxn s.devAddr 1 (setConversionReadyPinMode W s).configValue := by
  simp [setConversionReadyPinMode, ofInt16_neg_one, ofInt16_zero]

end Thresholds

/-- Registers of the echoing double after `setConversionReadyPinMode`. -/
theorem echo_setConversionReadyPinMode_wire (e : Handle SimBus) :
    (setConversionReadyPinMode echoWire e).wire.hiThresh = 65535 ∧
    (setConversionReadyPinMode echoWire e).wire.loThresh = 0 ∧
    (setConversionReadyPinMode echoWire e).wire.config
      = (setConversionReadyPinMode echoWire e).configValue := by
  have hlt : (setConversionReadyPinMode echoWire e).configValue < 65536 := by
    rw [setConversionReadyPinMode_configValue]
    exact merge_lt _ _ _ _ (by decide) (by decide)
  have hc := setConversionReadyPinMode_configValue echoWire e
  refine ⟨?_, ?_, ?_⟩
  · simp [setConversionReadyPinMode, setComparatorQueueMode, setLowThreshold,
      setHighThreshold, ADS1115_RA_LO_THRESH, ADS1115_RA_HI_THRESH, echo_write_regs,
      ofInt16_neg_one]
  · simp [setConversionReadyPinMode, setComparatorQueueMode, setLowThreshold,
      setHighThreshold, ADS1115_RA_LO_THRESH, ADS1115_RA_HI_THRESH, echo_write_regs,
      ofInt16_zero]
  · rw [hc] at hlt ⊢
    simp only [setConversionReadyPinMode, setComparatorQueueMode, ra_config_eq,
      comp_que_mask_eq, comp_que_shift_eq, bitNot16_3, (echo_write_regs _ _).1,
      setComparatorPolarity_members]
    simp only [setLowThreshold_members, setHighThreshold_members]
    exact Nat.mod_eq_of_lt (by simpa using hlt)

/-- Claim C11, refuted as stated: after construction, `initialize()` and
`setConversionReadyPinMode()` on the echoing double, the comparator-queue field
of the shadow word and of the device's configuration register is 0, not the
'disabled' selector 3. -/
theorem conversionReadyPinMode_queue_counterexample :
    (setConversionReadyPinMode echoWire handleReady).configValue &&& 0x0003
      ≠ ADS1115_COMP_QUE_DISABLE ∧
    (setConversionReadyPinMode echoWire handleReady).wire.config &&& 0x0003
      ≠ ADS1115_COMP_QUE_DISABLE ∧
    (getComparatorQueueMode echoWire (setConversionReadyPinMode echoWire handleReady)).2
      ≠ ADS1115_COMP_QUE_DISABLE :=
  ⟨by decide, by decide, by decide⟩

/-- Claim C11, amended.  From every starting state `setConversionReadyPinMode()`
writes 0xFFFF (-1) to the high-threshold register 0x03, then 0 to the
low-threshold register 0x02, then the shadow word to the configuration
register; in that word the comparator-polarity bit is 0 (active-low), the
comparator-queue field is 0 (`ADS1115_COMP_QUE_ASSERT1`, comparator enabled)
and every other bit is as before.  On the echoing double the three device
registers then hold 0xFFFF, 0 and that word, and the thresholds read back as
-1 and 0. -/
theorem conversionReadyPinMode_sets_thresholds_and_queue (W : TwoWire β) (s : Handle β)
    (e : Handle SimBus) :
    (setConversionReadyPinMode W s).log
      = s.log ++ writeTxn s.devAddr 0x03 0xFFFF ++ writeTxn s.devAddr 0x02 0
          ++ writeTxn s.devAddr 0x01 (setConversionReadyPinMode W s).configValue ∧
    (setConversionReadyPinMode W s).configValue &&& 0x0008 = 0 ∧
    (setConversionReadyPinMode W s).configValue &&& 0x0003 = ADS1115_COMP_QUE_ASSERT1 ∧
    (setConversionReadyPinMode W s).configValue &&& (0xFFFF - 0x0008 - 0x0003)
      = s.configValue &&& (0xFFFF - 0x0008 - 0x0003) ∧
    (setConversionReadyPinMode echoWire e).wire.hiThresh = 0xFFFF ∧
    (setConversionReadyPinMode echoWire e).wire.loThresh = 0 ∧
    (setConversionReadyPinMode echoWire e).wire.config
      = (setConversionReadyPinMode echoWire e).configValue ∧
    (getHighThreshold echoWire (setConversionReadyPinMode echoWire e)).2 = -1 ∧
    (getLowThreshold echoWire (setConversionReadyPinMode echoWire e)).2 = 0 := by
  have he := echo_setConversionReadyPinMode_wire e
  refine ⟨setConversionReadyPinMode_log W s, ?_, ?_, ?_, he.1, he.2.1, he.2.2, ?_, ?_⟩
  · rw [setConversionReadyPinMode_configValue,
      merge_and_sub _ _ 3 65532 8 (by decide) (by decide)]
    exact and_and_disjoint _ 8 65527 (by decide)
  · rw [setConversionReadyPinMode_configValue, merge_and_mask _ _ _ _ (by decide)]
    decide
  · rw [setConversionReadyPinMode_configValue]
    exact (merge_and_sub _ _ 3 65532 65524 (by decide) (by decide)).trans
      (and_and_sub _ 65527 65524 (by decide))
  · simp only [getHighThreshold, ADS1115_RA_HI_THRESH, (echo_read_regs _).2.2.2, he.1]
    decide
  · simp only [getLowThreshold, ADS1115_RA_LO_THRESH, (echo_read_regs _).2.2.1, he.2.1]
    decide

/-! ## Gain tables -/

/-- Claim C12.  `getFullScale` takes the selector alone (it reads no member of
the driver and makes no call on the transport) and returns 6144, 4096, 2048,
1024, 512, 256, 256, 256 for the selectors 0..7 and 0 for every argument in
8..255. -/
theorem getFullScale_table :
    getFullScale 0 = 6144 ∧ getFullScale 1 = 4096 ∧ getFullScale 2 = 2048 ∧
    getFullScale 3 = 1024 ∧ getFullScale 4 = 512 ∧ getFullScale 5 = 256 ∧
    getFullScale 6 = 256 ∧ getFullScale 7 = 256 ∧
    (∀ p, 8 ≤ p → p ≤ 255 → getFullScale p = 0) := by
  refine ⟨by decide, by decide, by decide, by decide, by decide, by decide, by decide,
    by decide, ?_⟩
  intro p h8 _
  have h0 : p ≠ 0 := by omega
  have h1 : p ≠ 1 := by omega
  have h2 : p ≠ 2 := by omega
  have h3 : p ≠ 3 := by omega
  have h4 : p ≠ 4 := by omega
  have h5 : p ≠ 5 := by omega
  have h6 : p ≠ 6 := by omega
  have h7 : p ≠ 7 := by omega
  simp [getFullScale, ADS1115_PGA_6P144, ADS1115_PGA_4P096, ADS1115_PGA_2P048,
    ADS1115_PGA_1P024, ADS1115_PGA_0P512, ADS1115_PGA_0P256, ADS1115_PGA_0P256B,
    ADS1115_PGA_0P256C, h0, h1, h2, h3, h4, h5, h6, h7]

/-- Witness for claim C12: the largest 8-bit argument. -/
theorem getFullScale_table_witness : 8 ≤ 255 ∧ 255 ≤ 255 ∧ getFullScale 255 = 0 :=
  ⟨by decide, by decide, getFullScale_table.2.2.2.2.2.2.2.2 255 (by decide) (by decide)⟩

section MvPerCount

variable (s : Handle β)

theorem getMvPerCount_of_pgaMode (g : Nat) (h : s.pgaMode = g) :
    getMvPerCount s =
      (if g = 0 then 0.1875 else if g = 1 then 0.125 else if g = 2 then 0.0625
       else if g = 3 then 0.03125 else if g = 4 then 0.015625
       else if g = 5 ∨ g = 6 ∨ g = 7 then 0.007813 else 0) := by
  subst h
  simp only [getMvPerCount, ADS1115_PGA_6P144, ADS1115_PGA_4P096, ADS1115_PGA_2P048,
    ADS1115_PGA_1P024, ADS1115_PGA_0P512, ADS1115_PGA_0P256, ADS1115_PGA_0P256B,
    ADS1115_PGA_0P256C, ADS1115_MV_6P144, ADS1115_MV_4P096, ADS1115_MV_2P048,
    ADS1115_MV_1P024, ADS1115_MV_0P512, ADS1115_MV_0P256]
  norm_num

end MvPerCount

/-- Claim C13.  `getMvPerCount` depends on the tracked gain selector only (two
drivers with the same tracked gain get the same factor; no state is returned,
so nothing is sent on the bus); read as exact decimals it is 0.1875, 0.125,
0.0625, 0.03125, 0.015625 for the tracked selectors 0..4, 0.007813 for each of
5, 6 and 7, and 0 for every tracked selector in 8..255. -/
theorem getMvPerCount_table (s t : Handle β) :
    (s.pgaMode = t.pgaMode → getMvPerCount s = getMvPerCount t) ∧
    (s.pgaMode = 0 → getMvPerCount s = 0.1875) ∧
    (s.pgaMode = 1 → getMvPerCount s = 0.125) ∧
    (s.pgaMode = 2 → getMvPerCount s = 0.0625) ∧
    (s.pgaMode = 3 → getMvPerCount s = 0.03125) ∧
    (s.pgaMode = 4 → getMvPerCount s = 0.015625) ∧
    (s.pgaMode = 5 → getMvPerCount s = 0.007813) ∧
    (s.pgaMode = 6 → getMvPerCount s = 0.007813) ∧
    (s.pgaMode = 7 → getMvPerCount s = 0.007813) ∧
    (8 ≤ s.pgaMode → s.pgaMode ≤ 255 → getMvPerCount s = 0) := by
  refine ⟨?_, ?_, ?_, ?_, ?_, ?_, ?_, ?_, ?_, ?_⟩
  · intro h
    rw [getMvPerCount_of_pgaMode s _ rfl, getMvPerCount_of_pgaMode t _ h.symm]
  · intro h; rw [getMvPerCount_of_pgaMode s 0 h]; norm_num
  · intro h; rw [getMvPerCount_of_pgaMode s 1 h]; norm_num
  · intro h; rw [getMvPerCount_of_pgaMode s 2 h]; norm_num
  · intro h; rw [getMvPerCount_of_pgaMode s 3 h]; norm_num
  · intro h; rw [getMvPerCount_of_pgaMode s 4 h]; norm_num
  · intro h; rw [getMvPerCount_of_pgaMode s 5 h]; norm_num
  · intro h; rw [getMvPerCount_of_pgaMode s 6 h]; norm_num
  · intro h; rw [getMvPerCount_of_pgaMode s 7 h]; norm_num
  · intro h8 _
    rw [getMvPerCount_of_pgaMode s _ rfl]
    have h0 : s.pgaMode ≠ 0 := by omega
    have h1 : s.pgaMode ≠ 1 := by omega
    have h2 : s.pgaMode ≠ 2 := by omega
    have h3 : s.pgaMode ≠ 3 := by omega
    have h4 : s.pgaMode ≠ 4 := by omega
    have h5 : s.pgaMode ≠ 5 := by omega
    have h6 : s.pgaMode ≠ 6 := by omega
    have h7 : s.pgaMode ≠ 7 := by omega
    simp [h0, h1, h2, h3, h4, h5, h6, h7]

/-- Witness for claim C13: the initialised driver (tracked gain 2), the
driver with tracked gain 0 on the busy double, and an out-of-range tracked gain. -/
theorem getMvPerCount_table_witness :
    handleReady.pgaMode = 2 ∧ getMvPerCount handleReady = 0.0625 ∧
    handleBusy.pgaMode = handleContinuous.pgaMode ∧
    getMvPerCount handleBusy = getMvPerCount handleContinuous ∧
    getMvPerCount { handleBusy with pgaMode := 255 } = 0 :=
  ⟨by decide, (getMvPerCount_table handleReady handleReady).2.2.2.1 (by decide), rfl,
   (getMvPerCount_table handleBusy handleContinuous).1 rfl,
   (getMvPerCount_table { handleBusy with pgaMode := 255 } handleBusy).2.2.2.2.2.2.2.2.2
     (by decide) (by decide)⟩

/-! ## Rounding to binary32 -/

section Binary32

theorem f32Exponent_eq (a : ℚ) (e : ℤ) (ha : 0 < a) (he : -126 ≤ e)
    (h1 : (2 : ℚ) ^ e ≤ a) (h2 : a < (2 : ℚ) ^ (e + 1)) : f32Exponent a = e := by
  have hb : 1 < 2 := by decide
  have h3 : e ≤ Int.log 2 a := (Int.zpow_le_iff_le_log hb ha).mp (by exact_mod_cast h1)
  have h4 : Int.log 2 a < e + 1 := (Int.lt_zpow_iff_log_lt hb ha).mp (by exact_mod_cast h2)
  unfold f32Exponent
  omega

theorem roundNearestEven_intCast (m : ℤ) : roundNearestEven (m : ℚ) = m := by
  simp [roundNearestEven]

theorem roundNearestEven_of_near (x : ℚ) (m : ℤ) (h1 : (m : ℚ) - 1 / 2 < x)
    (h2 : x < (m : ℚ) + 1 / 2) : roundNearestEven x = m := by
  unfold roundNearestEven
  by_cases hx : (m : ℚ) ≤ x
  · have hf : ⌊x⌋ = m := Int.floor_eq_iff.mpr ⟨hx, by linarith⟩
    rw [hf, if_pos (by linarith)]
  · have hx2 : x < (m : ℚ) := not_le.mp hx
    have hf : ⌊x⌋ = m - 1 := Int.floor_eq_iff.mpr ⟨by push_cast; linarith, by push_cast; linarith⟩
    rw [hf]
    have h3 : ¬ (x - ((m - 1 : ℤ) : ℚ) < 1 / 2) := by push_cast; linarith
    have h4 : 1 / 2 < x - ((m - 1 : ℤ) : ℚ) := by push_cast; linarith
    rw [if_neg h3, if_pos h4]
    ring

theorem floor_le_roundNearestEven (x : ℚ) : ⌊x⌋ ≤ roundNearestEven x := by
  unfold roundNearestEven
  split
  · exact le_refl _
  · split
    · omega
    · split <;> omega

theorem roundNearestEven_error (x : ℚ) : |(roundNearestEven x : ℚ) - x| ≤ 1 / 2 := by
  have h1 : (⌊x⌋ : ℚ) ≤ x := Int.floor_le x
  have h2 : x < (⌊x⌋ : ℚ) + 1 := Int.lt_floor_add_one x
  unfold roundNearestEven
  rw [abs_le]
  split
  · constructor <;> linarith
  · split
    · push_cast; constructor <;> linarith
    · split
      · constructor <;> linarith
      · push_cast; constructor <;> linarith

theorem f32Round_zero : f32Round 0 = 0 := by simp [f32Round]

theorem f32Round_neg (q : ℚ) : f32Round (-q) = -f32Round q := by
  rcases lt_trichotomy q 0 with h | h | h
  · have h1 : ¬ (-q = 0) := by linarith [h]
    have h2 : ¬ (-q < 0) := by linarith
    have h3 : ¬ (q = 0) := ne_of_lt h
    simp only [f32Round, if_neg h1, if_neg h2, if_neg h3, if_pos h, neg_neg]
  · rw [h]; simp [f32Round]
  · have h1 : ¬ (-q = 0) := by linarith [h]
    have h2 : -q < 0 := by linarith
    have h3 : ¬ (q = 0) := ne_of_gt h
    have h4 : ¬ (q < 0) := not_lt.mpr h.le
    simp only [f32Round, if_neg h1, if_pos h2, if_neg h3, if_neg h4, neg_neg]

theorem f32Round_of_pos (q : ℚ) (e : ℤ) (hq : 0 < q) (he : -126 ≤ e)
    (h1 : (2 : ℚ) ^ e ≤ q) (h2 : q < (2 : ℚ) ^ (e + 1)) :
    f32Round q = (roundNearestEven (q / 2 ^ (e - 23)) : ℚ) * 2 ^ (e - 23) := by
  have h3 : ¬ (q = 0) := ne_of_gt hq
  have h4 : ¬ (q < 0) := not_lt.mpr hq.le
  simp only [f32Round, if_neg h3, if_neg h4, f32Exponent_eq q e hq he h1 h2]

theorem f32Round_of_near (q : ℚ) (e m : ℤ) (hq : 0 < q) (he : -126 ≤ e)
    (h1 : (2 : ℚ) ^ e ≤ q) (h2 : q < (2 : ℚ) ^ (e + 1))
    (hlo : ((m : ℚ) - 1 / 2) * 2 ^ (e - 23) < q) (hhi : q < ((m : ℚ) + 1 / 2) * 2 ^ (e - 23)) :
    f32Round q = (m : ℚ) * 2 ^ (e - 23) := by
  have hu : (0 : ℚ) < 2 ^ (e - 23) := zpow_pos (by norm_num) _
  rw [f32Round_of_pos q e hq he h1 h2,
    roundNearestEven_of_near _ m ((lt_div_iff₀ hu).mpr hlo) ((div_lt_iff₀ hu).mpr hhi)]

theorem f32Round_exact (q : ℚ) (e m : ℤ) (hq : 0 < q) (he : -126 ≤ e)
    (h1 : (2 : ℚ) ^ e ≤ q) (h2 : q < (2 : ℚ) ^ (e + 1)) (hm : q = (m : ℚ) * 2 ^ (e - 23)) :
    f32Round q = q := by
  have hu : (0 : ℚ) < 2 ^ (e - 23) := zpow_pos (by norm_num) _
  have hx : q / 2 ^ (e - 23) = (m : ℚ) := by
    rw [hm]; field_simp
  rw [f32Round_of_pos q e hq he h1 h2, hx, roundNearestEven_intCast, ← hm]


theorem f32_log_bounds (q : ℚ) (hq : 0 < q) :
    (2 : ℚ) ^ Int.log 2 q ≤ q ∧ q < (2 : ℚ) ^ (Int.log 2 q + 1) := by
  have hb : 1 < 2 := by decide
  have h1 := Int.zpow_log_le_self (R := ℚ) hb hq
  have h2 := Int.lt_zpow_succ_log_self (R := ℚ) hb q
  exact ⟨by exact_mod_cast h1, by exact_mod_cast h2⟩

/-- A positive dyadic rational with a numerator below 2^24 is a binary32 number. -/
theorem f32Round_dyadic (n k : ℕ) (hn : 0 < n) (hn2 : n < 2 ^ 24) (hk : k ≤ 100) :
    f32Round ((n : ℚ) / 2 ^ k) = (n : ℚ) / 2 ^ k := by
  have h2k : (0 : ℚ) < 2 ^ k := pow_pos (by norm_num) _
  have hq : (0 : ℚ) < (n : ℚ) / 2 ^ k := div_pos (by exact_mod_cast hn) h2k
  obtain ⟨h1, h2⟩ := f32_log_bounds _ hq
  have hb : 1 < 2 := by decide
  have hlow : (2 : ℚ) ^ (-(k : ℤ)) ≤ (n : ℚ) / 2 ^ k := by
    rw [zpow_neg, zpow_natCast, le_div_iff₀ h2k, inv_mul_cancel₀ (ne_of_gt h2k)]
    exact_mod_cast hn
  have he1 : -(k : ℤ) ≤ Int.log 2 ((n : ℚ) / 2 ^ k) :=
    (Int.zpow_le_iff_le_log hb hq).mp (by exact_mod_cast hlow)
  have hupp : (n : ℚ) / 2 ^ k < (2 : ℚ) ^ ((24 : ℤ) - k) := by
    rw [zpow_sub₀ (by norm_num : (2 : ℚ) ≠ 0), zpow_natCast, div_lt_div_iff_of_pos_right h2k]
    rw [show ((24 : ℤ)) = ((24 : ℕ) : ℤ) from rfl, zpow_natCast]
    exact_mod_cast hn2
  have he2 : Int.log 2 ((n : ℚ) / 2 ^ k) < (24 : ℤ) - k :=
    (Int.lt_zpow_iff_log_lt hb hq).mp (by exact_mod_cast hupp)
  generalize Int.log 2 ((n : ℚ) / 2 ^ k) = e at h1 h2 he1 he2
  have hj : (0 : ℤ) ≤ 23 - e - k := by omega
  obtain ⟨j, hj2⟩ := Int.eq_ofNat_of_zero_le hj
  refine f32Round_exact _ e ((n : ℤ) * 2 ^ j) hq (by omega) h1 h2 ?_
  have he : e - 23 = -((j : ℤ) + k) := by omega
  rw [he, zpow_neg, zpow_add₀ (by norm_num : (2 : ℚ) ≠ 0), zpow_natCast, zpow_natCast]
  push_cast
  field_simp
  ring

theorem f32Round_zdyadic (z : ℤ) (k : ℕ) (hz : |z| < 2 ^ 24) (hk : k ≤ 100) :
    f32Round ((z : ℚ) / 2 ^ k) = (z : ℚ) / 2 ^ k := by
  rcases lt_trichotomy z 0 with h | h | h
  · have hn : (0 : ℤ) ≤ -z := by omega
    obtain ⟨n, hn2⟩ := Int.eq_ofNat_of_zero_le hn
    have hz2 : z = -(n : ℤ) := by omega
    have hnb : n < 2 ^ 24 := by
      have : |z| = (n : ℤ) := by rw [abs_of_neg h]; exact hn2
      rw [this] at hz
      exact_mod_cast hz
    rw [hz2]
    push_cast
    rw [neg_div, f32Round_neg, f32Round_dyadic n k (by omega) hnb hk]
  · rw [h]; simp [f32Round_zero]
  · obtain ⟨n, hn2⟩ := Int.eq_ofNat_of_zero_le h.le
    have hnb : n < 2 ^ 24 := by
      have : |z| = (n : ℤ) := by rw [abs_of_pos h]; exact hn2
      rw [this] at hz
      exact_mod_cast hz
    rw [hn2]
    push_cast
    exact f32Round_dyadic n k (by omega) hnb hk

/-- Rounding keeps a normal positive magnitude positive. -/
theorem f32Round_pos (q : ℚ) (hq : (2 : ℚ) ^ (-126 : ℤ) ≤ q) : 0 < f32Round q := by
  have hq0 : 0 < q := lt_of_lt_of_le (zpow_pos (by norm_num) _) hq
  obtain ⟨h1, h2⟩ := f32_log_bounds _ hq0
  have hb : 1 < 2 := by decide
  have he : (-126 : ℤ) ≤ Int.log 2 q :=
    (Int.zpow_le_iff_le_log hb hq0).mp (by exact_mod_cast hq)
  rw [f32Round_of_pos q _ hq0 he h1 h2]
  have hu : (0 : ℚ) < 2 ^ (Int.log 2 q - 23) := zpow_pos (by norm_num) _
  apply mul_pos _ hu
  have hx : (1 : ℚ) ≤ q / 2 ^ (Int.log 2 q - 23) := by
    rw [le_div_iff₀ hu, one_mul]
    refine le_trans ?_ h1
    exact zpow_le_zpow_right₀ (by norm_num) (by omega)
  have hf : (1 : ℤ) ≤ ⌊q / 2 ^ (Int.log 2 q - 23)⌋ := Int.le_floor.mpr (by exact_mod_cast hx)
  have := floor_le_roundNearestEven (q / 2 ^ (Int.log 2 q - 23))
  exact_mod_cast (by omega : (0 : ℤ) < roundNearestEven (q / 2 ^ (Int.log 2 q - 23)))

/-- Relative error of the rounding on normal magnitudes. -/
theorem f32Round_error (q : ℚ) (hq : (2 : ℚ) ^ (-126 : ℤ) ≤ q) :
    |f32Round q - q| ≤ q / 2 ^ 24 := by
  have hq0 : 0 < q := lt_of_lt_of_le (zpow_pos (by norm_num) _) hq
  obtain ⟨h1, h2⟩ := f32_log_bounds _ hq0
  have hb : 1 < 2 := by decide
  have he : (-126 : ℤ) ≤ Int.log 2 q :=
    (Int.zpow_le_iff_le_log hb hq0).mp (by exact_mod_cast hq)
  rw [f32Round_of_pos q _ hq0 he h1 h2]
  generalize Int.log 2 q = e at h1 h2 he
  have hu : (0 : ℚ) < 2 ^ (e - 23) := zpow_pos (by norm_num) _
  have hr := roundNearestEven_error (q / 2 ^ (e - 23))
  have heq : (roundNearestEven (q / 2 ^ (e - 23)) : ℚ) * 2 ^ (e - 23) - q
      = ((roundNearestEven (q / 2 ^ (e - 23)) : ℚ) - q / 2 ^ (e - 23)) * 2 ^ (e - 23) := by
    field_simp
  rw [heq, abs_mul, abs_of_pos hu]
  have h3 : (2 : ℚ) ^ (e - 23) = 2 ^ e / 2 ^ 23 := by
    rw [zpow_sub₀ (by norm_num : (2 : ℚ) ≠ 0)]; norm_num
  calc |(roundNearestEven (q / 2 ^ (e - 23)) : ℚ) - q / 2 ^ (e - 23)| * 2 ^ (e - 23)
      ≤ 1 / 2 * 2 ^ (e - 23) := mul_le_mul_of_nonneg_right hr hu.le
    _ = 2 ^ e / 2 ^ 24 := by rw [h3]; ring
    _ ≤ q / 2 ^ 24 := by
        apply div_le_div_of_nonneg_right h1 (by positivity)


theorem f32Round_factor_low : f32Round 0.007813 = 8389145 / 2 ^ 30 := by
  rw [f32Round_of_near 0.007813 (-7) 8389145 (by norm_num) (by norm_num) (by norm_num)
    (by norm_num) (by norm_num) (by norm_num)]
  norm_num

theorem f32Round_intCast (z : ℤ) (hz : |z| < 2 ^ 24) : f32Round (z : ℚ) = z := by
  have h := f32Round_zdyadic z 0 hz (by decide)
  simpa using h

/-- The product of a 16-bit reading and a dyadic factor with numerator at
most 3 is a binary32 number. -/
theorem f32Round_reading_mul (z : ℤ) (n k : ℕ) (hz : |z| ≤ 32768) (hn : n ≤ 3)
    (hk : k ≤ 100) :
    f32Round ((z : ℚ) * ((n : ℚ) / 2 ^ k)) = (z : ℚ) * ((n : ℚ) / 2 ^ k) := by
  have hb : |z * (n : ℤ)| < 2 ^ 24 := by
    rw [abs_mul]
    have h1 : |(n : ℤ)| ≤ 3 := by
      rw [abs_of_nonneg (by positivity)]
      exact_mod_cast hn
    calc |z| * |(n : ℤ)| ≤ 32768 * 3 := mul_le_mul hz h1 (abs_nonneg _) (by norm_num)
      _ < 2 ^ 24 := by norm_num
  have h := f32Round_zdyadic (z * (n : ℤ)) k hb hk
  have e : (z : ℚ) * ((n : ℚ) / 2 ^ k) = ((z * (n : ℤ) : ℤ) : ℚ) / 2 ^ k := by
    push_cast; ring
  rw [e]
  exact h

/-- Sign of a rounded product of an integer and a factor of at least 1/256. -/
theorem f32Round_mul_sign (z : ℤ) (f : ℚ) (hf : 1 / 256 ≤ f) :
    (f32Round ((z : ℚ) * f) < 0 ↔ z < 0) ∧ (0 < f32Round ((z : ℚ) * f) ↔ 0 < z) := by
  have hsmall : (2 : ℚ) ^ (-126 : ℤ) ≤ 1 / 256 := by
    have : (1 / 256 : ℚ) = 2 ^ (-8 : ℤ) := by norm_num
    rw [this]
    exact zpow_le_zpow_right₀ (by norm_num) (by norm_num)
  have hpos : ∀ w : ℤ, 0 < w → 0 < f32Round ((w : ℚ) * f) := by
    intro w hw
    apply f32Round_pos
    have h1 : (1 : ℚ) ≤ (w : ℚ) := by exact_mod_cast hw
    have hf0 : (0 : ℚ) ≤ f := le_trans (by norm_num) hf
    calc (2 : ℚ) ^ (-126 : ℤ) ≤ 1 / 256 := hsmall
      _ ≤ f := hf
      _ = 1 * f := (one_mul f).symm
      _ ≤ (w : ℚ) * f := mul_le_mul_of_nonneg_right h1 hf0
  rcases lt_trichotomy z 0 with h | h | h
  · have hn := hpos (-z) (by omega)
    have e : ((-z : ℤ) : ℚ) * f = -((z : ℚ) * f) := by push_cast; ring
    rw [e, f32Round_neg] at hn
    constructor
    · exact ⟨fun _ => h, fun _ => by linarith⟩
    · exact ⟨fun h2 => by linarith, fun h2 => by omega⟩
  · subst h
    simp [f32Round_zero]
  · have hp := hpos z h
    constructor
    · exact ⟨fun h2 => by linarith, fun h2 => by omega⟩
    · exact ⟨fun _ => h, fun _ => hp⟩

/-- Distance of the rounded product with the binary32 constant of the 0.256 V
ranges from the exact product with the decimal constant. -/
theorem f32Round_low_product_error (z : ℤ) :
    |f32Round ((z : ℚ) * (8389145 / 2 ^ 30)) - (z : ℚ) * 0.007813|
      ≤ |(z : ℚ)| * (6 / 10 ^ 10) := by
  have hpos : ∀ w : ℤ, 0 < w →
      |f32Round ((w : ℚ) * (8389145 / 2 ^ 30)) - (w : ℚ) * 0.007813|
        ≤ (w : ℚ) * (6 / 10 ^ 10) := by
    intro w hw
    have h1 : (1 : ℚ) ≤ (w : ℚ) := by exact_mod_cast hw
    have hq : (2 : ℚ) ^ (-126 : ℤ) ≤ (w : ℚ) * (8389145 / 2 ^ 30) := by
      have hs : (2 : ℚ) ^ (-126 : ℤ) ≤ 2 ^ (-8 : ℤ) :=
        zpow_le_zpow_right₀ (by norm_num) (by norm_num)
      have h2 : (2 : ℚ) ^ (-8 : ℤ) ≤ 8389145 / 2 ^ 30 := by norm_num
      calc (2 : ℚ) ^ (-126 : ℤ) ≤ 8389145 / 2 ^ 30 := le_trans hs h2
        _ = 1 * (8389145 / 2 ^ 30) := (one_mul _).symm
        _ ≤ (w : ℚ) * (8389145 / 2 ^ 30) :=
            mul_le_mul_of_nonneg_right h1 (by norm_num)
    have he := f32Round_error _ hq
    rw [abs_le] at he ⊢
    obtain ⟨he1, he2⟩ := he
    constructor
    · nlinarith
    · nlinarith
  rcases lt_trichotomy z 0 with h | h | h
  · have hn := hpos (-z) (by omega)
    have e : ((-z : ℤ) : ℚ) * (8389145 / 2 ^ 30) = -((z : ℚ) * (8389145 / 2 ^ 30)) := by
      push_cast; ring
    rw [e, f32Round_neg] at hn
    have hz : |(z : ℚ)| = ((-z : ℤ) : ℚ) := by
      rw [abs_of_neg (by exact_mod_cast h)]; push_cast; ring
    rw [hz]
    have e2 : f32Round ((z : ℚ) * (8389145 / 2 ^ 30)) - (z : ℚ) * 0.007813
        = -(-f32Round ((z : ℚ) * (8389145 / 2 ^ 30)) - ((-z : ℤ) : ℚ) * 0.007813) := by
      push_cast; ring
    rw [e2, abs_neg]
    exact hn
  · subst h
    simp [f32Round_zero]
  · have hp := hpos z h
    rw [abs_of_pos (by exact_mod_cast h : (0 : ℚ) < (z : ℚ))]
    exact hp

end Binary32

/-! ## Millivolts -/

section MilliVolts

variable (W : TwoWire β) (s : Handle β)

theorem getMvPerCount_congr (t : Handle β) (h : t.pgaMode = s.pgaMode) :
    getMvPerCount t = getMvPerCount s := by
  rw [getMvPerCount_of_pgaMode t _ rfl, getMvPerCount_of_pgaMode s _ h.symm]

theorem getMvPerCount_pos (h : s.pgaMode ≤ 7) : 0 < getMvPerCount s := by
  rw [getMvPerCount_of_pgaMode s _ rfl]
  have h8 : s.pgaMode = 0 ∨ s.pgaMode = 1 ∨ s.pgaMode = 2 ∨ s.pgaMode = 3 ∨ s.pgaMode = 4 ∨
      s.pgaMode = 5 ∨ s.pgaMode = 6 ∨ s.pgaMode = 7 := by omega
  rcases h8 with h | h | h | h | h | h | h | h <;> rw [h] <;> norm_num

theorem getMvPerCount_zero_of_large (h : 8 ≤ s.pgaMode) : getMvPerCount s = 0 := by
  rw [getMvPerCount_of_pgaMode s _ rfl]
  have h0 : s.pgaMode ≠ 0 := by omega
  have h1 : s.pgaMode ≠ 1 := by omega
  have h2 : s.pgaMode ≠ 2 := by omega
  have h3 : s.pgaMode ≠ 3 := by omega
  have h4 : s.pgaMode ≠ 4 := by omega
  have h5 : s.pgaMode ≠ 5 := by omega
  have h6 : s.pgaMode ≠ 6 := by omega
  have h7 : s.pgaMode ≠ 7 := by omega
  simp [h0, h1, h2, h3, h4, h5, h6, h7]

theorem toInt16_range (x : Nat) : -32768 ≤ toInt16 x ∧ toInt16 x ≤ 32767 := by
  unfold toInt16
  split <;> omega

theorem getConversion_range (tp : Bool) :
    -32768 ≤ (getConversion W s tp).2 ∧ (getConversion W s tp).2 ≤ 32767 :=
  toInt16_range _

theorem getConversion_abs (tp : Bool) : |(getConversion W s tp).2| ≤ 32768 := by
  obtain ⟨h1, h2⟩ := getConversion_range W s tp
  rw [abs_le]
  constructor <;> omega

theorem getMilliVolts_value (tp : Bool) :
    (getMilliVolts W s tp).2
      = f32Round (((getConversion W s tp).2 : ℚ) * f32Round (getMvPerCount s)) := by
  have hb : |(getConversion W s tp).2| < 2 ^ 24 :=
    lt_of_le_of_lt (getConversion_abs W s tp) (by norm_num)
  simp only [getMilliVolts]
  rw [getMvPerCount_congr s _ (getConversion_members W s tp).2.2.2.1, f32Round_intCast _ hb]

/-- The constants of the selectors 0 to 4 are dyadic with numerator at most 3. -/
theorem getMvPerCount_dyadic (h : s.pgaMode ≤ 4) :
    ∃ n k : ℕ, 0 < n ∧ n ≤ 3 ∧ k ≤ 100 ∧ getMvPerCount s = (n : ℚ) / 2 ^ k := by
  have h5 : s.pgaMode = 0 ∨ s.pgaMode = 1 ∨ s.pgaMode = 2 ∨ s.pgaMode = 3 ∨ s.pgaMode = 4 := by
    omega
  rcases h5 with h | h | h | h | h
  · exact ⟨3, 4, by decide, by decide, by decide, by
      rw [getMvPerCount_of_pgaMode s 0 h]; norm_num⟩
  · exact ⟨1, 3, by decide, by decide, by decide, by
      rw [getMvPerCount_of_pgaMode s 1 h]; norm_num⟩
  · exact ⟨1, 4, by decide, by decide, by decide, by
      rw [getMvPerCount_of_pgaMode s 2 h]; norm_num⟩
  · exact ⟨1, 5, by decide, by decide, by decide, by
      rw [getMvPerCount_of_pgaMode s 3 h]; norm_num⟩
  · exact ⟨1, 6, by decide, by decide, by decide, by
      rw [getMvPerCount_of_pgaMode s 4 h]; norm_num⟩

theorem getMvPerCount_low (h5 : 5 ≤ s.pgaMode) (h7 : s.pgaMode ≤ 7) :
    getMvPerCount s = 0.007813 := by
  have h3 : s.pgaMode = 5 ∨ s.pgaMode = 6 ∨ s.pgaMode = 7 := by omega
  rcases h3 with h | h | h
  · rw [getMvPerCount_of_pgaMode s 5 h]; norm_num
  · rw [getMvPerCount_of_pgaMode s 6 h]; norm_num
  · rw [getMvPerCount_of_pgaMode s 7 h]; norm_num

/-- The `float` returned by `getMvPerCount()`, by tracked selector. -/
theorem f32Round_getMvPerCount :
    (s.pgaMode ≤ 4 → f32Round (getMvPerCount s) = getMvPerCount s) ∧
    (5 ≤ s.pgaMode → s.pgaMode ≤ 7 → f32Round (getMvPerCount s) = 8389145 / 2 ^ 30) ∧
    (8 ≤ s.pgaMode → f32Round (getMvPerCount s) = 0) := by
  refine ⟨?_, ?_, ?_⟩
  · intro h
    obtain ⟨n, k, hn, hn3, hk, he⟩ := getMvPerCount_dyadic s h
    rw [he]
    exact f32Round_dyadic n k hn (lt_of_le_of_lt hn3 (by norm_num)) hk
  · intro h5 h7
    rw [getMvPerCount_low s h5 h7]
    exact f32Round_factor_low
  · intro h8
    rw [getMvPerCount_zero_of_large s h8]
    exact f32Round_zero

theorem f32Round_getMvPerCount_ge (h : s.pgaMode ≤ 7) :
    1 / 256 ≤ f32Round (getMvPerCount s) := by
  by_cases h4 : s.pgaMode ≤ 4
  · rw [(f32Round_getMvPerCount s).1 h4]
    have h5 : s.pgaMode = 0 ∨ s.pgaMode = 1 ∨ s.pgaMode = 2 ∨ s.pgaMode = 3 ∨
        s.pgaMode = 4 := by omega
    rw [getMvPerCount_of_pgaMode s _ rfl]
    rcases h5 with h | h | h | h | h <;> rw [h] <;> norm_num
  · rw [(f32Round_getMvPerCount s).2.1 (by omega) h]
    norm_num

/-- For the selectors 0 to 4 the binary32 product is the exact product. -/
theorem getMilliVolts_exact (tp : Bool) (h : s.pgaMode ≤ 4) :
    (getMilliVolts W s tp).2 = ((getConversion W s tp).2 : ℚ) * getMvPerCount s := by
  rw [getMilliVolts_value, (f32Round_getMvPerCount s).1 h]
  obtain ⟨n, k, -, hn3, hk, he⟩ := getMvPerCount_dyadic s h
  rw [he]
  exact f32Round_reading_mul _ n k (getConversion_abs W s tp) hn3 hk

/-- On a transport whose conversion register always reads `v`, every
conversion returns `v` as a signed 16-bit value. -/
theorem getConversion_of_holds (v : Nat) (h : HoldsConversion W v) (tp : Bool) :
    (getConversion W s tp).2 = toInt16 v := by
  simp only [getConversion]
  rw [h _]

theorem getConversionP0N1_members :
    (getConversionP0N1 W s).1.pgaMode = s.pgaMode ∧
    (getConversionP0N1 W s).1.devAddr = s.devAddr := by
  by_cases h : s.muxMode = ADS1115_MUX_P0_N1 <;> simp [getConversionP0N1, h]

end MilliVolts

/-- Claim C14 (amended).  `getMilliVolts(t)` performs `getConversion(t)` and
returns the binary32 product of its signed result and the `float` returned by
`getMvPerCount()`.  For the tracked gain selectors 0 to 4 that is exactly the
reading times the constant; for the selectors 5, 6 and 7 the factor is the
binary32 number 8389145 / 2^30 and the result lies within 6e-10 times the
magnitude of the reading of the reading times 0.007813; for a tracked
selector from 8 on the result is 0.  For the selectors 0 to 7 the result is
negative exactly when the reading is negative and positive exactly when it is
positive.  End to end: for a driver constructed at address 0x48 and
initialised, on a transport whose conversion register holds 0x1F40 (whatever
the ready checks report), `getConversionP0N1()` returns 8000 and a following
`getMilliVolts()` returns 8000 * 0.0625 = 500 exactly. -/
theorem getMilliVolts_scales_signed_reading (W : TwoWire β) (s uninit : Handle β)
    (tp : Bool) :
    (getMilliVolts W s tp).1 = (getConversion W s tp).1 ∧
    (getMilliVolts W s tp).2
      = f32Round (((getConversion W s tp).2 : ℚ) * f32Round (getMvPerCount s)) ∧
    (s.pgaMode ≤ 4 →
      f32Round (getMvPerCount s) = getMvPerCount s ∧
      (getMilliVolts W s tp).2 = ((getConversion W s tp).2 : ℚ) * getMvPerCount s) ∧
    (5 ≤ s.pgaMode → s.pgaMode ≤ 7 →
      f32Round (getMvPerCount s) = 8389145 / 2 ^ 30 ∧
      |(getMilliVolts W s tp).2 - ((getConversion W s tp).2 : ℚ) * getMvPerCount s|
        ≤ |((getConversion W s tp).2 : ℚ)| * (6 / 10 ^ 10)) ∧
    (8 ≤ s.pgaMode → (getMilliVolts W s tp).2 = 0) ∧
    (s.pgaMode ≤ 7 →
      ((getMilliVolts W s tp).2 < 0 ↔ (getConversion W s tp).2 < 0) ∧
      (0 < (getMilliVolts W s tp).2 ↔ 0 < (getConversion W s tp).2)) ∧
    (HoldsConversion W 0x1F40 →
      (getConversionP0N1 W (initializeDevice W (new W 0x48 uninit))).2 = 8000 ∧
      (getMilliVolts W
        (getConversionP0N1 W (initializeDevice W (new W 0x48 uninit))).1 true).2 = 500) := by
  refine ⟨rfl, getMilliVolts_value W s tp, ?_, ?_, ?_, ?_, ?_⟩
  · intro h
    exact ⟨(f32Round_getMvPerCount s).1 h, getMilliVolts_exact W s tp h⟩
  · intro h5 h7
    refine ⟨(f32Round_getMvPerCount s).2.1 h5 h7, ?_⟩
    rw [getMilliVolts_value, (f32Round_getMvPerCount s).2.1 h5 h7, getMvPerCount_low s h5 h7]
    exact f32Round_low_product_error _
  · intro h8
    rw [getMilliVolts_value, (f32Round_getMvPerCount s).2.2 h8, mul_zero, f32Round_zero]
  · intro hg
    rw [getMilliVolts_value]
    exact f32Round_mul_sign _ _ (f32Round_getMvPerCount_ge s hg)
  · intro hold
    constructor
    · simp only [getConversionP0N1]
      rw [getConversion_of_holds W _ _ hold]
      decide
    · have hp : (getConversionP0N1 W (initializeDevice W (new W 0x48 uninit))).1.pgaMode = 2 :=
        (getConversionP0N1_members W _).1.trans (initializeDevice_members W _).2.2.2
      rw [getMilliVolts_exact W _ true (by rw [hp]; decide),
        getConversion_of_holds W _ _ hold, getMvPerCount_of_pgaMode _ 2 hp]
      have h8000 : toInt16 0x1F40 = 8000 := by decide
      rw [h8000]
      norm_num

/-! ## The always-ready transport double -/

section Ready

theorem ready_read_conversion (sample : Nat) (t : Handle SimBus) :
    (readRegister (readyWire sample) t 0).2 = sample % 65536 := by
  simp [readRegister, wireBegin, wireWrite, wireEnd, wireDelay, wireRequestFrom, wireRead,
    readyWire, SimBus.commit, toU16_hi, toU16_lo]
  rw [combine_bytes _ _ (by omega)]
  omega

theorem toU16_hi_ready (n : Nat) :
    toU16 (((n : Int) % 32768 + 32768) / 256 % 256) = (n % 32768 + 32768) / 256 % 256 := by
  unfold toU16; omega

theorem toU16_lo_ready (n : Nat) :
    toU16 (((n : Int) % 32768 + 32768) % 256) = (n % 32768 + 32768) % 256 := by
  unfold toU16; omega

theorem ready_read_config (sample : Nat) (t : Handle SimBus) :
    (readRegister (readyWire sample) t 1).2 = t.wire.config % 32768 + 32768 := by
  simp [readRegister, wireBegin, wireWrite, wireEnd, wireDelay, wireRequestFrom, wireRead,
    readyWire, SimBus.commit, SimBus.selected, toU16_hi_ready, toU16_lo_ready]
  rw [combine_bytes _ _ (by omega)]
  omega

/-- The always-ready double reports a finished conversion at every check. -/
theorem readyWire_alwaysReady (sample : Nat) : AlwaysReady (readyWire sample) := by
  intro t
  rw [isConversionReady_iff_bit]
  simp only [ra_config_eq]
  rw [ready_read_config, Nat.testBit_to_div_mod]
  simp only [decide_eq_true_eq]
  omega

/-- The conversion register of the always-ready double holds the sample. -/
theorem readyWire_holds (sample : Nat) (h : sample < 65536) :
    HoldsConversion (readyWire sample) sample := by
  intro t
  simp only [ra_conversion_eq]
  rw [ready_read_conversion, Nat.mod_eq_of_lt h]

end Ready

/-- Claim C14, counterexample.  With gain selector 5 and a reading of 12345
the driver returns 12642089 / 2^17 (about 96.4514847), not the product
12345 * 0.007813 = 96.451485 of the reading and the constant; and after
`setGain(10)` a reading of -1 gives 0, so the sign of the reading is not
preserved. -/
theorem getMilliVolts_exact_product_counterexample :
    (getConversion (readyWire 0x3039) handleLowRange true).2 = 12345 ∧
    getMvPerCount handleLowRange = 0.007813 ∧
    (getMilliVolts (readyWire 0x3039) handleLowRange true).2 = 12642089 / 2 ^ 17 ∧
    (getMilliVolts (readyWire 0x3039) handleLowRange true).2
      ≠ ((getConversion (readyWire 0x3039) handleLowRange true).2 : ℚ)
          * getMvPerCount handleLowRange ∧
    (getConversion (readyWire 0xFFFF) handleBadGain true).2 = -1 ∧
    (getMilliVolts (readyWire 0xFFFF) handleBadGain true).2 = 0 ∧
    ¬ ((getMilliVolts (readyWire 0xFFFF) handleBadGain true).2 < 0
        ↔ (getConversion (readyWire 0xFFFF) handleBadGain true).2 < 0) := by
  have hr1 : (getConversion (readyWire 0x3039) handleLowRange true).2 = 12345 := by
    rw [getConversion_of_holds _ _ _ (readyWire_holds 0x3039 (by decide))]
    decide
  have hp1 : handleLowRange.pgaMode = 5 := (setGain_members _ _ 5).2.2.2
  have hg1 : getMvPerCount handleLowRange = 0.007813 :=
    getMvPerCount_low _ (by rw [hp1]) (by rw [hp1]; decide)
  have hv1 : (getMilliVolts (readyWire 0x3039) handleLowRange true).2 = 12642089 / 2 ^ 17 := by
    rw [getMilliVolts_value, hr1, hg1, f32Round_factor_low,
      f32Round_of_near _ 6 12642089 (by norm_num) (by norm_num) (by norm_num)
        (by norm_num) (by norm_num) (by norm_num)]
    norm_num
  have hr2 : (getConversion (readyWire 0xFFFF) handleBadGain true).2 = -1 := by
    rw [getConversion_of_holds _ _ _ (readyWire_holds 0xFFFF (by decide))]
    decide
  have hp2 : handleBadGain.pgaMode = 10 := (setGain_members _ _ 10).2.2.2
  have hv2 : (getMilliVolts (readyWire 0xFFFF) handleBadGain true).2 = 0 := by
    rw [getMilliVolts_value, (f32Round_getMvPerCount handleBadGain).2.2 (by rw [hp2]; decide),
      mul_zero, f32Round_zero]
  refine ⟨hr1, hg1, hv1, ?_, hr2, hv2, ?_⟩
  · rw [hv1, hr1, hg1]
    norm_num
  · rw [hv2, hr2]
    norm_num

/-- Witness for claim C14: the always-ready double whose conversion register
holds 0x1F40, the sign statement on the initialised driver of the echoing
double, and the error bound on the driver set to gain selector 5. -/
theorem getMilliVolts_scales_signed_reading_witness :
    AlwaysReady (readyWire 0x1F40) ∧ HoldsConversion (readyWire 0x1F40) 0x1F40 ∧
    (getConversionP0N1 (readyWire 0x1F40)
      (initializeDevice (readyWire 0x1F40) (new (readyWire 0x1F40) 0x48 (handle0 simBus0)))).2
      = 8000 ∧
    (getMilliVolts (readyWire 0x1F40)
      (getConversionP0N1 (readyWire 0x1F40)
        (initializeDevice (readyWire 0x1F40)
          (new (readyWire 0x1F40) 0x48 (handle0 simBus0)))).1 true).2 = 500 ∧
    handleReady.pgaMode ≤ 7 ∧
    ((getMilliVolts echoWire handleReady true).2 < 0
      ↔ (getConversion echoWire handleReady true).2 < 0) ∧
    5 ≤ handleLowRange.pgaMode ∧ handleLowRange.pgaMode ≤ 7 ∧
    |(getMilliVolts (readyWire 0x3039) handleLowRange true).2
        - ((getConversion (readyWire 0x3039) handleLowRange true).2 : ℚ)
          * getMvPerCount handleLowRange|
      ≤ |((getConversion (readyWire 0x3039) handleLowRange true).2 : ℚ)| * (6 / 10 ^ 10) :=
  ⟨readyWire_alwaysReady _, readyWire_holds _ (by decide),
   ((getMilliVolts_scales_signed_reading (readyWire 0x1F40) (handle0 simBus0)
      (handle0 simBus0) true).2.2.2.2.2.2 (readyWire_holds _ (by decide))).1,
   ((getMilliVolts_scales_signed_reading (readyWire 0x1F40) (handle0 simBus0)
      (handle0 simBus0) true).2.2.2.2.2.2 (readyWire_holds _ (by decide))).2,
   by decide,
   ((getMilliVolts_scales_signed_reading echoWire handleReady handleReady true).2.2.2.2.2.1
      (by decide)).1,
   le_of_eq (setGain_members _ _ 5).2.2.2.symm,
   le_of_eq (setGain_members _ _ 5).2.2.2 |>.trans (by decide),
   ((getMilliVolts_scales_signed_reading (readyWire 0x3039) handleLowRange handleLowRange
      true).2.2.2.1 (le_of_eq (setGain_members _ _ 5).2.2.2.symm)
      (le_of_eq (setGain_members _ _ 5).2.2.2 |>.trans (by decide))).2⟩

/-! ## Wire format of the register primitives -/

section WireFormat

variable (W : TwoWire β) (s : Handle β)

/-- The value of `readRegister` in terms of the two bytes read. -/
theorem readRegister_value (a : Nat) :
    (readRegister W s a).2
      = ((toU16 (wireRead W (requestState W s a)).2 <<< 8)
          ||| toU16 (wireRead W (wireRead W (requestState W s a)).1).2) % 65536 := by
  simp [readRegister, requestState, wireBegin, wireWrite, wireEnd, wireDelay,
    wireRequestFrom, wireRead]

theorem readRegister_of_bytes (a first second : Nat) (h1 : first < 256) (h2 : second < 256)
    (hf : (wireRead W (requestState W s a)).2 = (first : Int))
    (hs : (wireRead W (wireRead W (requestState W s a)).1).2 = (second : Int)) :
    (readRegister W s a).2 = first * 256 + second := by
  rw [readRegister_value, hf, hs, toU16_natCast, toU16_natCast,
    Nat.mod_eq_of_lt (by omega : first < 65536), Nat.mod_eq_of_lt (by omega : second < 65536),
    combine_bytes _ _ h2]
  omega

/-- On the byte-echoing double a register reads back the 16-bit value
written to it. -/
theorem mem_read_after_write (m : Handle MemBus) (a v : Nat) (hv : v < 65536) :
    (readRegister memWire (writeRegister memWire m a v) a).2 = v := by
  simp [readRegister, writeRegister, wireBegin, wireWrite, wireEnd, wireDelay,
    wireRequestFrom, wireRead, memWire, MemBus.commit, hi_byte, lo_byte, toU16_hi, toU16_lo]
  rw [combine_bytes _ _ (by omega)]
  omega

end WireFormat

/-- Claim C15.  `writeRegister(a, v)` emits exactly one transaction to the
device address with the three bytes `a`, `v div 256`, `v mod 256` in that
order; `readRegister(a)` emits one pointer-set transaction with the single byte
`a`, then (after the delay) a two-byte request and two byte reads, and returns
`first_byte * 256 + second_byte`; hence on a transport that echoes the written
bytes `readRegister(a)` after `writeRegister(a, v)` returns `v`, for every
register address `a` and every 16-bit `v`. -/
theorem register_primitives_big_endian (W : TwoWire β) (s : Handle β) (m : Handle MemBus)
    (a v : Nat) (ha : a < 256) (hv : v < 65536) :
    (writeRegister W s a v).log
      = s.log ++ [WireCall.beginTransmission s.devAddr, WireCall.write a,
          WireCall.write (v / 256), WireCall.write (v % 256), WireCall.endTransmission] ∧
    (readRegister W s a).1.log
      = s.log ++ [WireCall.beginTransmission s.devAddr, WireCall.write a,
          WireCall.endTransmission, WireCall.delay 1, WireCall.requestFrom s.devAddr 2,
          WireCall.read, WireCall.read] ∧
    (∀ first second : Nat, first < 256 → second < 256 →
      (wireRead W (requestState W s a)).2 = (first : Int) →
      (wireRead W (wireRead W (requestState W s a)).1).2 = (second : Int) →
      (readRegister W s a).2 = first * 256 + second) ∧
    (readRegister memWire (writeRegister memWire m a v) a).2 = v := by
  refine ⟨?_, ?_, fun first second => readRegister_of_bytes W s a first second,
    mem_read_after_write m a v hv⟩
  · rw [writeRegister_log]
    simp only [writeTxn, Nat.mod_eq_of_lt ha,
      Nat.mod_eq_of_lt (by omega : v / 256 < 256)]
  · rw [readRegister_log]
    simp only [readTxn, Nat.mod_eq_of_lt ha]

/-- Witness for claim C15: register 0x03 and the value 0xABCD on the
byte-echoing double. -/
theorem register_primitives_big_endian_witness :
    3 < 256 ∧ 0xABCD < 65536 ∧
    (readRegister memWire (writeRegister memWire handleMem 3 0xABCD) 3).2 = 0xABCD ∧
    (readRegister memWire (writeRegister memWire handleMem 3 0xABCD) 3).2
      = 0xAB * 256 + 0xCD :=
  ⟨by decide, by decide,
   (register_primitives_big_endian memWire handleMem handleMem 3 0xABCD (by decide)
     (by decide)).2.2.2,
   (register_primitives_big_endian memWire (writeRegister memWire handleMem 3 0xABCD)
     handleMem 3 0xABCD (by decide) (by decide)).2.2.1 0xAB 0xCD (by decide) (by decide)
     (by decide) (by decide)⟩

/-! ## Transport failures -/

/-- Claim C16, refuted as stated: on the dead bus the pointer-set transaction
of `readRegister(0x00)` reports status 2 and the request delivers no byte, so
the primitive of the specification fails with `BusError`, while the driver's
`readRegister` returns the value 0xFFFF; and `writeRegister`, whose
transaction also reports status 2, returns exactly as it does when the
transport reports success. -/
theorem register_primitives_bus_error_counterexample :
    (wireEnd deadWire
      (wireWrite deadWire (wireBegin deadWire handleDead handleDead.devAddr) 0)).2 = 2 ∧
    readRegisterSpec deadWire handleDead 0 = Except.error BusError.transactionFailed ∧
    (readRegister deadWire handleDead 0).2 = 0xFFFF ∧
    writeRegisterSpec deadWire handleDead 1 0x0583
      = Except.error BusError.transactionFailed ∧
    writeRegister deadWire handleDead 1 0x0583
      = writeRegister (withStatus deadWire 0 2) handleDead 1 0x0583 :=
  ⟨rfl, rfl, by decide, rfl, rfl⟩

section SpecPrimitives

variable (W : TwoWire β) (s : Handle β)

/-- When both transactions complete and deliver two bytes, the primitive of
the specification returns what `readRegister` returns. -/
theorem readRegisterSpec_ok (a first second : Nat)
    (hst : (wireEnd W (wireWrite W (wireBegin W s s.devAddr) a)).2 = 0)
    (hct : 2 ≤ (wireRequestFrom W
      (wireDelay W (wireEnd W (wireWrite W (wireBegin W s s.devAddr) a)).1 1) s.devAddr 2).2)
    (h1 : first < 256) (h2 : second < 256)
    (hf : (wireRead W (requestState W s a)).2 = (first : Int))
    (hs : (wireRead W (wireRead W (requestState W s a)).1).2 = (second : Int)) :
    readRegisterSpec W s a = Except.ok (readRegister W s a) := by
  have hv := readRegister_of_bytes W s a first second h1 h2 hf hs
  have hstate : (readRegister W s a).1 = (wireRead W (wireRead W (requestState W s a)).1).1 :=
    rfl
  have hpair : readRegister W s a
      = ((wireRead W (wireRead W (requestState W s a)).1).1, first * 256 + second) :=
    Prod.ext hstate hv
  have hf2 : (wireRead W (requestState W s a)).2.toNat = first := by rw [hf]; rfl
  have hs2 : (wireRead W (wireRead W (requestState W s a)).1).2.toNat = second := by
    rw [hs]; rfl
  rw [hpair]
  unfold readRegisterSpec
  simp only [ne_eq, hst, not_true_eq_false, if_false, not_lt.mpr hct]
  show Except.ok ((wireRead W (wireRead W (requestState W s a)).1).1,
      (wireRead W (requestState W s a)).2.toNat * 256
        + (wireRead W (wireRead W (requestState W s a)).1).2.toNat) = _
  rw [hf2, hs2]

/-- When the transaction is reported as completed, the primitive of the
specification returns what `writeRegister` returns. -/
theorem writeRegisterSpec_ok (a v : Nat)
    (hst : (wireEnd W (wireWrite W (wireWrite W (wireWrite W (wireBegin W s s.devAddr) a)
      (v / 256)) (v % 256))).2 = 0) :
    writeRegisterSpec W s a v = Except.ok (writeRegister W s a v) := by
  have hw : writeRegister W s a v
      = (wireEnd W (wireWrite W (wireWrite W (wireWrite W (wireBegin W s s.devAddr) a)
          (v / 256)) (v % 256))).1 := by
    simp [writeRegister, wireWrite, wireEnd, wireBegin, hi_byte, lo_byte]
  unfold writeRegisterSpec
  simp only [ne_eq, hst, not_true_eq_false, if_false]
  rw [hw]

/-- On the byte-echoing double both transactions of a read complete and
deliver the two bytes stored at the register address. -/
theorem mem_readRegisterSpec_ok (m : Handle MemBus) (a x : Nat) :
    readRegisterSpec memWire (writeRegister memWire m a x) a
      = Except.ok (readRegister memWire (writeRegister memWire m a x) a) := by
  refine readRegisterSpec_ok memWire _ a (x / 256 % 256) (x % 256) ?_ ?_ (by omega) (by omega)
    ?_ ?_
  · simp [wireEnd, memWire]
  · simp [wireRequestFrom, memWire]
  · simp [requestState, writeRegister, wireBegin, wireWrite, wireEnd, wireDelay,
      wireRequestFrom, wireRead, memWire, MemBus.commit, hi_byte, lo_byte]
  · simp [requestState, writeRegister, wireBegin, wireWrite, wireEnd, wireDelay,
      wireRequestFrom, wireRead, memWire, MemBus.commit, hi_byte, lo_byte]

end SpecPrimitives

/-- Claim C16, amended.  `readRegister` and `writeRegister` report no failure:
whatever status the transport reports for the transaction and however many
bytes the two-byte request delivers, both return what they return when the
transport reports success; `readRegister` always returns a 16-bit value,
0xFFFF when neither byte is available.  Whenever both transactions of a read
complete and deliver two bytes, `readRegister` returns what the primitive of
the specification returns, the first byte times 256 plus the second, which on
the byte-echoing double is the value last written to the register; whenever
the write transaction is reported as completed, `writeRegister` does what the
primitive of the specification does.  The status of a transaction reaches the
caller through `testConnection()` only. -/
theorem register_primitives_ignore_transport_status (W : TwoWire β) (s : Handle β)
    (m : Handle MemBus) (a v status count : Nat) :
    readRegister (withStatus W status count) s a = readRegister W s a ∧
    writeRegister (withStatus W status count) s a v = writeRegister W s a v ∧
    (readRegister W s a).2 < 65536 ∧
    (∀ first second : Nat,
      (wireEnd W (wireWrite W (wireBegin W s s.devAddr) a)).2 = 0 →
      2 ≤ (wireRequestFrom W
        (wireDelay W (wireEnd W (wireWrite W (wireBegin W s s.devAddr) a)).1 1)
        s.devAddr 2).2 →
      first < 256 → second < 256 →
      (wireRead W (requestState W s a)).2 = (first : Int) →
      (wireRead W (wireRead W (requestState W s a)).1).2 = (second : Int) →
      readRegisterSpec W s a = Except.ok (readRegister W s a) ∧
      (readRegister W s a).2 = first * 256 + second) ∧
    ((wireEnd W (wireWrite W (wireWrite W (wireWrite W (wireBegin W s s.devAddr) a)
        (v / 256)) (v % 256))).2 = 0 →
      writeRegisterSpec W s a v = Except.ok (writeRegister W s a v)) ∧
    ((wireRead W (requestState W s a)).2 = -1 →
      (wireRead W (wireRead W (requestState W s a)).1).2 = -1 →
      (readRegister W s a).2 = 0xFFFF) ∧
    ((testConnection W s).2 = true
      ↔ (W.endTransmission (W.beginTransmission s.wire s.devAddr)).2 = 0) ∧
    (v < 65536 →
      readRegisterSpec memWire (writeRegister memWire m a v) a
        = Except.ok (readRegister memWire (writeRegister memWire m a v) a) ∧
      (readRegister memWire (writeRegister memWire m a v) a).2 = v) := by
  refine ⟨rfl, rfl, readRegister_lt W s a, ?_, writeRegisterSpec_ok W s a v, ?_, ?_, ?_⟩
  · intro first second hst hct h1 h2 hf hs
    exact ⟨readRegisterSpec_ok W s a first second hst hct h1 h2 hf hs,
      readRegister_of_bytes W s a first second h1 h2 hf hs⟩
  · intro h1 h2
    rw [readRegister_value, h1, h2]
    decide
  · simp [testConnection, wireEnd, wireBegin]
  · intro hv
    exact ⟨mem_readRegisterSpec_ok m a v, mem_read_after_write m a v hv⟩

/-- Witness for the amended claim C16: the dead bus, where both reads find
nothing, and the byte-echoing double, where both transactions complete and
the register reads back 0xABCD. -/
theorem register_primitives_ignore_transport_status_witness :
    (wireRead deadWire (requestState deadWire handleDead 0)).2 = -1 ∧
    (readRegister deadWire handleDead 0).2 = 0xFFFF ∧
    0xABCD < 65536 ∧
    readRegisterSpec memWire (writeRegister memWire handleMem 3 0xABCD) 3
      = Except.ok (readRegister memWire (writeRegister memWire handleMem 3 0xABCD) 3) ∧
    (readRegister memWire (writeRegister memWire handleMem 3 0xABCD) 3).2 = 0xABCD ∧
    readRegister (withStatus echoWire 4 0) handleReady 1 = readRegister echoWire handleReady 1 :=
  ⟨rfl,
   (register_primitives_ignore_transport_status deadWire handleDead handleMem
      0 0 0 0).2.2.2.2.2.1 rfl rfl,
   by decide,
   ((register_primitives_ignore_transport_status deadWire handleDead handleMem
      3 0xABCD 0 0).2.2.2.2.2.2.2 (by decide)).1,
   ((register_primitives_ignore_transport_status deadWire handleDead handleMem
      3 0xABCD 0 0).2.2.2.2.2.2.2 (by decide)).2,
   (register_primitives_ignore_transport_status echoWire handleReady handleMem
      1 0 4 0).1⟩

/-! ## Field getters -/

section Getters

variable (W : TwoWire β) (s : Handle β)

theorem and_two_pow_eq_zero_iff (x i : Nat) : x &&& 2 ^ i = 0 ↔ x.testBit i = false := by
  constructor
  · intro hx
    have h2 : (x &&& 2 ^ i).testBit i = (0 : Nat).testBit i := by rw [hx]
    rw [Nat.testBit_and, Nat.testBit_two_pow_self, Nat.zero_testBit, Bool.and_true] at h2
    exact h2
  · intro hb
    apply Nat.eq_of_testBit_eq
    intro j
    rw [Nat.testBit_and, Nat.testBit_two_pow, Nat.zero_testBit]
    by_cases hj : i = j
    · subst hj; simp [hb]
    · simp [hj]

/-- The 0/1 value a flag getter computes is the bit of the word read. -/
theorem flag_value_eq_bit (r i : Nat) :
    (if (r &&& 2 ^ i) ≠ 0 then 1 else 0) = (if r.testBit i = true then 1 else 0) := by
  by_cases hb : r.testBit i = true
  · have h : r &&& 2 ^ i ≠ 0 := by
      intro h0
      rw [(and_two_pow_eq_zero_iff r i).mp h0] at hb
      exact absurd hb (by decide)
    simp [h, hb]
  · have hf : r.testBit i = false := by simpa using hb
    simp [(and_two_pow_eq_zero_iff r i).mpr hf, hf]

theorem field_lt (r mask shift bound : Nat) (h : mask < bound * 2 ^ shift) :
    (r &&& mask) >>> shift < bound := by
  rw [Nat.shiftRight_eq_div_pow]
  have hle : r &&& mask ≤ mask := Nat.and_le_right
  exact Nat.div_lt_of_lt_mul (by rw [Nat.mul_comm]; omega)

theorem getMultiplexer_value :
    (getMultiplexer W s).2 = ((readRegister W s 0x01).2 &&& 0x7000) >>> 12 := by
  have h := field_lt (readRegister W s 0x01).2 0x7000 12 8 (by decide)
  simp only [getMultiplexer, ra_config_eq, mux_mask_eq, mux_shift_eq]
  omega

theorem getGain_value :
    (getGain W s).2 = ((readRegister W s 0x01).2 &&& 0x0E00) >>> 9 := by
  have h := field_lt (readRegister W s 0x01).2 0x0E00 9 8 (by decide)
  simp only [getGain, ra_config_eq, pga_mask_eq, pga_shift_eq]
  omega

theorem getRate_value :
    (getRate W s).2 = ((readRegister W s 0x01).2 &&& 0x00E0) >>> 5 := by
  have h := field_lt (readRegister W s 0x01).2 0x00E0 5 8 (by decide)
  simp only [getRate, ra_config_eq, dr_mask_eq, dr_shift_eq]
  omega

theorem getComparatorQueueMode_value :
    (getComparatorQueueMode W s).2 = (readRegister W s 0x01).2 &&& 0x0003 := by
  have h := field_lt (readRegister W s 0x01).2 0x0003 0 4 (by decide)
  simp only [getComparatorQueueMode, ra_config_eq, comp_que_mask_eq, comp_que_shift_eq]
  simp only [Nat.shiftRight_zero] at h ⊢
  omega

theorem flag_le_one (b : Bool) : (if b = true then 1 else 0) ≤ 1 := by
  cases b <;> simp

end Getters

/-- Claim C17.  Each getter performs exactly one read of register 0x01 and no
write, and returns exactly its field of the 16-bit value `r` read:
`getMultiplexer` `(r AND 0x7000) >> 12`, `getGain` `(r AND 0x0E00) >> 9`,
`getRate` `(r AND 0x00E0) >> 5`, `getComparatorQueueMode` `r AND 0x0003`, and
`getMode`, `getComparatorMode`, `getComparatorPolarity`,
`getComparatorLatchEnabled` 1 if bit 8, 4, 3, 2 respectively of `r` is set and
0 otherwise; the result is below 8, below 4, or at most 1. -/
theorem getters_return_field_of_config_read (W : TwoWire β) (s : Handle β) :
    (readRegister W s 0x01).2 < 65536 ∧
    (ReadsConfigOnce W s (getMultiplexer W s).1 ∧
      (getMultiplexer W s).2 = ((readRegister W s 0x01).2 &&& 0x7000) >>> 12 ∧
      (getMultiplexer W s).2 < 8) ∧
    (ReadsConfigOnce W s (getGain W s).1 ∧
      (getGain W s).2 = ((readRegister W s 0x01).2 &&& 0x0E00) >>> 9 ∧
      (getGain W s).2 < 8) ∧
    (ReadsConfigOnce W s (getRate W s).1 ∧
      (getRate W s).2 = ((readRegister W s 0x01).2 &&& 0x00E0) >>> 5 ∧
      (getRate W s).2 < 8) ∧
    (ReadsConfigOnce W s (getComparatorQueueMode W s).1 ∧
      (getComparatorQueueMode W s).2 = (readRegister W s 0x01).2 &&& 0x0003 ∧
      (getComparatorQueueMode W s).2 < 4) ∧
    (ReadsConfigOnce W s (getMode W s).1 ∧
      (getMode W s).2 = (if (readRegister W s 0x01).2.testBit 8 = true then 1 else 0) ∧
      (getMode W s).2 ≤ 1) ∧
    (ReadsConfigOnce W s (getComparatorMode W s).1 ∧
      (getComparatorMode W s).2
        = (if (readRegister W s 0x01).2.testBit 4 = true then 1 else 0) ∧
      (getComparatorMode W s).2 ≤ 1) ∧
    (ReadsConfigOnce W s (getComparatorPolarity W s).1 ∧
      (getComparatorPolarity W s).2
        = (if (readRegister W s 0x01).2.testBit 3 = true then 1 else 0) ∧
      (getComparatorPolarity W s).2 ≤ 1) ∧
    (ReadsConfigOnce W s (getComparatorLatchEnabled W s).1 ∧
      (getComparatorLatchEnabled W s).2
        = (if (readRegister W s 0x01).2.testBit 2 = true then 1 else 0) ∧
      (getComparatorLatchEnabled W s).2 ≤ 1) := by
  have hmode : (getMode W s).2
      = (if (readRegister W s 0x01).2.testBit 8 = true then 1 else 0) := by
    simp only [getMode, ra_config_eq, mode_bit_eq]
    exact flag_value_eq_bit _ 8
  have hcm : (getComparatorMode W s).2
      = (if (readRegister W s 0x01).2.testBit 4 = true then 1 else 0) := by
    simp only [getComparatorMode, ra_config_eq, comp_mode_bit_eq]
    exact flag_value_eq_bit _ 4
  have hcp : (getComparatorPolarity W s).2
      = (if (readRegister W s 0x01).2.testBit 3 = true then 1 else 0) := by
    simp only [getComparatorPolarity, ra_config_eq, comp_pol_bit_eq]
    exact flag_value_eq_bit _ 3
  have hcl : (getComparatorLatchEnabled W s).2
      = (if (readRegister W s 0x01).2.testBit 2 = true then 1 else 0) := by
    simp only [getComparatorLatchEnabled, ra_config_eq, comp_lat_bit_eq]
    exact flag_value_eq_bit _ 2
  refine ⟨readRegister_lt W s _, ⟨?_, getMultiplexer_value W s, ?_⟩,
    ⟨?_, getGain_value W s, ?_⟩, ⟨?_, getRate_value W s, ?_⟩,
    ⟨?_, getComparatorQueueMode_value W s, ?_⟩, ⟨?_, hmode, ?_⟩, ⟨?_, hcm, ?_⟩,
    ⟨?_, hcp, ?_⟩, ⟨?_, hcl, ?_⟩⟩
  · simp [ReadsConfigOnce, getMultiplexer]
  · rw [getMultiplexer_value]; exact field_lt _ _ _ _ (by decide)
  · simp [ReadsConfigOnce, getGain]
  · rw [getGain_value]; exact field_lt _ _ _ _ (by decide)
  · simp [ReadsConfigOnce, getRate]
  · rw [getRate_value]; exact field_lt _ _ _ _ (by decide)
  · simp [ReadsConfigOnce, getComparatorQueueMode]
  · rw [getComparatorQueueMode_value]
    have h := field_lt (readRegister W s 0x01).2 0x0003 0 4 (by decide)
    simpa using h
  · simp [ReadsConfigOnce, getMode]
  · rw [hmode]; exact flag_le_one _
  · simp [ReadsConfigOnce, getComparatorMode]
  · rw [hcm]; exact flag_le_one _
  · simp [ReadsConfigOnce, getComparatorPolarity]
  · rw [hcp]; exact flag_le_one _
  · simp [ReadsConfigOnce, getComparatorLatchEnabled]
  · rw [hcl]; exact flag_le_one _

/-- Claim C18, refuted as stated: in front of a device whose configuration
register holds 0x5A63, `getMultiplexer()` on a freshly constructed driver
returns 5 while the mux field of the shadow word is still 0; and on the
initialised driver, after `setComparatorMode(1)`, `getComparatorMode()` returns
0 while the comparator-mode bit of the shadow word is still 1. -/
theorem getters_update_shadow_counterexample :
    (getMultiplexer echoWire handlePreset).2 = 5 ∧
    ((getMultiplexer echoWire handlePreset).1.configValue &&& 0x7000) >>> 12 = 0 ∧
    (getComparatorMode echoWire (setComparatorMode echoWire handleReady 1)).2 = 0 ∧
    ((getComparatorMode echoWire (setComparatorMode echoWire handleReady 1)).1.configValue
      &&& 0x0010) >>> 4 = 1 :=
  ⟨by decide, by decide, by decide, by decide⟩

/-- Claim C18, amended.  No getter changes the shadow configuration word:
`getMultiplexer`, `getGain` and `getMode` store the value they return in the
tracked mux selector, the tracked gain selector and the tracked mode
respectively and change no other member; `getRate`, `getComparatorMode`,
`getComparatorPolarity`, `getComparatorLatchEnabled` and
`getComparatorQueueMode` change no member of the driver at all. -/
theorem getters_update_tracked_selectors_only (W : TwoWire β) (s : Handle β) :
    (getMultiplexer W s).1.members
      = (s.devAddr, s.devMode, (getMultiplexer W s).2, s.pgaMode, s.configValue) ∧
    (getGain W s).1.members
      = (s.devAddr, s.devMode, s.muxMode, (getGain W s).2, s.configValue) ∧
    (getMode W s).1.members
      = (s.devAddr, (getMode W s).2, s.muxMode, s.pgaMode, s.configValue) ∧
    (getRate W s).1.members = s.members ∧
    (getComparatorMode W s).1.members = s.members ∧
    (getComparatorPolarity W s).1.members = s.members ∧
    (getComparatorLatchEnabled W s).1.members = s.members ∧
    (getComparatorQueueMode W s).1.members = s.members := by
  refine ⟨?_, ?_, ?_, ?_, ?_, ?_, ?_, ?_⟩
  · simp [Handle.members, getMultiplexer]
  · simp [Handle.members, getGain]
  · simp [Handle.members, getMode]
  · simp [Handle.members, getRate]
  · simp [Handle.members, getComparatorMode]
  · simp [Handle.members, getComparatorPolarity]
  · simp [Handle.members, getComparatorLatchEnabled]
  · simp [Handle.members, getComparatorQueueMode]

/-! ## Trigger and ready check -/

/-- Claim C19.  `triggerConversion()` sets bit 15 of the shadow word, leaves
its other 15 bits unchanged, and emits exactly one write of the resulting word
to register 0x01, without any read before it and in every state;
`isConversionReady()` makes one read of register 0x01 and returns true iff
bit 15 of the value read is set. -/
theorem triggerConversion_sets_start_bit (W : TwoWire β) (s : Handle β) :
    (triggerConversion W s).configValue = s.configValue ||| 0x8000 ∧
    (triggerConversion W s).configValue.testBit 15 = true ∧
    (triggerConversion W s).configValue &&& 0x7FFF = s.configValue &&& 0x7FFF ∧
    (triggerConversion W s).log
      = s.log ++ writeTxn s.devAddr 0x01 (triggerConversion W s).configValue ∧
    (triggerConversion W s).wire
      = (writeRegister W s 0x01 (s.configValue ||| 0x8000)).wire ∧
    (isConversionReady W s).1.log = s.log ++ readTxn s.devAddr 0x01 ∧
    ((isConversionReady W s).2 = true ↔ (readRegister W s 0x01).2.testBit 15 = true) := by
  have hc := (triggerConversion_members W s).2.2.2.2
  refine ⟨hc, ?_, ?_, ?_, ?_, ?_, isConversionReady_iff_bit W s⟩
  · rw [hc, Nat.testBit_or]
    have h : (32768 : Nat).testBit 15 = true := by decide
    rw [h, Bool.or_true]
  · rw [hc]
    exact or_and_compl _ 32768 32767 (by decide)
  · rw [triggerConversion_log, hc]
  · simp [triggerConversion, writeRegister, wireBegin, wireWrite, wireEnd]
  · simp

/-! ## Threshold registers -/

section ThresholdRoundTrip

theorem ofInt16_pattern (t : Int) (h1 : -32768 ≤ t) (h2 : t ≤ 32767) :
    ofInt16 t = (if 0 ≤ t then t.toNat else (t + 65536).toNat) := by
  unfold ofInt16 toU16
  split <;> omega

theorem toInt16_ofInt16 (t : Int) (h1 : -32768 ≤ t) (h2 : t ≤ 32767) :
    toInt16 (ofInt16 t % 65536) = t := by
  unfold toInt16 ofInt16 toU16
  split <;> omega

theorem echo_getLow_setLow (e : Handle SimBus) (t : Int) :
    (getLowThreshold echoWire (setLowThreshold echoWire e t)).2
      = toInt16 (ofInt16 t % 65536) := by
  simp [getLowThreshold, setLowThreshold, ADS1115_RA_LO_THRESH, echo_read_regs,
    echo_write_regs]

theorem echo_getHigh_setHigh (e : Handle SimBus) (t : Int) :
    (getHighThreshold echoWire (setHighThreshold echoWire e t)).2
      = toInt16 (ofInt16 t % 65536) := by
  simp [getHighThreshold, setHighThreshold, ADS1115_RA_HI_THRESH, echo_read_regs,
    echo_write_regs]

theorem echo_getHigh_setLow (e : Handle SimBus) (t : Int) :
    (getHighThreshold echoWire (setLowThreshold echoWire e t)).2
      = (getHighThreshold echoWire e).2 := by
  simp [getHighThreshold, setLowThreshold, ADS1115_RA_HI_THRESH, ADS1115_RA_LO_THRESH,
    echo_read_regs, echo_write_regs]

theorem echo_getLow_setHigh (e : Handle SimBus) (t : Int) :
    (getLowThreshold echoWire (setHighThreshold echoWire e t)).2
      = (getLowThreshold echoWire e).2 := by
  simp [getLowThreshold, setHighThreshold, ADS1115_RA_HI_THRESH, ADS1115_RA_LO_THRESH,
    echo_read_regs, echo_write_regs]

end ThresholdRoundTrip

/-- Claim C20.  For every signed 16-bit `t`, `setLowThreshold(t)` emits a
single write of the two's-complement pattern of `t` to register 0x02 and
`setHighThreshold(t)` one to register 0x03, neither changes a member of the
driver, and on the echoing double `getLowThreshold()` (resp.
`getHighThreshold()`) then returns `t`; writing one threshold does not change
what the other reads back. -/
theorem thresholds_round_trip (W : TwoWire β) (s : Handle β) (e : Handle SimBus)
    (t : Int) (h1 : -32768 ≤ t) (h2 : t ≤ 32767) :
    (setLowThreshold W s t).log
      = s.log ++ writeTxn s.devAddr 0x02 (if 0 ≤ t then t.toNat else (t + 65536).toNat) ∧
    (setHighThreshold W s t).log
      = s.log ++ writeTxn s.devAddr 0x03 (if 0 ≤ t then t.toNat else (t + 65536).toNat) ∧
    (setLowThreshold W s t).members = s.members ∧
    (setHighThreshold W s t).members = s.members ∧
    (getLowThreshold echoWire (setLowThreshold echoWire e t)).2 = t ∧
    (getHighThreshold echoWire (setHighThreshold echoWire e t)).2 = t ∧
    (getHighThreshold echoWire (setLowThreshold echoWire e t)).2
      = (getHighThreshold echoWire e).2 ∧
    (getLowThreshold echoWire (setHighThreshold echoWire e t)).2
      = (getLowThreshold echoWire e).2 ∧
    (getLowThreshold echoWire
      (setHighThreshold echoWire (setLowThreshold echoWire e t) (-1 - t))).2 = t := by
  refine ⟨?_, ?_, ?_, ?_, ?_, ?_, echo_getHigh_setLow e t, echo_getLow_setHigh e t, ?_⟩
  · rw [setLowThreshold_log, ofInt16_pattern t h1 h2]
  · rw [setHighThreshold_log, ofInt16_pattern t h1 h2]
  · simp [Handle.members]
  · simp [Handle.members]
  · rw [echo_getLow_setLow, toInt16_ofInt16 t h1 h2]
  · rw [echo_getHigh_setHigh, toInt16_ofInt16 t h1 h2]
  · rw [echo_getLow_setHigh, echo_getLow_setLow, toInt16_ofInt16 t h1 h2]

/-- Witness for claim C20: the most negative threshold on the initialised
driver of the echoing double. -/
theorem thresholds_round_trip_witness :
    (-32768 : Int) ≤ -32768 ∧ (-32768 : Int) ≤ 32767 ∧
    (setLowThreshold echoWire handleReady (-32768)).log
      = handleReady.log ++ writeTxn handleReady.devAddr 0x02 0x8000 ∧
    (getLowThreshold echoWire (setLowThreshold echoWire handleReady (-32768))).2 = -32768 ∧
    (getHighThreshold echoWire (setHighThreshold echoWire handleReady (-32768))).2
      = -32768 :=
  ⟨by decide, by decide,
   (thresholds_round_trip echoWire handleReady handleReady (-32768) (by decide)
     (by decide)).1,
   (thresholds_round_trip echoWire handleReady handleReady (-32768) (by decide)
     (by decide)).2.2.2.2.1,
   (thresholds_round_trip echoWire handleReady handleReady (-32768) (by decide)
     (by decide)).2.2.2.2.2.1⟩

/-! ## Conversion without trigger -/

/-- Claim C21.  When `triggerAndPoll` is false, or the tracked mode is not the
single-shot value 1, `getConversion` is exactly one read of the conversion
register: no write and no read of the configuration register is made, no
member of the driver changes, and the result is the 16-bit value read, taken
as a two's-complement integer. -/
theorem getConversion_plain_read (W : TwoWire β) (s : Handle β) (tp : Bool)
    (h : tp = false ∨ s.devMode ≠ ADS1115_MODE_SINGLESHOT) :
    getConversion W s tp
      = ((readRegister W s 0x00).1, toInt16 (readRegister W s 0x00).2) ∧
    (getConversion W s tp).1.log = s.log ++ readTxn s.devAddr 0x00 ∧
    (getConversion W s tp).1.members = s.members ∧
    (readRegister W s 0x00).2 < 65536 ∧
    (getConversion W s tp).2
      = (if (readRegister W s 0x00).2 < 32768 then ((readRegister W s 0x00).2 : Int)
         else ((readRegister W s 0x00).2 : Int) - 65536) := by
  have hn : ¬ (tp = true ∧ s.devMode = 1) := by
    rintro ⟨h1, h2⟩
    rcases h with h | h
    · rw [h1] at h; exact absurd h (by decide)
    · exact h h2
  have h2 : (tp && s.devMode == 1) = false := by
    cases tp <;> simp_all
  have heq : getConversion W s tp
      = ((readRegister W s 0x00).1, toInt16 (readRegister W s 0x00).2) := by
    simp [getConversion, h2]
  refine ⟨heq, getConversion_log_plain W s tp hn, ?_, readRegister_lt W s _, ?_⟩
  · rw [heq]; simp [Handle.members]
  · rw [heq]; exact toInt16_of_lt _ (readRegister_lt W s _)

/-- Witness for claim C21: `getConversion(false)` on the initialised
single-shot driver, and `getConversion(true)` on a continuous-mode driver. -/
theorem getConversion_plain_read_witness :
    (getConversion echoWire handleReady false).1.log
      = handleReady.log ++ readTxn handleReady.devAddr 0x00 ∧
    handleContinuous.devMode ≠ ADS1115_MODE_SINGLESHOT ∧
    (getConversion echoWire handleContinuous true).1.log
      = handleContinuous.log ++ readTxn handleContinuous.devAddr 0x00 ∧
    (getConversion echoWire handleContinuous true).1.members = handleContinuous.members :=
  ⟨(getConversion_plain_read echoWire handleReady false (Or.inl rfl)).2.1,
   by decide,
   (getConversion_plain_read echoWire handleContinuous true (Or.inr (by decide))).2.1,
   (getConversion_plain_read echoWire handleContinuous true (Or.inr (by decide))).2.2.1⟩

/-! ## Every configuration write carries the shadow word -/

section WriteThrough

variable (W : TwoWire β) (s : Handle β)

theorem log_ext_trans {a b c : List WireCall} (h1 : ∃ m, b = a ++ m) (h2 : ∃ m, c = b ++ m) :
    ∃ m, c = a ++ m := by
  obtain ⟨m1, rfl⟩ := h1
  obtain ⟨m2, rfl⟩ := h2
  exact ⟨m1 ++ m2, List.append_assoc _ _ _⟩

theorem setMode_log_ext (m : Nat) : ∃ new, (setMode W s m).log = s.log ++ new :=
  ⟨_, setMode_log W s m⟩

theorem setRate_log_ext (r : Nat) : ∃ new, (setRate W s r).log = s.log ++ new :=
  ⟨_, setRate_log W s r⟩

theorem getConversion_log_ext (tp : Bool) :
    ∃ new, (getConversion W s tp).1.log = s.log ++ new := by
  obtain ⟨mid, h⟩ := getConversion_log_ends W s tp
  exact ⟨mid ++ readTxn s.devAddr 0, by rw [h, List.append_assoc]⟩

/-- In continuous mode a field setter ends with `setMode(CONTINUOUS)` on a
driver whose log extends the one before the call. -/
theorem setMultiplexer_ends_with_setMode (mux : Nat) (h : s.devMode = 0) :
    ∃ u : Handle β, setMultiplexer W s mux = setMode W u 0 ∧ u.devAddr = s.devAddr ∧
      ∃ new, u.log = s.log ++ new := by
  obtain ⟨t, ht, ha, -, hl⟩ := setMultiplexer_continuous W s mux h
  refine ⟨_, ht, by simp [ha], ?_⟩
  exact log_ext_trans ⟨_, hl⟩
    (log_ext_trans (setMode_log_ext W t 1) (getConversion_log_ext W _ true))

theorem setGain_ends_with_setMode (gain : Nat) (h : s.devMode = 0) :
    ∃ u : Handle β, setGain W s gain = setMode W u 0 ∧ u.devAddr = s.devAddr ∧
      ∃ new, u.log = s.log ++ new := by
  obtain ⟨t, ht, ha, -, hl⟩ := setGain_continuous W s gain h
  refine ⟨_, ht, by simp [ha], ?_⟩
  exact log_ext_trans ⟨_, hl⟩
    (log_ext_trans (setMode_log_ext W t 1) (getConversion_log_ext W _ true))

theorem writesShadowLast_setMode (m : Nat) : WritesShadowLast W s (setMode W s m) :=
  ⟨⟨[], by rw [setMode_log, List.append_nil]⟩, flushed_setMode W s m, setMode_lt W s m⟩

theorem writesShadowLast_setRate (r : Nat) : WritesShadowLast W s (setRate W s r) :=
  ⟨⟨[], by rw [setRate_log, List.append_nil]⟩, flushed_setRate W s r, setRate_lt W s r⟩

theorem writesShadowLast_setComparatorQueueMode (q : Nat) :
    WritesShadowLast W s (setComparatorQueueMode W s q) :=
  ⟨⟨[], by rw [setComparatorQueueMode_log, List.append_nil]⟩,
   flushed_setComparatorQueueMode W s q, setComparatorQueueMode_lt W s q⟩

theorem writesShadowLast_triggerConversion (hc : s.configValue < 65536) :
    WritesShadowLast W s (triggerConversion W s) := by
  refine ⟨⟨[], ?_⟩, flushed_triggerConversion W s, ?_⟩
  · rw [triggerConversion_log, (triggerConversion_members W s).2.2.2.2, List.append_nil]
  · rw [(triggerConversion_members W s).2.2.2.2]
    exact Nat.or_lt_two_pow (n := 16) hc (by decide)

/-- A write-through setter applied to a driver whose log extends `s.log`
ends, seen from `s`, with the write of the shadow word. -/
theorem writesShadowLast_of_ext (u after : Handle β) (ha : u.devAddr = s.devAddr)
    (hu : ∃ new, u.log = s.log ++ new) (h : WritesShadowLast W u after) :
    WritesShadowLast W s after := by
  obtain ⟨⟨mid, hmid⟩, hf, hlt⟩ := h
  obtain ⟨new, hnew⟩ := hu
  refine ⟨⟨new ++ mid, ?_⟩, hf, hlt⟩
  rw [hmid, hnew, ha]
  simp only [List.append_assoc]

theorem writesShadowLast_setMultiplexer (mux : Nat) :
    WritesShadowLast W s (setMultiplexer W s mux) := by
  by_cases h : s.devMode = 0
  · obtain ⟨u, hu, ha, hext⟩ := setMultiplexer_ends_with_setMode W s mux h
    rw [hu]
    exact writesShadowLast_of_ext W s u _ ha hext (writesShadowLast_setMode W u 0)
  · refine ⟨⟨[], ?_⟩, flushed_setMultiplexer W s mux, setMultiplexer_lt W s mux⟩
    rw [setMultiplexer_configValue, if_neg h]
    simp [setMultiplexer, h]

theorem writesShadowLast_setGain (gain : Nat) :
    WritesShadowLast W s (setGain W s gain) := by
  by_cases h : s.devMode = 0
  · obtain ⟨u, hu, ha, hext⟩ := setGain_ends_with_setMode W s gain h
    rw [hu]
    exact writesShadowLast_of_ext W s u _ ha hext (writesShadowLast_setMode W u 0)
  · refine ⟨⟨[], ?_⟩, flushed_setGain W s gain, setGain_lt W s gain⟩
    rw [setGain_configValue, if_neg h]
    simp [setGain, h]

theorem setMultiplexer_log_ext (mux : Nat) :
    ∃ new, (setMultiplexer W s mux).log = s.log ++ new := by
  obtain ⟨⟨mid, h⟩, -, -⟩ := writesShadowLast_setMultiplexer W s mux
  exact ⟨mid ++ _, by rw [h, List.append_assoc]⟩

theorem setGain_log_ext (gain : Nat) :
    ∃ new, (setGain W s gain).log = s.log ++ new := by
  obtain ⟨⟨mid, h⟩, -, -⟩ := writesShadowLast_setGain W s gain
  exact ⟨mid ++ _, by rw [h, List.append_assoc]⟩

theorem writesShadowLast_initializeDevice :
    WritesShadowLast W s (initializeDevice W s) := by
  have hext : ∃ new,
      (setRate W (setMode W (setGain W (setMultiplexer W { s with configValue := 0 } 0) 2) 1)
        4).log = s.log ++ new :=
    log_ext_trans (log_ext_trans (log_ext_trans
      (setMultiplexer_log_ext W { s with configValue := 0 } 0) (setGain_log_ext W _ 2))
      (setMode_log_ext W _ 1)) (setRate_log_ext W _ 4)
  exact writesShadowLast_of_ext W s
    (setComparatorLatchEnabled W (setComparatorPolarity W (setComparatorMode W
      (setRate W (setMode W (setGain W (setMultiplexer W { s with configValue := 0 } 0) 2) 1)
        4) 0) 0) 0) _ (by simp) (by simpa using hext)
    (writesShadowLast_setComparatorQueueMode W _ 3)

theorem writesShadowLast_setConversionReadyPinMode :
    WritesShadowLast W s (setConversionReadyPinMode W s) := by
  have hext : ∃ new,
      (setComparatorPolarity W (setLowThreshold W (setHighThreshold W s (-1)) 0) 0).log
        = s.log ++ new :=
    ⟨writeTxn s.devAddr 3 (ofInt16 (-1)) ++ writeTxn s.devAddr 2 (ofInt16 0), by
      simp only [setComparatorPolarity_members, setLowThreshold_log,
        setHighThreshold_log, setHighThreshold_members, List.append_assoc]⟩
  exact writesShadowLast_of_ext W s
    (setComparatorPolarity W (setLowThreshold W (setHighThreshold W s (-1)) 0) 0) _
    (by simp) hext (writesShadowLast_setComparatorQueueMode W _ 0)

/-- On the echoing double a flushed 16-bit shadow word is what the device's
configuration register holds. -/
theorem echo_config_of_flushed (t : Handle SimBus) (hf : Flushed echoWire t)
    (hc : t.configValue < 65536) : t.wire.config = t.configValue := by
  obtain ⟨u, -, hw⟩ := hf
  rw [hw]
  simp only [ra_config_eq]
  rw [echo_write_config, Nat.mod_eq_of_lt hc]

end WriteThrough

section ComparatorBits

variable (W : TwoWire β) (s : Handle β)

theorem and_of_and_sub (w k j : Nat) (h : k &&& j = j) : w &&& j = (w &&& k) &&& j := by
  rw [Nat.and_assoc, h]

theorem setMode_keeps (k : Nat) (h1 : 65279 &&& k = k) (h2 : k &&& 256 = 0) (m : Nat) :
    (setMode W s m).configValue &&& k = s.configValue &&& k := by
  rw [(setMode_members W s m).2.2.2.2]
  split
  · rw [or_and_compl _ _ _ h2, and_and_sub _ _ _ h1]
  · exact and_and_sub _ _ _ h1

theorem setMultiplexer_keeps (k : Nat) (h1 : 65279 &&& k = k) (h2 : k &&& 32768 = 0)
    (h3 : k &&& 256 = 0) (h4 : 36863 &&& k = k) (h5 : 28672 &&& k = 0) (m : Nat) :
    (setMultiplexer W s m).configValue &&& k = s.configValue &&& k := by
  rw [setMultiplexer_configValue]
  split
  · rw [cycle_keeps _ k h1 h2 h3]
    exact merge_and_sub _ _ _ _ _ h4 h5
  · exact merge_and_sub _ _ _ _ _ h4 h5

theorem setGain_keeps (k : Nat) (h1 : 65279 &&& k = k) (h2 : k &&& 32768 = 0)
    (h3 : k &&& 256 = 0) (h4 : 61951 &&& k = k) (h5 : 3584 &&& k = 0) (g : Nat) :
    (setGain W s g).configValue &&& k = s.configValue &&& k := by
  rw [setGain_configValue]
  split
  · rw [cycle_keeps _ k h1 h2 h3]
    exact merge_and_sub _ _ _ _ _ h4 h5
  · exact merge_and_sub _ _ _ _ _ h4 h5

theorem setRate_keeps (k : Nat) (h1 : 65311 &&& k = k) (h2 : 224 &&& k = 0) (r : Nat) :
    (setRate W s r).configValue &&& k = s.configValue &&& k := by
  rw [(setRate_members W s r).2.2.2.2]
  exact merge_and_sub _ _ _ _ _ h1 h2

theorem setComparatorQueueMode_keeps (k : Nat) (h1 : 65532 &&& k = k) (h2 : 3 &&& k = 0)
    (q : Nat) :
    (setComparatorQueueMode W s q).configValue &&& k = s.configValue &&& k := by
  rw [(setComparatorQueueMode_members W s q).2.2.2.2]
  exact merge_and_sub _ _ _ _ _ h1 h2

theorem triggerConversion_keeps (k : Nat) (h : k &&& 32768 = 0) :
    (triggerConversion W s).configValue &&& k = s.configValue &&& k := by
  rw [(triggerConversion_members W s).2.2.2.2]
  exact or_and_compl _ _ _ h

/-- Flag bit of a word produced by a one-bit setter, as a masked value. -/
theorem flag_bit_of_update (c x flag n : Nat) (hd : n &&& flag = 0) :
    (if x ≠ 0 then (c &&& n) ||| flag else c &&& n) &&& flag
      = (if x ≠ 0 then flag else 0) := by
  split
  · exact or_and_self _ _
  · exact and_and_disjoint _ _ _ hd

theorem flag_update_lt (c x flag n : Nat) (hn : n < 65536) (hf : flag < 65536) :
    (if x ≠ 0 then (c &&& n) ||| flag else c &&& n) < 65536 := by
  split
  · exact Nat.or_lt_two_pow (n := 16) (and_const_lt _ _ hn) hf
  · exact and_const_lt _ _ hn

/-- The comparator bits 4, 3, 2 of the shadow word pass through every
write-through operation that sets no comparator bit itself. -/
theorem writesOnly_keeps_comparator_bits (op : Op) (h : op.writesOnly = true) :
    (runOp W s op).configValue &&& 28 = s.configValue &&& 28 := by
  cases op <;> simp only [Op.writesOnly, Bool.false_eq_true] at h
  · exact triggerConversion_keeps W s 28 (by decide)
  · exact setMultiplexer_keeps W s 28 (by decide) (by decide) (by decide) (by decide)
      (by decide) _
  · exact setGain_keeps W s 28 (by decide) (by decide) (by decide) (by decide) (by decide) _
  · exact setMode_keeps W s 28 (by decide) (by decide) _
  · exact setRate_keeps W s 28 (by decide) (by decide) _
  · exact setComparatorQueueMode_keeps W s 28 (by decide) (by decide) _

theorem writesThrough_writesShadowLast (hc : s.configValue < 65536) (op : Op)
    (h : op.writesThrough = true) : WritesShadowLast W s (runOp W s op) := by
  cases op <;> simp only [Op.writesThrough, Bool.false_eq_true] at h
  · exact writesShadowLast_initializeDevice W s
  · exact writesShadowLast_triggerConversion W s hc
  · exact writesShadowLast_setMultiplexer W s _
  · exact writesShadowLast_setGain W s _
  · exact writesShadowLast_setMode W s _
  · exact writesShadowLast_setRate W s _
  · exact writesShadowLast_setComparatorQueueMode W s _
  · exact writesShadowLast_setConversionReadyPinMode W s

theorem writesOnly_writesThrough (op : Op) (h : op.writesOnly = true) :
    op.writesThrough = true := by
  cases op <;> simp only [Op.writesOnly, Bool.false_eq_true] at h <;> rfl

theorem echo_config_after_writeThrough (e : Handle SimBus) (he : e.configValue < 65536)
    (op : Op) (h : op.writesThrough = true) :
    (runOp echoWire e op).wire.config = (runOp echoWire e op).configValue := by
  obtain ⟨-, hf, hlt⟩ := writesThrough_writesShadowLast echoWire e he op h
  exact echo_config_of_flushed _ hf hlt

/-- On the echoing double, the flag bit `flag` of the device's register
after a write-only operation is the one of the shadow word before it. -/
theorem echo_flag_after_writesOnly (t : Handle SimBus) (ht : t.configValue < 65536)
    (op : Op) (h : op.writesOnly = true) (flag : Nat) (hf : 28 &&& flag = flag) :
    (runOp echoWire t op).wire.config &&& flag = t.configValue &&& flag := by
  rw [echo_config_after_writeThrough t ht op (writesOnly_writesThrough op h),
    and_of_and_sub _ 28 flag hf, writesOnly_keeps_comparator_bits echoWire t op h,
    ← and_of_and_sub _ 28 flag hf]

end ComparatorBits

/-! ## Every write to the configuration register -/

section ConfigWriteTraffic

variable (W : TwoWire β) (s : Handle β)

theorem configWrites_config_write (a v : Nat) (rest : List WireCall) :
    configWrites (writeTxn a 1 v ++ rest) = (v % 65536) :: configWrites rest := by
  have h : v / 256 % 256 * 256 + v % 256 = v % 65536 := by omega
  simp [writeTxn, configWrites, h]

theorem configWrites_readTxn (a r : Nat) (rest : List WireCall) :
    configWrites (readTxn a r ++ rest) = configWrites rest := by
  simp [readTxn, configWrites]

theorem configWrites_repeat_read (k a r : Nat) (rest : List WireCall) :
    configWrites (repeatCalls k (readTxn a r) ++ rest) = configWrites rest := by
  induction k with
  | zero => simp [repeatCalls]
  | succ k ih => rw [repeatCalls, List.append_assoc, configWrites_readTxn, ih]

theorem configWrites_nil : configWrites [] = [] := by
  simp [configWrites]

theorem configWrites_other_write (a r v : Nat) (hr : r % 256 ≠ 1) (rest : List WireCall) :
    configWrites (writeTxn a r v ++ rest) = configWrites rest := by
  simp [writeTxn, configWrites, hr]

theorem configWrites_probe (a : Nat) (rest : List WireCall) :
    configWrites ([WireCall.beginTransmission a, WireCall.endTransmission] ++ rest)
      = configWrites rest := by
  simp [configWrites]

theorem trafficWrites_refl (t u : Handle β) (h : u.log = t.log) : TrafficWrites t u [] :=
  ⟨[], by simp [h], fun rest => by simp⟩

theorem trafficWrites_trans (t u v : Handle β) (v1 v2 : List Nat)
    (h1 : TrafficWrites t u v1) (h2 : TrafficWrites u v v2) :
    TrafficWrites t v (v1 ++ v2) := by
  obtain ⟨n1, hl1, hp1⟩ := h1
  obtain ⟨n2, hl2, hp2⟩ := h2
  refine ⟨n1 ++ n2, by rw [hl2, hl1, List.append_assoc], fun rest => ?_⟩
  rw [List.append_assoc, hp1, hp2, List.append_assoc]

theorem trafficWrites_between (t u : Handle β) (vals : List Nat)
    (h : TrafficWrites t u vals) : configWritesBetween t u = vals := by
  obtain ⟨new, hl, hp⟩ := h
  unfold configWritesBetween
  rw [hl, List.drop_left]
  have h0 := hp []
  rw [List.append_nil, configWrites_nil, List.append_nil] at h0
  exact h0

theorem trafficWrites_of_log_eq (t u v : Handle β) (vals : List Nat)
    (h : TrafficWrites t u vals) (h2 : v.log = u.log) : TrafficWrites t v vals := by
  obtain ⟨new, hl, hp⟩ := h
  exact ⟨new, by rw [h2, hl], hp⟩

theorem trafficWrites_from_log_eq (t u v : Handle β) (vals : List Nat)
    (h : TrafficWrites u v vals) (h2 : u.log = t.log) : TrafficWrites t v vals := by
  obtain ⟨new, hl, hp⟩ := h
  exact ⟨new, by rw [hl, h2], hp⟩

theorem trafficWrites_configWrite_mod (t u : Handle β) (a v : Nat)
    (h : u.log = t.log ++ writeTxn a 1 v) : TrafficWrites t u [v % 65536] :=
  ⟨_, h, fun rest => by rw [configWrites_config_write]; rfl⟩

theorem trafficWrites_configWrite (t u : Handle β) (a v : Nat)
    (h : u.log = t.log ++ writeTxn a 1 v) (hv : v < 65536) : TrafficWrites t u [v] := by
  have h1 := trafficWrites_configWrite_mod t u a v h
  rw [Nat.mod_eq_of_lt hv] at h1
  exact h1

theorem trafficWrites_otherWrite (t u : Handle β) (a r v : Nat) (hr : r % 256 ≠ 1)
    (h : u.log = t.log ++ writeTxn a r v) : TrafficWrites t u [] :=
  ⟨_, h, fun rest => by rw [configWrites_other_write a r v hr]; rfl⟩

theorem trafficWrites_read (t u : Handle β) (a r : Nat)
    (h : u.log = t.log ++ readTxn a r) : TrafficWrites t u [] :=
  ⟨_, h, fun rest => by rw [configWrites_readTxn]; rfl⟩

theorem trafficWrites_reads (t u : Handle β) (k a r : Nat)
    (h : u.log = t.log ++ repeatCalls k (readTxn a r)) : TrafficWrites t u [] :=
  ⟨_, h, fun rest => by rw [configWrites_repeat_read]; rfl⟩

theorem trafficWrites_readRegister (r : Nat) : TrafficWrites s (readRegister W s r).1 [] :=
  trafficWrites_read s _ s.devAddr r (readRegister_log W s r)

theorem trafficWrites_testConnection : TrafficWrites s (testConnection W s).1 [] :=
  ⟨[WireCall.beginTransmission s.devAddr, WireCall.endTransmission],
    by simp [testConnection, wireEnd, wireBegin],
    fun rest => by rw [configWrites_probe]; rfl⟩

theorem trafficWrites_isConversionReady : TrafficWrites s (isConversionReady W s).1 [] :=
  trafficWrites_read s _ s.devAddr ADS1115_RA_CONFIG (isConversionReady_log W s)

theorem trafficWrites_pollConversion (n : Nat) :
    TrafficWrites s (pollConversion W s n).1 [] := by
  obtain ⟨k, -, hk, -, -⟩ := pollConversionLoop_run W s n
  refine trafficWrites_reads s _ k s.devAddr ADS1115_RA_CONFIG ?_
  show (pollConversionLoop W n s).1.log = _
  rw [hk, afterChecks_log]

theorem trafficWrites_setMode (m : Nat) :
    TrafficWrites s (setMode W s m) [(setMode W s m).configValue] :=
  trafficWrites_configWrite s _ s.devAddr _ (setMode_log W s m) (setMode_lt W s m)

theorem trafficWrites_setRate (r : Nat) :
    TrafficWrites s (setRate W s r) [(setRate W s r).configValue] :=
  trafficWrites_configWrite s _ s.devAddr _ (setRate_log W s r) (setRate_lt W s r)

theorem trafficWrites_setComparatorQueueMode (q : Nat) :
    TrafficWrites s (setComparatorQueueMode W s q)
      [(setComparatorQueueMode W s q).configValue] :=
  trafficWrites_configWrite s _ s.devAddr _ (setComparatorQueueMode_log W s q)
    (setComparatorQueueMode_lt W s q)

theorem triggerConversion_lt (h : s.configValue < 65536) :
    (triggerConversion W s).configValue < 65536 := by
  rw [(triggerConversion_members W s).2.2.2.2]
  exact Nat.or_lt_two_pow (n := 16) h (by decide)

theorem trafficWrites_triggerConversion_mod :
    TrafficWrites s (triggerConversion W s) [(triggerConversion W s).configValue % 65536] := by
  rw [(triggerConversion_members W s).2.2.2.2]
  exact trafficWrites_configWrite_mod s _ s.devAddr _ (triggerConversion_log W s)

theorem trafficWrites_triggerConversion (h : s.configValue < 65536) :
    TrafficWrites s (triggerConversion W s) [(triggerConversion W s).configValue] := by
  have h1 := trafficWrites_triggerConversion_mod W s
  rw [Nat.mod_eq_of_lt (triggerConversion_lt W s h)] at h1
  exact h1

theorem trafficWrites_getConversion_plain (tp : Bool) (h : ¬ (tp = true ∧ s.devMode = 1)) :
    TrafficWrites s (getConversion W s tp).1 [] :=
  trafficWrites_read s _ s.devAddr 0 (getConversion_log_plain W s tp h)

theorem trafficWrites_getConversion_triggered_mod (h : s.devMode = 1) :
    TrafficWrites s (getConversion W s true).1
      [(triggerConversion W s).configValue % 65536] := by
  obtain ⟨k, -, -, -, -, hlog⟩ := getConversion_log_triggered W s h
  rw [(triggerConversion_members W s).2.2.2.2]
  refine ⟨writeTxn s.devAddr 1 (s.configValue ||| 32768)
    ++ (repeatCalls k (readTxn s.devAddr 1) ++ readTxn s.devAddr 0), ?_, fun rest => ?_⟩
  · rw [hlog, List.append_assoc, List.append_assoc]
  · rw [List.append_assoc, List.append_assoc, configWrites_config_write,
      configWrites_repeat_read, configWrites_readTxn]
    rfl

theorem trafficWrites_getConversion_triggered (h : s.devMode = 1)
    (hc : s.configValue < 65536) :
    TrafficWrites s (getConversion W s true).1 [(triggerConversion W s).configValue] := by
  have h1 := trafficWrites_getConversion_triggered_mod W s h
  rw [Nat.mod_eq_of_lt (triggerConversion_lt W s hc)] at h1
  exact h1

theorem trafficWrites_getConversion_exists (tp : Bool) :
    ∃ vals, TrafficWrites s (getConversion W s tp).1 vals := by
  by_cases h : tp = true ∧ s.devMode = 1
  · obtain ⟨h1, h2⟩ := h
    rw [h1]
    exact ⟨_, trafficWrites_getConversion_triggered_mod W s h2⟩
  · exact ⟨_, trafficWrites_getConversion_plain W s tp h⟩

theorem setMultiplexer_log_single (m : Nat) (h : s.devMode ≠ 0) :
    (setMultiplexer W s m).log
      = s.log ++ writeTxn s.devAddr 1 (setMultiplexer W s m).configValue := by
  rw [setMultiplexer_configValue, if_neg h]
  simp [setMultiplexer, h]

theorem setGain_log_single (g : Nat) (h : s.devMode ≠ 0) :
    (setGain W s g).log = s.log ++ writeTxn s.devAddr 1 (setGain W s g).configValue := by
  rw [setGain_configValue, if_neg h]
  simp [setGain, h]

theorem trafficWrites_setMultiplexer_single (m : Nat) (h : s.devMode ≠ 0) :
    TrafficWrites s (setMultiplexer W s m) [(setMultiplexer W s m).configValue] :=
  trafficWrites_configWrite s _ s.devAddr _ (setMultiplexer_log_single W s m h)
    (setMultiplexer_lt W s m)

theorem trafficWrites_setGain_single (g : Nat) (h : s.devMode ≠ 0) :
    TrafficWrites s (setGain W s g) [(setGain W s g).configValue] :=
  trafficWrites_configWrite s _ s.devAddr _ (setGain_log_single W s g h) (setGain_lt W s g)

/-- The forced stop/start after a field write that left the driver in `u`:
three more configuration writes, each the shadow word of the state reached. -/
theorem trafficWrites_cycle (u : Handle β) :
    TrafficWrites u (setMode W (getConversion W (setMode W u 1) true).1 0)
      [(setMode W u 1).configValue, (triggerConversion W (setMode W u 1)).configValue,
       (setMode W (getConversion W (setMode W u 1) true).1 0).configValue] := by
  have h1 := trafficWrites_setMode W u 1
  have h2 := trafficWrites_getConversion_triggered W (setMode W u 1)
    (setMode_members W u 1).2.1 (setMode_lt W u 1)
  have h3 := trafficWrites_setMode W (getConversion W (setMode W u 1) true).1 0
  exact trafficWrites_trans _ _ _ _ _ (trafficWrites_trans _ _ _ _ _ h1 h2) h3

theorem trafficWrites_setMultiplexer_cycle (m : Nat) (h : s.devMode = 0) :
    ∃ u : Handle β, u.log = s.log ++ writeTxn s.devAddr 1 u.configValue ∧
      u.configValue = (s.configValue &&& 36863) ||| ((m <<< 12) &&& 28672) ∧
      setMultiplexer W s m = setMode W (getConversion W (setMode W u 1) true).1 0 ∧
      TrafficWrites s (setMultiplexer W s m)
        [u.configValue, (setMode W u 1).configValue,
         (triggerConversion W (setMode W u 1)).configValue,
         (setMultiplexer W s m).configValue] := by
  obtain ⟨u, hu, -, hc, hl⟩ := setMultiplexer_continuous W s m h
  have hlt : u.configValue < 65536 := by
    rw [hc]; exact merge_lt _ _ _ _ (by decide) (by decide)
  have hl2 : u.log = s.log ++ writeTxn s.devAddr 1 u.configValue := by rw [hl, hc]
  refine ⟨u, hl2, hc, hu, ?_⟩
  have h0 : TrafficWrites s u [u.configValue] :=
    trafficWrites_configWrite s u s.devAddr _ hl2 hlt
  have h1 := trafficWrites_cycle W u
  rw [← hu] at h1
  exact trafficWrites_trans _ _ _ _ _ h0 h1

theorem trafficWrites_setGain_cycle (g : Nat) (h : s.devMode = 0) :
    ∃ u : Handle β, u.log = s.log ++ writeTxn s.devAddr 1 u.configValue ∧
      u.configValue = (s.configValue &&& 61951) ||| ((g <<< 9) &&& 3584) ∧
      setGain W s g = setMode W (getConversion W (setMode W u 1) true).1 0 ∧
      TrafficWrites s (setGain W s g)
        [u.configValue, (setMode W u 1).configValue,
         (triggerConversion W (setMode W u 1)).configValue,
         (setGain W s g).configValue] := by
  obtain ⟨u, hu, -, hc, hl⟩ := setGain_continuous W s g h
  have hlt : u.configValue < 65536 := by
    rw [hc]; exact merge_lt _ _ _ _ (by decide) (by decide)
  have hl2 : u.log = s.log ++ writeTxn s.devAddr 1 u.configValue := by rw [hl, hc]
  refine ⟨u, hl2, hc, hu, ?_⟩
  have h0 : TrafficWrites s u [u.configValue] :=
    trafficWrites_configWrite s u s.devAddr _ hl2 hlt
  have h1 := trafficWrites_cycle W u
  rw [← hu] at h1
  exact trafficWrites_trans _ _ _ _ _ h0 h1

theorem trafficWrites_setMultiplexer_exists (m : Nat) :
    ∃ vals, TrafficWrites s (setMultiplexer W s m) vals := by
  by_cases h : s.devMode = 0
  · obtain ⟨u, -, -, -, hu⟩ := trafficWrites_setMultiplexer_cycle W s m h
    exact ⟨_, hu⟩
  · exact ⟨_, trafficWrites_setMultiplexer_single W s m h⟩

theorem trafficWrites_setGain_exists (g : Nat) :
    ∃ vals, TrafficWrites s (setGain W s g) vals := by
  by_cases h : s.devMode = 0
  · obtain ⟨u, -, -, -, hu⟩ := trafficWrites_setGain_cycle W s g h
    exact ⟨_, hu⟩
  · exact ⟨_, trafficWrites_setGain_single W s g h⟩

theorem setConversionReadyPinMode_lt :
    (setConversionReadyPinMode W s).configValue < 65536 := by
  rw [setConversionReadyPinMode_configValue]
  exact merge_lt _ _ _ _ (by decide) (by decide)

theorem trafficWrites_setConversionReadyPinMode :
    TrafficWrites s (setConversionReadyPinMode W s)
      [(setConversionReadyPinMode W s).configValue] := by
  refine ⟨writeTxn s.devAddr 3 65535 ++ (writeTxn s.devAddr 2 0
    ++ writeTxn s.devAddr 1 (setConversionReadyPinMode W s).configValue), ?_, fun rest => ?_⟩
  · rw [setConversionReadyPinMode_log, List.append_assoc, List.append_assoc]
  · rw [List.append_assoc, List.append_assoc,
      configWrites_other_write _ 3 _ (by decide), configWrites_other_write _ 2 _ (by decide),
      configWrites_config_write, Nat.mod_eq_of_lt (setConversionReadyPinMode_lt W s)]
    rfl

/-- The configuration writes of `initialize()`, in order: the running shadow
word after each field is set, the forced stop/start writes included when the
tracked mode was continuous. -/
theorem trafficWrites_initializeDevice :
    TrafficWrites s (initializeDevice W s)
      (if s.devMode = 0 then
        [0x0000, 0x0100, 0x8100, 0x8000, 0x8400, 0x8500, 0x8500, 0x8400,
         0x8500, 0x8580, 0x8583]
       else [0x0000, 0x0400, 0x0500, 0x0580, 0x0583]) := by
  have t0 : TrafficWrites s { s with configValue := 0 } [] := trafficWrites_refl _ _ rfl
  have t3 := trafficWrites_setMode W
    (setGain W (setMultiplexer W { s with configValue := 0 } 0) 2) 1
  have t4 := trafficWrites_setRate W
    (setMode W (setGain W (setMultiplexer W { s with configValue := 0 } 0) 2) 1) 4
  have t7 : TrafficWrites
      (setRate W (setMode W (setGain W (setMultiplexer W { s with configValue := 0 } 0) 2) 1) 4)
      (setComparatorLatchEnabled W (setComparatorPolarity W (setComparatorMode W
        (setRate W (setMode W (setGain W (setMultiplexer W { s with configValue := 0 } 0) 2) 1)
          4) 0) 0) 0) [] :=
    trafficWrites_refl _ _ (by
      rw [(setComparatorLatchEnabled_members W _ 0).2.2.2.2.2.1,
        (setComparatorPolarity_members W _ 0).2.2.2.2.2.1,
        (setComparatorMode_members W _ 0).2.2.2.2.2.1])
  have t8 := trafficWrites_setComparatorQueueMode W
    (setComparatorLatchEnabled W (setComparatorPolarity W (setComparatorMode W
      (setRate W (setMode W (setGain W (setMultiplexer W { s with configValue := 0 } 0) 2) 1)
        4) 0) 0) 0) 3
  have hd1 : (setMultiplexer W { s with configValue := 0 } 0).devMode = s.devMode :=
    (setMultiplexer_members W _ 0).2.1
  by_cases h : s.devMode = 0
  · rw [if_pos h]
    obtain ⟨u1, -, hc1, -, t1⟩ := trafficWrites_setMultiplexer_cycle W
      { s with configValue := 0 } 0 h
    obtain ⟨u2, -, hc2, -, t2⟩ := trafficWrites_setGain_cycle W
      (setMultiplexer W { s with configValue := 0 } 0) 2 (hd1.trans h)
    have hall := trafficWrites_trans _ _ _ _ _ (trafficWrites_trans _ _ _ _ _
      (trafficWrites_trans _ _ _ _ _ (trafficWrites_trans _ _ _ _ _
      (trafficWrites_trans _ _ _ _ _ (trafficWrites_trans _ _ _ _ _ t0 t1) t2) t3) t4) t7) t8
    have hd0 : ({ s with configValue := 0 } : Handle β).devMode = 0 := h
    have hv : ([] ++ [u1.configValue, (setMode W u1 1).configValue,
          (triggerConversion W (setMode W u1 1)).configValue,
          (setMultiplexer W { s with configValue := 0 } 0).configValue]
        ++ [u2.configValue, (setMode W u2 1).configValue,
          (triggerConversion W (setMode W u2 1)).configValue,
          (setGain W (setMultiplexer W { s with configValue := 0 } 0) 2).configValue]
        ++ [(setMode W (setGain W (setMultiplexer W { s with configValue := 0 } 0) 2)
              1).configValue]
        ++ [(setRate W (setMode W (setGain W (setMultiplexer W { s with configValue := 0 } 0)
              2) 1) 4).configValue]
        ++ []
        ++ [(setComparatorQueueMode W (setComparatorLatchEnabled W (setComparatorPolarity W
              (setComparatorMode W (setRate W (setMode W (setGain W
                (setMultiplexer W { s with configValue := 0 } 0) 2) 1) 4) 0) 0) 0)
              3).configValue])
        = [0x0000, 0x0100, 0x8100, 0x8000, 0x8400, 0x8500, 0x8500, 0x8400,
           0x8500, 0x8580, 0x8583] := by
      simp only [setComparatorQueueMode_members, setComparatorLatchEnabled_members,
        setComparatorPolarity_members, setComparatorMode_members, setRate_members,
        setMode_members, triggerConversion_members, setGain_configValue, setGain_members,
        setMultiplexer_configValue, setMultiplexer_members, hc1, hc2, hd0, h, if_true]
      decide
    rw [hv] at hall
    exact hall
  · rw [if_neg h]
    have t1 := trafficWrites_setMultiplexer_single W { s with configValue := 0 } 0 h
    have t2 := trafficWrites_setGain_single W
      (setMultiplexer W { s with configValue := 0 } 0) 2 (fun h0 => h (hd1.symm.trans h0))
    have hall := trafficWrites_trans _ _ _ _ _ (trafficWrites_trans _ _ _ _ _
      (trafficWrites_trans _ _ _ _ _ (trafficWrites_trans _ _ _ _ _
      (trafficWrites_trans _ _ _ _ _ (trafficWrites_trans _ _ _ _ _ t0 t1) t2) t3) t4) t7) t8
    have hd0 : ¬ ({ s with configValue := 0 } : Handle β).devMode = 0 := h
    have hv : ([] ++ [(setMultiplexer W { s with configValue := 0 } 0).configValue]
        ++ [(setGain W (setMultiplexer W { s with configValue := 0 } 0) 2).configValue]
        ++ [(setMode W (setGain W (setMultiplexer W { s with configValue := 0 } 0) 2)
              1).configValue]
        ++ [(setRate W (setMode W (setGain W (setMultiplexer W { s with configValue := 0 } 0)
              2) 1) 4).configValue]
        ++ []
        ++ [(setComparatorQueueMode W (setComparatorLatchEnabled W (setComparatorPolarity W
              (setComparatorMode W (setRate W (setMode W (setGain W
                (setMultiplexer W { s with configValue := 0 } 0) 2) 1) 4) 0) 0) 0)
              3).configValue])
        = [0x0000, 0x0400, 0x0500, 0x0580, 0x0583] := by
      simp only [setComparatorQueueMode_members, setComparatorLatchEnabled_members,
        setComparatorPolarity_members, setComparatorMode_members, setRate_members,
        setMode_members, setGain_configValue, setGain_members,
        setMultiplexer_configValue, setMultiplexer_members, hd0, h, if_false]
      decide
    rw [hv] at hall
    exact hall

/-- A convenience conversion is its optional mux change followed by a
triggering `getConversion`. -/
theorem trafficWrites_convenience_exists (f : Handle β → Handle β × Int) (target : Nat)
    (hf : ∀ t, f t = getConversion W
      (if t.muxMode ≠ target then setMultiplexer W t target else t) true) :
    (∃ v1, TrafficWrites s (if s.muxMode ≠ target then setMultiplexer W s target else s) v1) ∧
    (∃ v2, TrafficWrites (if s.muxMode ≠ target then setMultiplexer W s target else s)
      (f s).1 v2) := by
  constructor
  · split
    · exact trafficWrites_setMultiplexer_exists W s target
    · exact ⟨[], trafficWrites_refl _ _ rfl⟩
  · rw [hf]
    exact trafficWrites_getConversion_exists W _ true

theorem trafficWrites_exists_trans (t u v : Handle β)
    (h1 : ∃ v1, TrafficWrites t u v1) (h2 : ∃ v2, TrafficWrites u v v2) :
    ∃ vals, TrafficWrites t v vals := by
  obtain ⟨v1, h1⟩ := h1
  obtain ⟨v2, h2⟩ := h2
  exact ⟨_, trafficWrites_trans _ _ _ _ _ h1 h2⟩

/-- The configuration writes of two consecutive stretches of a run are those
of the first followed by those of the second. -/
theorem configWritesBetween_append (t u v : Handle β)
    (h1 : ∃ v1, TrafficWrites t u v1) (h2 : ∃ v2, TrafficWrites u v v2) :
    configWritesBetween t v = configWritesBetween t u ++ configWritesBetween u v := by
  obtain ⟨v1, h1⟩ := h1
  obtain ⟨v2, h2⟩ := h2
  rw [trafficWrites_between _ _ _ h1, trafficWrites_between _ _ _ h2,
    trafficWrites_between _ _ _ (trafficWrites_trans _ _ _ _ _ h1 h2)]

/-- The operations classified as issuing no configuration write issue none. -/
theorem trafficWrites_of_issuesNoConfigWrite (op : Op) (h : op.issuesNoConfigWrite = true) :
    TrafficWrites s (runOp W s op) [] := by
  cases op <;> simp only [Op.issuesNoConfigWrite, Bool.false_eq_true] at h
  case testConnection => exact trafficWrites_testConnection W s
  case pollConversion n => exact trafficWrites_pollConversion W s n
  case isConversionReady => exact trafficWrites_isConversionReady W s
  case getMvPerCount => exact trafficWrites_refl _ _ rfl
  case getFullScale pga => exact trafficWrites_refl _ _ rfl
  case getMultiplexer =>
    exact trafficWrites_of_log_eq _ _ _ _ (trafficWrites_readRegister W s 1) rfl
  case getGain =>
    exact trafficWrites_of_log_eq _ _ _ _ (trafficWrites_readRegister W s 1) rfl
  case getMode =>
    exact trafficWrites_of_log_eq _ _ _ _ (trafficWrites_readRegister W s 1) rfl
  case getRate => exact trafficWrites_readRegister W s 1
  case getComparatorMode => exact trafficWrites_readRegister W s 1
  case setComparatorMode x =>
    exact trafficWrites_refl _ _ (setComparatorMode_members W s x).2.2.2.2.2.1
  case getComparatorPolarity => exact trafficWrites_readRegister W s 1
  case setComparatorPolarity x =>
    exact trafficWrites_refl _ _ (setComparatorPolarity_members W s x).2.2.2.2.2.1
  case getComparatorLatchEnabled => exact trafficWrites_readRegister W s 1
  case setComparatorLatchEnabled x =>
    exact trafficWrites_refl _ _ (setComparatorLatchEnabled_members W s x).2.2.2.2.2.1
  case getComparatorQueueMode => exact trafficWrites_readRegister W s 1
  case getLowThreshold => exact trafficWrites_readRegister W s 2
  case setLowThreshold t =>
    exact trafficWrites_otherWrite s _ s.devAddr 2 _ (by decide) (setLowThreshold_log W s t)
  case getHighThreshold => exact trafficWrites_readRegister W s 3
  case setHighThreshold t =>
    exact trafficWrites_otherWrite s _ s.devAddr 3 _ (by decide) (setHighThreshold_log W s t)
  case showConfigRegister => exact trafficWrites_readRegister W s 1

/-- The calls of every public operation parse into configuration writes
independently of what follows. -/
theorem trafficWrites_runOp_exists (op : Op) : ∃ vals, TrafficWrites s (runOp W s op) vals := by
  cases op
  case init => exact ⟨_, trafficWrites_initializeDevice W s⟩
  case triggerConversion => exact ⟨_, trafficWrites_triggerConversion_mod W s⟩
  case getConversion tp => exact trafficWrites_getConversion_exists W s tp
  case getConversionP0N1 =>
    exact trafficWrites_exists_trans _ _ _
      (trafficWrites_convenience_exists W s (getConversionP0N1 W) _ (fun _ => rfl)).1
      (trafficWrites_convenience_exists W s (getConversionP0N1 W) _ (fun _ => rfl)).2
  case getConversionP0N3 =>
    exact trafficWrites_exists_trans _ _ _
      (trafficWrites_convenience_exists W s (getConversionP0N3 W) _ (fun _ => rfl)).1
      (trafficWrites_convenience_exists W s (getConversionP0N3 W) _ (fun _ => rfl)).2
  case getConversionP1N3 =>
    exact trafficWrites_exists_trans _ _ _
      (trafficWrites_convenience_exists W s (getConversionP1N3 W) _ (fun _ => rfl)).1
      (trafficWrites_convenience_exists W s (getConversionP1N3 W) _ (fun _ => rfl)).2
  case getConversionP2N3 =>
    exact trafficWrites_exists_trans _ _ _
      (trafficWrites_convenience_exists W s (getConversionP2N3 W) _ (fun _ => rfl)).1
      (trafficWrites_convenience_exists W s (getConversionP2N3 W) _ (fun _ => rfl)).2
  case getConversionP0GND =>
    exact trafficWrites_exists_trans _ _ _
      (trafficWrites_convenience_exists W s (getConversionP0GND W) _ (fun _ => rfl)).1
      (trafficWrites_convenience_exists W s (getConversionP0GND W) _ (fun _ => rfl)).2
  case getConversionP1GND =>
    exact trafficWrites_exists_trans _ _ _
      (trafficWrites_convenience_exists W s (getConversionP1GND W) _ (fun _ => rfl)).1
      (trafficWrites_convenience_exists W s (getConversionP1GND W) _ (fun _ => rfl)).2
  case getConversionP2GND =>
    exact trafficWrites_exists_trans _ _ _
      (trafficWrites_convenience_exists W s (getConversionP2GND W) _ (fun _ => rfl)).1
      (trafficWrites_convenience_exists W s (getConversionP2GND W) _ (fun _ => rfl)).2
  case getConversionP3GND =>
    exact trafficWrites_exists_trans _ _ _
      (trafficWrites_convenience_exists W s (getConversionP3GND W) _ (fun _ => rfl)).1
      (trafficWrites_convenience_exists W s (getConversionP3GND W) _ (fun _ => rfl)).2
  case getMilliVolts tp => exact trafficWrites_getConversion_exists W s tp
  case setMultiplexer m => exact trafficWrites_setMultiplexer_exists W s m
  case setGain g => exact trafficWrites_setGain_exists W s g
  case setMode m => exact ⟨_, trafficWrites_setMode W s m⟩
  case setRate r => exact ⟨_, trafficWrites_setRate W s r⟩
  case setComparatorQueueMode q => exact ⟨_, trafficWrites_setComparatorQueueMode W s q⟩
  case setConversionReadyPinMode => exact ⟨_, trafficWrites_setConversionReadyPinMode W s⟩
  all_goals exact ⟨[], trafficWrites_of_issuesNoConfigWrite W s _ rfl⟩

theorem trafficWrites_runOps_exists (ops : List Op) :
    ∃ vals, TrafficWrites s (runOps W s ops) vals := by
  induction ops generalizing s with
  | nil => exact ⟨[], trafficWrites_refl _ _ rfl⟩
  | cons op rest ih =>
    exact trafficWrites_exists_trans _ _ _ (trafficWrites_runOp_exists W s op)
      (ih (runOp W s op))

/-- Every configuration write of the setters and of the trigger is the shadow
word of the state reached by the step that issues it. -/
theorem configWrites_of_setters (t : Handle β) (v : Nat) :
    configWritesBetween t (setMode W t v) = [(setMode W t v).configValue] ∧
    configWritesBetween t (setRate W t v) = [(setRate W t v).configValue] ∧
    configWritesBetween t (setComparatorQueueMode W t v)
      = [(setComparatorQueueMode W t v).configValue] ∧
    configWritesBetween t (setConversionReadyPinMode W t)
      = [(setConversionReadyPinMode W t).configValue] ∧
    (t.configValue < 65536 →
      configWritesBetween t (triggerConversion W t) = [(triggerConversion W t).configValue]) ∧
    (t.devMode ≠ ADS1115_MODE_CONTINUOUS →
      configWritesBetween t (setMultiplexer W t v) = [(setMultiplexer W t v).configValue] ∧
      configWritesBetween t (setGain W t v) = [(setGain W t v).configValue]) ∧
    (t.devMode = ADS1115_MODE_CONTINUOUS →
      (∃ u : Handle β, u.log = t.log ++ writeTxn t.devAddr 0x01 u.configValue ∧
        u.configValue = (t.configValue &&& 0x8FFF) ||| ((v <<< 12) &&& 0x7000) ∧
        setMultiplexer W t v = setMode W (getConversion W (setMode W u 1) true).1 0 ∧
        configWritesBetween t (setMultiplexer W t v)
          = [u.configValue, (setMode W u 1).configValue,
             (triggerConversion W (setMode W u 1)).configValue,
             (setMultiplexer W t v).configValue]) ∧
      (∃ u : Handle β, u.log = t.log ++ writeTxn t.devAddr 0x01 u.configValue ∧
        u.configValue = (t.configValue &&& 0xF1FF) ||| ((v <<< 9) &&& 0x0E00) ∧
        setGain W t v = setMode W (getConversion W (setMode W u 1) true).1 0 ∧
        configWritesBetween t (setGain W t v)
          = [u.configValue, (setMode W u 1).configValue,
             (triggerConversion W (setMode W u 1)).configValue,
             (setGain W t v).configValue])) := by
  refine ⟨trafficWrites_between _ _ _ (trafficWrites_setMode W t v),
    trafficWrites_between _ _ _ (trafficWrites_setRate W t v),
    trafficWrites_between _ _ _ (trafficWrites_setComparatorQueueMode W t v),
    trafficWrites_between _ _ _ (trafficWrites_setConversionReadyPinMode W t),
    fun h => trafficWrites_between _ _ _ (trafficWrites_triggerConversion W t h),
    fun h => ⟨trafficWrites_between _ _ _ (trafficWrites_setMultiplexer_single W t v h),
      trafficWrites_between _ _ _ (trafficWrites_setGain_single W t v h)⟩,
    fun h => ⟨?_, ?_⟩⟩
  · obtain ⟨u, h1, h2, h3, h4⟩ := trafficWrites_setMultiplexer_cycle W t v h
    exact ⟨u, h1, h2, h3, trafficWrites_between _ _ _ h4⟩
  · obtain ⟨u, h1, h2, h3, h4⟩ := trafficWrites_setGain_cycle W t v h
    exact ⟨u, h1, h2, h3, trafficWrites_between _ _ _ h4⟩

/-- The configuration writes of the conversions: the trigger, preceded for a
convenience conversion by the writes of its mux change. -/
theorem configWrites_of_conversions (t : Handle β) (tp : Bool) :
    (t.configValue < 65536 →
      configWritesBetween t (getConversion W t tp).1
        = (if tp = true ∧ t.devMode = ADS1115_MODE_SINGLESHOT
            then [(getConversion W t tp).1.configValue] else [])) ∧
    configWritesBetween t (getMilliVolts W t tp).1
      = configWritesBetween t (getConversion W t tp).1 ∧
    (∀ p, p ∈ [(getConversionP0N1 W, ADS1115_MUX_P0_N1),
                (getConversionP0N3 W, ADS1115_MUX_P0_N3),
                (getConversionP1N3 W, ADS1115_MUX_P1_N3),
                (getConversionP2N3 W, ADS1115_MUX_P2_N3),
                (getConversionP0GND W, ADS1115_MUX_P0_NG),
                (getConversionP1GND W, ADS1115_MUX_P1_NG),
                (getConversionP2GND W, ADS1115_MUX_P2_NG),
                (getConversionP3GND W, ADS1115_MUX_P3_NG)] →
      configWritesBetween t (p.1 t).1
        = configWritesBetween t (if t.muxMode ≠ p.2 then setMultiplexer W t p.2 else t)
          ++ configWritesBetween (if t.muxMode ≠ p.2 then setMultiplexer W t p.2 else t)
              (getConversion W
                (if t.muxMode ≠ p.2 then setMultiplexer W t p.2 else t) true).1) := by
  refine ⟨?_, rfl, ?_⟩
  · intro hc
    by_cases h : tp = true ∧ t.devMode = 1
    · obtain ⟨h1, h2⟩ := h
      subst h1
      have hcv : (getConversion W t true).1.configValue = (triggerConversion W t).configValue := by
        rw [(getConversion_members W t true).2.2.2.2, if_pos ⟨rfl, h2⟩,
          (triggerConversion_members W t).2.2.2.2]
      rw [trafficWrites_between _ _ _ (trafficWrites_getConversion_triggered W t h2 hc),
        if_pos ⟨rfl, h2⟩, hcv]
    · rw [trafficWrites_between _ _ _ (trafficWrites_getConversion_plain W t tp h)]
      exact (if_neg h).symm
  · intro p hp
    simp only [List.mem_cons, List.mem_singleton, List.not_mem_nil, or_false] at hp
    rcases hp with rfl | rfl | rfl | rfl | rfl | rfl | rfl | rfl
    · exact configWritesBetween_append _ _ _
        (trafficWrites_convenience_exists W t (getConversionP0N1 W) _ (fun _ => rfl)).1
        (trafficWrites_convenience_exists W t (getConversionP0N1 W) _ (fun _ => rfl)).2
    · exact configWritesBetween_append _ _ _
        (trafficWrites_convenience_exists W t (getConversionP0N3 W) _ (fun _ => rfl)).1
        (trafficWrites_convenience_exists W t (getConversionP0N3 W) _ (fun _ => rfl)).2
    · exact configWritesBetween_append _ _ _
        (trafficWrites_convenience_exists W t (getConversionP1N3 W) _ (fun _ => rfl)).1
        (trafficWrites_convenience_exists W t (getConversionP1N3 W) _ (fun _ => rfl)).2
    · exact configWritesBetween_append _ _ _
        (trafficWrites_convenience_exists W t (getConversionP2N3 W) _ (fun _ => rfl)).1
        (trafficWrites_convenience_exists W t (getConversionP2N3 W) _ (fun _ => rfl)).2
    · exact configWritesBetween_append _ _ _
        (trafficWrites_convenience_exists W t (getConversionP0GND W) _ (fun _ => rfl)).1
        (trafficWrites_convenience_exists W t (getConversionP0GND W) _ (fun _ => rfl)).2
    · exact configWritesBetween_append _ _ _
        (trafficWrites_convenience_exists W t (getConversionP1GND W) _ (fun _ => rfl)).1
        (trafficWrites_convenience_exists W t (getConversionP1GND W) _ (fun _ => rfl)).2
    · exact configWritesBetween_append _ _ _
        (trafficWrites_convenience_exists W t (getConversionP2GND W) _ (fun _ => rfl)).1
        (trafficWrites_convenience_exists W t (getConversionP2GND W) _ (fun _ => rfl)).2
    · exact configWritesBetween_append _ _ _
        (trafficWrites_convenience_exists W t (getConversionP3GND W) _ (fun _ => rfl)).1
        (trafficWrites_convenience_exists W t (getConversionP3GND W) _ (fun _ => rfl)).2

/-- The configuration writes of a sequence of operations are those of its
operations, one after the other. -/
theorem configWrites_of_sequence (t : Handle β) (op : Op) (ops : List Op) :
    configWritesBetween t (runOps W t (op :: ops))
      = configWritesBetween t (runOp W t op)
        ++ configWritesBetween (runOp W t op) (runOps W (runOp W t op) ops) :=
  configWritesBetween_append _ _ _ (trafficWrites_runOp_exists W t op)
    (trafficWrites_runOps_exists W (runOp W t op) ops)

end ConfigWriteTraffic

/-- Claim C22.  Every write the driver issues to the configuration register
carries the complete shadow word as it stands when the write is issued.  The
configuration writes of each public operation are listed in full, as read off
the call log: `setMode`, `setRate`, `setComparatorQueueMode`,
`setConversionReadyPinMode`, `triggerConversion`, and `setMultiplexer` and
`setGain` outside continuous mode, issue exactly one, the shadow word they
leave; in continuous mode `setMultiplexer` and `setGain` issue four, the
shadow word after the field write, after `setMode(1)`, after the trigger and
after `setMode(0)`; `initialize()` issues the running shadow word after each
of its field settings (0x0000, 0x0400, 0x0500, 0x0580, 0x0583, with the
stop/start writes in between when the tracked mode was continuous); a
conversion issues the trigger write, after the writes of its mux change if it
makes one; every other operation issues none; and the writes of a sequence of
operations are those of its operations in order.  Hence every write-through
operation ends with a write of the shadow word as it is after the operation,
so on the echoing double the device's configuration register then equals the
shadow word.  The six write-through operations that set no comparator bit
pass the comparator-mode, comparator-polarity and comparator-latch bits of
the shadow through unchanged, so a change made by one of the three
shadow-only setters is in the device after the next such write;
`initialize()` and `setConversionReadyPinMode()` leave in the device the
comparator bits they set themselves. -/
theorem config_writes_carry_shadow (W : TwoWire β) (s : Handle β) (e : Handle SimBus)
    (hc : s.configValue < 65536) (he : e.configValue < 65536) :
    (∀ (t : Handle β) (v : Nat),
      configWritesBetween t (setMode W t v) = [(setMode W t v).configValue] ∧
      configWritesBetween t (setRate W t v) = [(setRate W t v).configValue] ∧
      configWritesBetween t (setComparatorQueueMode W t v)
        = [(setComparatorQueueMode W t v).configValue] ∧
      configWritesBetween t (setConversionReadyPinMode W t)
        = [(setConversionReadyPinMode W t).configValue] ∧
      (t.configValue < 65536 →
        configWritesBetween t (triggerConversion W t)
          = [(triggerConversion W t).configValue]) ∧
      (t.devMode ≠ ADS1115_MODE_CONTINUOUS →
        configWritesBetween t (setMultiplexer W t v) = [(setMultiplexer W t v).configValue] ∧
        configWritesBetween t (setGain W t v) = [(setGain W t v).configValue]) ∧
      (t.devMode = ADS1115_MODE_CONTINUOUS →
        (∃ u : Handle β, u.log = t.log ++ writeTxn t.devAddr 0x01 u.configValue ∧
          u.configValue = (t.configValue &&& 0x8FFF) ||| ((v <<< 12) &&& 0x7000) ∧
          setMultiplexer W t v = setMode W (getConversion W (setMode W u 1) true).1 0 ∧
          configWritesBetween t (setMultiplexer W t v)
            = [u.configValue, (setMode W u 1).configValue,
               (triggerConversion W (setMode W u 1)).configValue,
               (setMultiplexer W t v).configValue]) ∧
        (∃ u : Handle β, u.log = t.log ++ writeTxn t.devAddr 0x01 u.configValue ∧
          u.configValue = (t.configValue &&& 0xF1FF) ||| ((v <<< 9) &&& 0x0E00) ∧
          setGain W t v = setMode W (getConversion W (setMode W u 1) true).1 0 ∧
          configWritesBetween t (setGain W t v)
            = [u.configValue, (setMode W u 1).configValue,
               (triggerConversion W (setMode W u 1)).configValue,
               (setGain W t v).configValue]))) ∧
    (∀ t : Handle β,
      configWritesBetween t (initializeDevice W t)
        = (if t.devMode = ADS1115_MODE_CONTINUOUS then
            [0x0000, 0x0100, 0x8100, 0x8000, 0x8400, 0x8500, 0x8500, 0x8400,
             0x8500, 0x8580, 0x8583]
           else [0x0000, 0x0400, 0x0500, 0x0580, 0x0583])) ∧
    (∀ (t : Handle β) (tp : Bool),
      (t.configValue < 65536 →
        configWritesBetween t (getConversion W t tp).1
          = (if tp = true ∧ t.devMode = ADS1115_MODE_SINGLESHOT
              then [(getConversion W t tp).1.configValue] else [])) ∧
      configWritesBetween t (getMilliVolts W t tp).1
        = configWritesBetween t (getConversion W t tp).1 ∧
      (∀ p, p ∈ [(getConversionP0N1 W, ADS1115_MUX_P0_N1),
                  (getConversionP0N3 W, ADS1115_MUX_P0_N3),
                  (getConversionP1N3 W, ADS1115_MUX_P1_N3),
                  (getConversionP2N3 W, ADS1115_MUX_P2_N3),
                  (getConversionP0GND W, ADS1115_MUX_P0_NG),
                  (getConversionP1GND W, ADS1115_MUX_P1_NG),
                  (getConversionP2GND W, ADS1115_MUX_P2_NG),
                  (getConversionP3GND W, ADS1115_MUX_P3_NG)] →
        configWritesBetween t (p.1 t).1
          = configWritesBetween t (if t.muxMode ≠ p.2 then setMultiplexer W t p.2 else t)
            ++ configWritesBetween (if t.muxMode ≠ p.2 then setMultiplexer W t p.2 else t)
                (getConversion W
                  (if t.muxMode ≠ p.2 then setMultiplexer W t p.2 else t) true).1)) ∧
    (∀ (t : Handle β) (op : Op), op.issuesNoConfigWrite = true →
      configWritesBetween t (runOp W t op) = []) ∧
    (∀ (t : Handle β) (op : Op) (ops : List Op),
      configWritesBetween t (runOps W t (op :: ops))
        = configWritesBetween t (runOp W t op)
          ++ configWritesBetween (runOp W t op) (runOps W (runOp W t op) ops)) ∧
    (∀ op : Op, op.writesThrough = true → WritesShadowLast W s (runOp W s op)) ∧
    (∀ op : Op, op.writesThrough = true →
      (runOp echoWire e op).wire.config = (runOp echoWire e op).configValue) ∧
    (∀ op : Op, op.writesOnly = true →
      (runOp W s op).configValue &&& 0x001C = s.configValue &&& 0x001C) ∧
    (∀ (op : Op) (x : Nat), op.writesOnly = true →
      (runOp echoWire (setComparatorMode echoWire e x) op).wire.config &&& 0x0010
        = (if x ≠ 0 then 0x0010 else 0) ∧
      (runOp echoWire (setComparatorPolarity echoWire e x) op).wire.config &&& 0x0008
        = (if x ≠ 0 then 0x0008 else 0) ∧
      (runOp echoWire (setComparatorLatchEnabled echoWire e x) op).wire.config &&& 0x0004
        = (if x ≠ 0 then 0x0004 else 0)) ∧
    ((initializeDevice echoWire e).wire.config &&& 0x001C = 0 ∧
      (initializeDevice echoWire e).wire.config &&& 0x0003 = ADS1115_COMP_QUE_DISABLE) ∧
    ((setConversionReadyPinMode echoWire e).wire.config &&& 0x0008 = 0 ∧
      (setConversionReadyPinMode echoWire e).wire.config &&& 0x0003
        = ADS1115_COMP_QUE_ASSERT1) := by
  refine ⟨configWrites_of_setters W,
    fun t => trafficWrites_between _ _ _ (trafficWrites_initializeDevice W t),
    configWrites_of_conversions W,
    fun t op h => trafficWrites_between _ _ _ (trafficWrites_of_issuesNoConfigWrite W t op h),
    configWrites_of_sequence W, ?_⟩
  refine ⟨writesThrough_writesShadowLast W s hc, echo_config_after_writeThrough e he,
    writesOnly_keeps_comparator_bits W s, ?_, ?_, ?_⟩
  · intro op x h
    refine ⟨?_, ?_, ?_⟩
    · rw [echo_flag_after_writesOnly _ (by
          rw [(setComparatorMode_members echoWire e x).2.2.2.2.2.2]
          exact flag_update_lt _ _ _ _ (by decide) (by decide)) op h 16 (by decide),
        (setComparatorMode_members echoWire e x).2.2.2.2.2.2]
      exact flag_bit_of_update _ x 16 65519 (by decide)
    · rw [echo_flag_after_writesOnly _ (by
          rw [(setComparatorPolarity_members echoWire e x).2.2.2.2.2.2]
          exact flag_update_lt _ _ _ _ (by decide) (by decide)) op h 8 (by decide),
        (setComparatorPolarity_members echoWire e x).2.2.2.2.2.2]
      exact flag_bit_of_update _ x 8 65527 (by decide)
    · rw [echo_flag_after_writesOnly _ (by
          rw [(setComparatorLatchEnabled_members echoWire e x).2.2.2.2.2.2]
          exact flag_update_lt _ _ _ _ (by decide) (by decide)) op h 4 (by decide),
        (setComparatorLatchEnabled_members echoWire e x).2.2.2.2.2.2]
      exact flag_bit_of_update _ x 4 65531 (by decide)
  · have h := echo_config_after_writeThrough e he Op.init rfl
    simp only [runOp] at h
    rw [h, initializeDevice_configValue]
    split <;> exact ⟨by decide, by decide⟩
  · have h := (echo_setConversionReadyPinMode_wire e).2.2
    rw [h, setConversionReadyPinMode_configValue]
    refine ⟨?_, ?_⟩
    · rw [merge_and_sub _ _ 3 65532 8 (by decide) (by decide)]
      exact and_and_disjoint _ 8 65527 (by decide)
    · rw [merge_and_mask _ _ _ _ (by decide)]
      decide

/-- Witness for claim C22: the initialised driver on the echoing double;
`setComparatorMode(1)` followed by `setRate(5)` leaves the comparator-mode bit
set in the device; and the configuration writes of `initialize()` on a driver
in continuous mode and of `setGain(3)` on the initialised driver. -/
theorem config_writes_carry_shadow_witness :
    handleReady.configValue < 65536 ∧
    WritesShadowLast echoWire handleReady (setMultiplexer echoWire handleReady 3) ∧
    (triggerConversion echoWire handleReady).wire.config
      = (triggerConversion echoWire handleReady).configValue ∧
    (setRate echoWire (setComparatorMode echoWire handleReady 1) 5).wire.config &&& 0x0010
      = 0x0010 ∧
    configWritesBetween handleContinuous (initializeDevice echoWire handleContinuous)
      = [0x0000, 0x0100, 0x8100, 0x8000, 0x8400, 0x8500, 0x8500, 0x8400,
         0x8500, 0x8580, 0x8583] ∧
    handleReady.devMode ≠ ADS1115_MODE_CONTINUOUS ∧
    configWritesBetween handleReady (setGain echoWire handleReady 3)
      = [(setGain echoWire handleReady 3).configValue] :=
  ⟨by decide,
   (config_writes_carry_shadow echoWire handleReady handleReady (by decide)
     (by decide)).2.2.2.2.2.1 (Op.setMultiplexer 3) rfl,
   (config_writes_carry_shadow echoWire handleReady handleReady (by decide)
     (by decide)).2.2.2.2.2.2.1 Op.triggerConversion rfl,
   ((config_writes_carry_shadow echoWire handleReady handleReady (by decide)
     (by decide)).2.2.2.2.2.2.2.2.1 (Op.setRate 5) 1 rfl).1,
   (config_writes_carry_shadow echoWire handleReady handleReady (by decide)
     (by decide)).2.1 handleContinuous,
   by decide,
   (((config_writes_carry_shadow echoWire handleReady handleReady (by decide)
     (by decide)).1 handleReady 3).2.2.2.2.2.1 (by decide)).2⟩

/-! ## Invariants over sequences of operations -/

section Invariants

variable (W : TwoWire β)

theorem getConversion_members_eq (s : Handle β) (tp : Bool) :
    (getConversion W s tp).1.members
      = (if tp = true ∧ s.devMode = 1 then (triggerConversion W s).members else s.members) := by
  have h := getConversion_members W s tp
  by_cases hc : tp = true ∧ s.devMode = 1
  · simp [Handle.members, h, hc]
  · simp only [Handle.members, h, if_neg hc]

/-- A property of the driver's members that the member-changing primitives
preserve is preserved by `getConversion`. -/
theorem getConversion_preserves (P : Handle β → Prop)
    (hmem : ∀ a b : Handle β, b.members = a.members → P a → P b)
    (htrig : ∀ s, P s → P (triggerConversion W s)) (s : Handle β) (tp : Bool) (h : P s) :
    P (getConversion W s tp).1 := by
  have hm := getConversion_members_eq W s tp
  by_cases hc : tp = true ∧ s.devMode = 1
  · rw [if_pos hc] at hm
    exact hmem _ _ hm (htrig s h)
  · rw [if_neg hc] at hm
    exact hmem _ _ hm h

/-- A property of the driver's members is preserved by a public operation
`op` admitted by `ok` as soon as the member-changing operations admitted by
`ok` preserve it (the convenience conversions call `setMultiplexer` with their
target, a selector below 8). -/
theorem runOp_preserves (P : Handle β → Prop) (ok : Op → Prop)
    (hmem : ∀ a b : Handle β, b.members = a.members → P a → P b)
    (hinit : ok Op.init → ∀ s, P s → P (initializeDevice W s))
    (htrig : ∀ s, P s → P (triggerConversion W s))
    (htarget : ∀ s t, t < 8 → P s → P (setMultiplexer W s t))
    (hmux : ∀ m, ok (Op.setMultiplexer m) → ∀ s, P s → P (setMultiplexer W s m))
    (hgain : ∀ g, ok (Op.setGain g) → ∀ s, P s → P (setGain W s g))
    (hmode : ∀ m, ok (Op.setMode m) → ∀ s, P s → P (setMode W s m))
    (hrate : ∀ r s, P s → P (setRate W s r))
    (hcm : ∀ x s, P s → P (setComparatorMode W s x))
    (hcp : ∀ x s, P s → P (setComparatorPolarity W s x))
    (hcl : ∀ x s, P s → P (setComparatorLatchEnabled W s x))
    (hcq : ∀ x s, P s → P (setComparatorQueueMode W s x))
    (hgetmux : ok Op.getMultiplexer → ∀ s, P s → P (getMultiplexer W s).1)
    (hgetgain : ok Op.getGain → ∀ s, P s → P (getGain W s).1)
    (hgetmode : ok Op.getMode → ∀ s, P s → P (getMode W s).1)
    (s : Handle β) (op : Op) (hok : ok op) (h : P s) : P (runOp W s op) := by
  have hconv : ∀ t tp, P t → P (getConversion W t tp).1 :=
    fun t tp => getConversion_preserves W P hmem htrig t tp
  have hpx : ∀ target, target < 8 →
      P (getConversion W
        (if s.muxMode ≠ target then setMultiplexer W s target else s) true).1 := by
    intro target ht
    apply hconv
    split
    · exact htarget s target ht h
    · exact h
  cases op
  case init => exact hinit hok s h
  case testConnection =>
    exact hmem s _ (by simp [runOp, Handle.members, testConnection, wireEnd, wireBegin]) h
  case pollConversion n =>
    exact hmem s _ (by simp [runOp, Handle.members, pollConversion_members W s n]) h
  case triggerConversion => exact htrig s h
  case getConversion tp => exact hconv s tp h
  case getConversionP0N1 => exact hpx 0 (by decide)
  case getConversionP0N3 => exact hpx 1 (by decide)
  case getConversionP1N3 => exact hpx 2 (by decide)
  case getConversionP2N3 => exact hpx 3 (by decide)
  case getConversionP0GND => exact hpx 4 (by decide)
  case getConversionP1GND => exact hpx 5 (by decide)
  case getConversionP2GND => exact hpx 6 (by decide)
  case getConversionP3GND => exact hpx 7 (by decide)
  case getMilliVolts tp => exact hconv s tp h
  case getMvPerCount => exact h
  case getFullScale pga => exact h
  case isConversionReady => exact hmem s _ (by simp [runOp, Handle.members]) h
  case getMultiplexer => exact hgetmux hok s h
  case setMultiplexer m => exact hmux m hok s h
  case getGain => exact hgetgain hok s h
  case setGain g => exact hgain g hok s h
  case getMode => exact hgetmode hok s h
  case setMode m => exact hmode m hok s h
  case getRate => exact hmem s _ (by simp [runOp, Handle.members, getRate]) h
  case setRate r => exact hrate r s h
  case getComparatorMode =>
    exact hmem s _ (by simp [runOp, Handle.members, getComparatorMode]) h
  case setComparatorMode x => exact hcm x s h
  case getComparatorPolarity =>
    exact hmem s _ (by simp [runOp, Handle.members, getComparatorPolarity]) h
  case setComparatorPolarity x => exact hcp x s h
  case getComparatorLatchEnabled =>
    exact hmem s _ (by simp [runOp, Handle.members, getComparatorLatchEnabled]) h
  case setComparatorLatchEnabled x => exact hcl x s h
  case getComparatorQueueMode =>
    exact hmem s _ (by simp [runOp, Handle.members, getComparatorQueueMode]) h
  case setComparatorQueueMode x => exact hcq x s h
  case setConversionReadyPinMode =>
    have h1 : P (setLowThreshold W (setHighThreshold W s (-1)) 0) :=
      hmem s _ (by simp [Handle.members]) h
    exact hcq 0 _ (hcp 0 _ h1)
  case getLowThreshold => exact hmem s _ (by simp [runOp, Handle.members, getLowThreshold]) h
  case setLowThreshold t => exact hmem s _ (by simp [runOp, Handle.members]) h
  case getHighThreshold =>
    exact hmem s _ (by simp [runOp, Handle.members, getHighThreshold]) h
  case setHighThreshold t => exact hmem s _ (by simp [runOp, Handle.members]) h
  case showConfigRegister =>
    exact hmem s _ (by simp [runOp, Handle.members, showConfigRegister]) h

/-- Preservation by one operation extends to a sequence of operations. -/
theorem runOps_preserves (P : Handle β → Prop) (ok : Op → Prop)
    (hstep : ∀ s op, ok op → P s → P (runOp W s op)) (ops : List Op)
    (hops : ∀ op, op ∈ ops → ok op) (s : Handle β) (h : P s) : P (runOps W s ops) := by
  induction ops generalizing s with
  | nil => exact h
  | cons op rest ih =>
    have hrest : ∀ o, o ∈ rest → ok o := fun o ho => hops o (List.mem_cons_of_mem _ ho)
    exact ih hrest (runOp W s op) (hstep s op (hops op (List.mem_cons_self _ _)) h)

end Invariants

/-! ## The start-conversion bit of the shadow word -/

section StartBit

variable (W : TwoWire β) (s : Handle β)

theorem testBit15_iff (c : Nat) : c.testBit 15 = true ↔ c &&& 32768 = 32768 := by
  have h : (32768 : Nat) = 2 ^ 15 := by decide
  constructor
  · intro hb
    rw [h]
    apply Nat.eq_of_testBit_eq
    intro j
    rw [Nat.testBit_and, Nat.testBit_two_pow]
    by_cases hj : 15 = j
    · subst hj; simp [hb]
    · simp [hj]
  · intro hm
    cases hb : c.testBit 15
    · have h0 := (and_two_pow_eq_zero_iff c 15).mpr hb
      rw [← h, hm] at h0
      exact absurd h0 (by decide)
    · rfl

theorem testBit15_mod (v : Nat) : (v % 65536).testBit 15 = v.testBit 15 := by
  have h : (65536 : Nat) = 2 ^ 16 := by decide
  rw [h, Nat.testBit_mod_two_pow]
  simp

theorem flag_update_keeps (c x flag n k : Nat) (h1 : n &&& k = k) (h2 : k &&& flag = 0) :
    (if x ≠ 0 then (c &&& n) ||| flag else c &&& n) &&& k = c &&& k := by
  split
  · rw [or_and_compl _ _ _ h2, and_and_sub _ _ _ h1]
  · exact and_and_sub _ _ _ h1

theorem setMultiplexer_startBit (m : Nat) (h : s.configValue &&& 32768 = 32768) :
    (setMultiplexer W s m).configValue &&& 32768 = 32768 := by
  rw [setMultiplexer_configValue]
  split
  · rw [and_and_sub _ 65279 32768 (by decide)]
    exact or_and_self _ _
  · rw [merge_and_sub _ _ 28672 36863 32768 (by decide) (by decide)]
    exact h

theorem setGain_startBit (g : Nat) (h : s.configValue &&& 32768 = 32768) :
    (setGain W s g).configValue &&& 32768 = 32768 := by
  rw [setGain_configValue]
  split
  · rw [and_and_sub _ 65279 32768 (by decide)]
    exact or_and_self _ _
  · rw [merge_and_sub _ _ 3584 61951 32768 (by decide) (by decide)]
    exact h

/-- Every operation other than `initialize()` keeps a set start-conversion
bit of the shadow word set. -/
theorem runOp_keeps_startBit (op : Op) (hop : op ≠ Op.init)
    (h : s.configValue &&& 32768 = 32768) :
    (runOp W s op).configValue &&& 32768 = 32768 := by
  refine runOp_preserves W (fun t => t.configValue &&& 32768 = 32768) (fun o => o ≠ Op.init)
    ?_ ?_ ?_ ?_ ?_ ?_ ?_ ?_ ?_ ?_ ?_ ?_ ?_ ?_ ?_ s op hop h
  · intro a b hab ha
    have hc : b.configValue = a.configValue := by
      have := congrArg (fun m => m.2.2.2.2) hab
      simpa [Handle.members] using this
    show b.configValue &&& 32768 = 32768
    rw [hc]; exact ha
  · intro hne; exact absurd rfl hne
  · intro t _
    show (triggerConversion W t).configValue &&& 32768 = 32768
    rw [(triggerConversion_members W t).2.2.2.2]
    exact or_and_self _ _
  · intro t m _ ht; exact setMultiplexer_startBit W t m ht
  · intro m _ t ht; exact setMultiplexer_startBit W t m ht
  · intro g _ t ht; exact setGain_startBit W t g ht
  · intro m _ t ht
    exact (setMode_keeps W t 32768 (by decide) (by decide) m).trans ht
  · intro r t ht
    exact (setRate_keeps W t 32768 (by decide) (by decide) r).trans ht
  · intro x t ht
    show (setComparatorMode W t x).configValue &&& 32768 = 32768
    rw [(setComparatorMode_members W t x).2.2.2.2.2.2]
    exact (flag_update_keeps _ x 16 65519 32768 (by decide) (by decide)).trans ht
  · intro x t ht
    show (setComparatorPolarity W t x).configValue &&& 32768 = 32768
    rw [(setComparatorPolarity_members W t x).2.2.2.2.2.2]
    exact (flag_update_keeps _ x 8 65527 32768 (by decide) (by decide)).trans ht
  · intro x t ht
    show (setComparatorLatchEnabled W t x).configValue &&& 32768 = 32768
    rw [(setComparatorLatchEnabled_members W t x).2.2.2.2.2.2]
    exact (flag_update_keeps _ x 4 65531 32768 (by decide) (by decide)).trans ht
  · intro x t ht
    exact (setComparatorQueueMode_keeps W t 32768 (by decide) (by decide) x).trans ht
  · intro _ t ht
    show (getMultiplexer W t).1.configValue &&& 32768 = 32768
    simpa [getMultiplexer] using ht
  · intro _ t ht
    show (getGain W t).1.configValue &&& 32768 = 32768
    simpa [getGain] using ht
  · intro _ t ht
    show (getMode W t).1.configValue &&& 32768 = 32768
    simpa [getMode] using ht

end StartBit

section StartBitWrites

variable (W : TwoWire β) (s : Handle β)

/-- One write of a word with bit 15 set. -/
theorem writesHaveStartBit_single (t after : Handle β)
    (hlog : after.log = t.log ++ writeTxn t.devAddr 1 after.configValue)
    (hb : after.configValue &&& 32768 = 32768) : WritesHaveStartBit t after := by
  refine ⟨_, hlog, ?_, ?_⟩
  · have h := configWrites_config_write t.devAddr after.configValue []
    rw [List.append_nil] at h
    rw [h]; simp
  · intro w hw
    have h := configWrites_config_write t.devAddr after.configValue []
    rw [List.append_nil] at h
    rw [h, configWrites_nil] at hw
    have hw2 : w = after.configValue % 65536 := by simpa using hw
    rw [hw2, testBit15_mod]
    exact (testBit15_iff _).mpr hb

/-- The four writes of a continuous-mode field change, started from a field
write with bit 15 set. -/
theorem writesHaveStartBit_stopStart (t after : Handle β) (c0 : Nat)
    (h : IsStopStartTraffic t.log after.log t.devAddr c0)
    (hb : c0 &&& 32768 = 32768) : WritesHaveStartBit t after := by
  obtain ⟨k, c1, c2, c3, -, -, hlog, h1, h2, h3, -, -, -⟩ := h
  have hb0 : c0.testBit 15 = true := (testBit15_iff _).mpr hb
  have hb1 : c1.testBit 15 = true := by
    rw [h1, Nat.testBit_or, Nat.testBit_and, hb0]
    decide
  have hb2 : c2.testBit 15 = true := by
    rw [h2, Nat.testBit_or, hb1]
    decide
  have hb3 : c3.testBit 15 = true := by
    rw [h3, Nat.testBit_and, hb2]
    decide
  have hcw : configWrites (writeTxn t.devAddr 0x01 c0 ++ (writeTxn t.devAddr 0x01 c1
      ++ (writeTxn t.devAddr 0x01 c2 ++ (repeatCalls k (readTxn t.devAddr 0x01)
      ++ (readTxn t.devAddr 0x00 ++ (writeTxn t.devAddr 0x01 c3 ++ []))))))
      = [c0 % 65536, c1 % 65536, c2 % 65536, c3 % 65536] := by
    rw [configWrites_config_write, configWrites_config_write, configWrites_config_write,
      configWrites_repeat_read, configWrites_readTxn, configWrites_config_write,
      configWrites_nil]
  refine ⟨writeTxn t.devAddr 0x01 c0 ++ (writeTxn t.devAddr 0x01 c1
      ++ (writeTxn t.devAddr 0x01 c2 ++ (repeatCalls k (readTxn t.devAddr 0x01)
      ++ (readTxn t.devAddr 0x00 ++ (writeTxn t.devAddr 0x01 c3 ++ []))))), ?_, ?_, ?_⟩
  · rw [hlog]
    simp only [List.append_assoc, List.append_nil]
  · rw [hcw]; simp
  · intro w hw
    rw [hcw] at hw
    simp only [List.mem_cons, List.mem_singleton, List.not_mem_nil, or_false] at hw
    rcases hw with rfl | rfl | rfl | rfl <;> rw [testBit15_mod] <;> assumption

theorem writesHaveStartBit_setMultiplexer (v : Nat) (hb : s.configValue &&& 32768 = 32768) :
    WritesHaveStartBit s (setMultiplexer W s v) := by
  by_cases h0 : s.devMode = 0
  · obtain ⟨t, ht, ha, hc, hl⟩ := setMultiplexer_continuous W s v h0
    have htr := isStopStartTraffic_of_cycle W t s.log (by rw [hl, ha, hc])
    rw [← ht, ha, hc] at htr
    refine writesHaveStartBit_stopStart s _ _ htr ?_
    rw [merge_and_sub _ _ 28672 36863 32768 (by decide) (by decide)]
    exact hb
  · refine writesHaveStartBit_single s _ ?_ (setMultiplexer_startBit W s v hb)
    rw [setMultiplexer_configValue, if_neg h0]
    simp [setMultiplexer, h0]

theorem writesHaveStartBit_setGain (v : Nat) (hb : s.configValue &&& 32768 = 32768) :
    WritesHaveStartBit s (setGain W s v) := by
  by_cases h0 : s.devMode = 0
  · obtain ⟨t, ht, ha, hc, hl⟩ := setGain_continuous W s v h0
    have htr := isStopStartTraffic_of_cycle W t s.log (by rw [hl, ha, hc])
    rw [← ht, ha, hc] at htr
    refine writesHaveStartBit_stopStart s _ _ htr ?_
    rw [merge_and_sub _ _ 3584 61951 32768 (by decide) (by decide)]
    exact hb
  · refine writesHaveStartBit_single s _ ?_ (setGain_startBit W s v hb)
    rw [setGain_configValue, if_neg h0]
    simp [setGain, h0]

end StartBitWrites

/-- Claim C23.  `triggerConversion()` (and a `getConversion` that triggers)
sets bit 15 of the shadow word, and no public operation other than
`initialize()` clears it: after any sequence of such operations on a shadow
word with bit 15 set, bit 15 is still set, and every configuration write then
issued by `setMultiplexer`, `setGain`, `setMode`, `setRate` or
`setComparatorQueueMode` carries a word with bit 15 set.  `initialize()` does
clear it when the tracked mode is not continuous. -/
theorem start_bit_stays_set (W : TwoWire β) (s : Handle β) (ops : List Op) (v : Nat)
    (hops : ∀ op, op ∈ ops → op ≠ Op.init) :
    (triggerConversion W s).configValue.testBit 15 = true ∧
    (s.devMode = ADS1115_MODE_SINGLESHOT →
      (getConversion W s true).1.configValue.testBit 15 = true) ∧
    (s.configValue.testBit 15 = true →
      (runOps W s ops).configValue.testBit 15 = true ∧
      WritesHaveStartBit (runOps W s ops) (setMultiplexer W (runOps W s ops) v) ∧
      WritesHaveStartBit (runOps W s ops) (setGain W (runOps W s ops) v) ∧
      WritesHaveStartBit (runOps W s ops) (setMode W (runOps W s ops) v) ∧
      WritesHaveStartBit (runOps W s ops) (setRate W (runOps W s ops) v) ∧
      WritesHaveStartBit (runOps W s ops)
        (setComparatorQueueMode W (runOps W s ops) v)) ∧
    (s.devMode ≠ ADS1115_MODE_CONTINUOUS →
      (initializeDevice W s).configValue.testBit 15 = false) := by
  refine ⟨?_, ?_, ?_, ?_⟩
  · rw [testBit15_iff, (triggerConversion_members W s).2.2.2.2]
    exact or_and_self _ _
  · intro hm
    have h1 : s.devMode = 1 := hm
    rw [testBit15_iff, (getConversion_members W s true).2.2.2.2, if_pos ⟨rfl, h1⟩]
    exact or_and_self _ _
  · intro hb
    have hb' : s.configValue &&& 32768 = 32768 := (testBit15_iff _).mp hb
    have hr : (runOps W s ops).configValue &&& 32768 = 32768 :=
      runOps_preserves W (fun t => t.configValue &&& 32768 = 32768) (fun o => o ≠ Op.init)
        (fun t op hop ht => runOp_keeps_startBit W t op hop ht) ops hops s hb'
    refine ⟨(testBit15_iff _).mpr hr, writesHaveStartBit_setMultiplexer W _ v hr,
      writesHaveStartBit_setGain W _ v hr, ?_, ?_, ?_⟩
    · exact writesHaveStartBit_single _ _ (setMode_log W _ v)
        ((setMode_keeps W _ 32768 (by decide) (by decide) v).trans hr)
    · exact writesHaveStartBit_single _ _ (setRate_log W _ v)
        ((setRate_keeps W _ 32768 (by decide) (by decide) v).trans hr)
    · exact writesHaveStartBit_single _ _ (setComparatorQueueMode_log W _ v)
        ((setComparatorQueueMode_keeps W _ 32768 (by decide) (by decide) v).trans hr)
  · intro hm
    have h0 : ¬ s.devMode = 0 := hm
    rw [initializeDevice_configValue, if_neg h0]
    decide

/-- Witness for claim C23: the initialised driver of the echoing double
(shadow word 0x8583) and a sequence of setters and getters. -/
theorem start_bit_stays_set_witness :
    handleReady.configValue.testBit 15 = true ∧
    (runOps echoWire handleReady
      [Op.setMode 0, Op.setComparatorMode 1, Op.getMultiplexer, Op.setRate 7,
       Op.getConversionP2GND]).configValue.testBit 15 = true ∧
    handleBusy.devMode = ADS1115_MODE_SINGLESHOT ∧
    (getConversion busyWire handleBusy true).1.configValue.testBit 15 = true :=
  ⟨by decide,
   ((start_bit_stays_set echoWire handleReady
      [Op.setMode 0, Op.setComparatorMode 1, Op.getMultiplexer, Op.setRate 7,
       Op.getConversionP2GND] 3 (by decide)).2.2.1 (by decide)).1,
   rfl,
   (start_bit_stays_set busyWire handleBusy [] 0 (by decide)).2.1 rfl⟩

/-! ## The tracked selectors and the shadow word -/

section Tracked

variable (W : TwoWire β) (s : Handle β)

/-- The invariant only looks at the tracked members and at the three fields
of the shadow word. -/
theorem trackedMatchesShadow_of_fields (a b : Handle β)
    (hm : b.muxMode = a.muxMode) (hp : b.pgaMode = a.pgaMode) (hd : b.devMode = a.devMode)
    (h1 : b.configValue &&& 0x7000 = a.configValue &&& 0x7000)
    (h2 : b.configValue &&& 0x0E00 = a.configValue &&& 0x0E00)
    (h3 : b.configValue &&& 0x0100 = a.configValue &&& 0x0100)
    (h : TrackedMatchesShadow a) : TrackedMatchesShadow b := by
  obtain ⟨ha1, ha2, ha3⟩ := h
  exact ⟨by rw [hm, h1]; exact ha1, by rw [hp, h2]; exact ha2, by rw [hd, h3]; exact ha3⟩

theorem trackedMatchesShadow_of_members (a b : Handle β) (hab : b.members = a.members)
    (h : TrackedMatchesShadow a) : TrackedMatchesShadow b := by
  have h2 : b.devMode = a.devMode := by
    have := congrArg (fun m => m.2.1) hab
    simpa [Handle.members] using this
  have h3 : b.muxMode = a.muxMode := by
    have := congrArg (fun m => m.2.2.1) hab
    simpa [Handle.members] using this
  have h4 : b.pgaMode = a.pgaMode := by
    have := congrArg (fun m => m.2.2.2.1) hab
    simpa [Handle.members] using this
  have h5 : b.configValue = a.configValue := by
    have := congrArg (fun m => m.2.2.2.2) hab
    simpa [Handle.members] using this
  exact trackedMatchesShadow_of_fields a b h3 h4 h2 (by rw [h5]) (by rw [h5]) (by rw [h5]) h

/-- Mode bit of the shadow word after a mux or gain change: cleared by the
forced stop/start in continuous mode, untouched otherwise. -/
theorem mode_bit_after_field_change (d c x : Nat) (hx : x &&& 256 = c &&& 256)
    (hd : d = (c &&& 256) >>> 8) :
    d = ((if d = 0 then (((x &&& 65279 ||| 256) ||| 32768) &&& 65279) else x) &&& 256) >>> 8 := by
  by_cases h0 : d = 0
  · rw [if_pos h0, and_and_disjoint _ 256 65279 (by decide), h0]
    rfl
  · rw [if_neg h0, hx]
    exact hd

theorem trackedMatchesShadow_initializeDevice : TrackedMatchesShadow (initializeDevice W s) := by
  obtain ⟨-, hd, hm, hp⟩ := initializeDevice_members W s
  have hc := initializeDevice_configValue W s
  unfold TrackedMatchesShadow
  rw [hd, hm, hp, hc]
  split <;> decide

theorem trackedMatchesShadow_triggerConversion (h : TrackedMatchesShadow s) :
    TrackedMatchesShadow (triggerConversion W s) := by
  obtain ⟨-, hd, hm, hp, -⟩ := triggerConversion_members W s
  exact trackedMatchesShadow_of_fields s _ hm hp hd
    (triggerConversion_keeps W s 0x7000 (by decide))
    (triggerConversion_keeps W s 0x0E00 (by decide))
    (triggerConversion_keeps W s 0x0100 (by decide)) h

theorem trackedMatchesShadow_setMultiplexer (m : Nat) (hm : m < 8)
    (h : TrackedMatchesShadow s) : TrackedMatchesShadow (setMultiplexer W s m) := by
  obtain ⟨-, hd, hmx, hp⟩ := setMultiplexer_members W s m
  obtain ⟨-, h2, h3⟩ := h
  refine ⟨?_, ?_, ?_⟩
  · rw [hmx]
    have hf : (setMultiplexer W s m).configValue &&& 28672 = (m <<< 12) &&& 28672 := by
      rw [setMultiplexer_configValue]
      split
      · rw [cycle_keeps _ 28672 (by decide) (by decide) (by decide)]
        exact merge_and_mask _ _ _ _ (by decide)
      · exact merge_and_mask _ _ _ _ (by decide)
    show m = ((setMultiplexer W s m).configValue &&& 28672) >>> 12
    rw [hf, extract_mux m (by omega), Nat.mod_eq_of_lt hm]
  · rw [hp]
    show s.pgaMode = ((setMultiplexer W s m).configValue &&& 3584) >>> 9
    rw [setMultiplexer_keeps W s 3584 (by decide) (by decide) (by decide) (by decide)
      (by decide) m]
    exact h2
  · rw [hd, setMultiplexer_configValue]
    exact mode_bit_after_field_change s.devMode s.configValue _
      (merge_and_sub _ _ 28672 36863 256 (by decide) (by decide)) h3

theorem trackedMatchesShadow_setGain (g : Nat) (hg : g < 8)
    (h : TrackedMatchesShadow s) : TrackedMatchesShadow (setGain W s g) := by
  obtain ⟨-, hd, hmx, hp⟩ := setGain_members W s g
  obtain ⟨h1, -, h3⟩ := h
  refine ⟨?_, ?_, ?_⟩
  · rw [hmx]
    show s.muxMode = ((setGain W s g).configValue &&& 28672) >>> 12
    rw [setGain_keeps W s 28672 (by decide) (by decide) (by decide) (by decide)
      (by decide) g]
    exact h1
  · rw [hp]
    have hf : (setGain W s g).configValue &&& 3584 = (g <<< 9) &&& 3584 := by
      rw [setGain_configValue]
      split
      · rw [cycle_keeps _ 3584 (by decide) (by decide) (by decide)]
        exact merge_and_mask _ _ _ _ (by decide)
      · exact merge_and_mask _ _ _ _ (by decide)
    show g = ((setGain W s g).configValue &&& 3584) >>> 9
    rw [hf, extract_pga g (by omega), Nat.mod_eq_of_lt hg]
  · rw [hd, setGain_configValue]
    exact mode_bit_after_field_change s.devMode s.configValue _
      (merge_and_sub _ _ 3584 61951 256 (by decide) (by decide)) h3

theorem trackedMatchesShadow_setMode (m : Nat) (hm : m < 2)
    (h : TrackedMatchesShadow s) : TrackedMatchesShadow (setMode W s m) := by
  obtain ⟨-, hd, hmx, hp, hc⟩ := setMode_members W s m
  obtain ⟨h1, h2, -⟩ := h
  refine ⟨?_, ?_, ?_⟩
  · rw [hmx]
    show s.muxMode = ((setMode W s m).configValue &&& 28672) >>> 12
    rw [setMode_keeps W s 28672 (by decide) (by decide) m]
    exact h1
  · rw [hp]
    show s.pgaMode = ((setMode W s m).configValue &&& 3584) >>> 9
    rw [setMode_keeps W s 3584 (by decide) (by decide) m]
    exact h2
  · rw [hd, hc]
    show m = ((if m ≠ 0 then s.configValue &&& 65279 ||| 256 else s.configValue &&& 65279)
      &&& 256) >>> 8
    by_cases h0 : m = 0
    · rw [if_neg (not_not.mpr h0), and_and_disjoint _ 256 65279 (by decide), h0]
      rfl
    · rw [if_pos h0, or_and_self]
      have : m = 1 := by omega
      rw [this]
      rfl

theorem trackedMatchesShadow_setRate (r : Nat) (h : TrackedMatchesShadow s) :
    TrackedMatchesShadow (setRate W s r) := by
  obtain ⟨-, hd, hm, hp, -⟩ := setRate_members W s r
  exact trackedMatchesShadow_of_fields s _ hm hp hd
    (setRate_keeps W s 0x7000 (by decide) (by decide) r)
    (setRate_keeps W s 0x0E00 (by decide) (by decide) r)
    (setRate_keeps W s 0x0100 (by decide) (by decide) r) h

theorem trackedMatchesShadow_setComparatorQueueMode (q : Nat) (h : TrackedMatchesShadow s) :
    TrackedMatchesShadow (setComparatorQueueMode W s q) := by
  obtain ⟨-, hd, hm, hp, -⟩ := setComparatorQueueMode_members W s q
  exact trackedMatchesShadow_of_fields s _ hm hp hd
    (setComparatorQueueMode_keeps W s 0x7000 (by decide) (by decide) q)
    (setComparatorQueueMode_keeps W s 0x0E00 (by decide) (by decide) q)
    (setComparatorQueueMode_keeps W s 0x0100 (by decide) (by decide) q) h

theorem trackedMatchesShadow_setComparatorMode (x : Nat) (h : TrackedMatchesShadow s) :
    TrackedMatchesShadow (setComparatorMode W s x) := by
  obtain ⟨-, hd, hm, hp, -, -, hc⟩ := setComparatorMode_members W s x
  exact trackedMatchesShadow_of_fields s _ hm hp hd
    (by rw [hc]; exact flag_update_keeps _ x 16 65519 0x7000 (by decide) (by decide))
    (by rw [hc]; exact flag_update_keeps _ x 16 65519 0x0E00 (by decide) (by decide))
    (by rw [hc]; exact flag_update_keeps _ x 16 65519 0x0100 (by decide) (by decide)) h

theorem trackedMatchesShadow_setComparatorPolarity (x : Nat) (h : TrackedMatchesShadow s) :
    TrackedMatchesShadow (setComparatorPolarity W s x) := by
  obtain ⟨-, hd, hm, hp, -, -, hc⟩ := setComparatorPolarity_members W s x
  exact trackedMatchesShadow_of_fields s _ hm hp hd
    (by rw [hc]; exact flag_update_keeps _ x 8 65527 0x7000 (by decide) (by decide))
    (by rw [hc]; exact flag_update_keeps _ x 8 65527 0x0E00 (by decide) (by decide))
    (by rw [hc]; exact flag_update_keeps _ x 8 65527 0x0100 (by decide) (by decide)) h

theorem trackedMatchesShadow_setComparatorLatchEnabled (x : Nat)
    (h : TrackedMatchesShadow s) : TrackedMatchesShadow (setComparatorLatchEnabled W s x) := by
  obtain ⟨-, hd, hm, hp, -, -, hc⟩ := setComparatorLatchEnabled_members W s x
  exact trackedMatchesShadow_of_fields s _ hm hp hd
    (by rw [hc]; exact flag_update_keeps _ x 4 65531 0x7000 (by decide) (by decide))
    (by rw [hc]; exact flag_update_keeps _ x 4 65531 0x0E00 (by decide) (by decide))
    (by rw [hc]; exact flag_update_keeps _ x 4 65531 0x0100 (by decide) (by decide)) h

/-- Every operation with in-range arguments other than the three caching
getters preserves the agreement of the tracked selectors with the shadow
word. -/
theorem runOp_keeps_tracked (op : Op)
    (hop : op.inRange = true ∧ op.cachesDeviceField = false)
    (h : TrackedMatchesShadow s) : TrackedMatchesShadow (runOp W s op) := by
  refine runOp_preserves W TrackedMatchesShadow
    (fun o => o.inRange = true ∧ o.cachesDeviceField = false)
    ?_ ?_ ?_ ?_ ?_ ?_ ?_ ?_ ?_ ?_ ?_ ?_ ?_ ?_ ?_ s op hop h
  · exact fun a b hab ha => trackedMatchesShadow_of_members a b hab ha
  · exact fun _ t _ => trackedMatchesShadow_initializeDevice W t
  · exact fun t ht => trackedMatchesShadow_triggerConversion W t ht
  · exact fun t m hm ht => trackedMatchesShadow_setMultiplexer W t m hm ht
  · intro m hok t ht
    exact trackedMatchesShadow_setMultiplexer W t m (by simpa [Op.inRange] using hok.1) ht
  · intro g hok t ht
    exact trackedMatchesShadow_setGain W t g (by simpa [Op.inRange] using hok.1) ht
  · intro m hok t ht
    exact trackedMatchesShadow_setMode W t m (by simpa [Op.inRange] using hok.1) ht
  · exact fun r t ht => trackedMatchesShadow_setRate W t r ht
  · exact fun x t ht => trackedMatchesShadow_setComparatorMode W t x ht
  · exact fun x t ht => trackedMatchesShadow_setComparatorPolarity W t x ht
  · exact fun x t ht => trackedMatchesShadow_setComparatorLatchEnabled W t x ht
  · exact fun x t ht => trackedMatchesShadow_setComparatorQueueMode W t x ht
  · intro hok; exact absurd hok.2 (by simp [Op.cachesDeviceField])
  · intro hok; exact absurd hok.2 (by simp [Op.cachesDeviceField])
  · intro hok; exact absurd hok.2 (by simp [Op.cachesDeviceField])

/-- A caching getter keeps the agreement exactly when the value it read from
the device is the field of the shadow word. -/
theorem trackedMatchesShadow_getMultiplexer_iff (h : TrackedMatchesShadow s) :
    TrackedMatchesShadow (getMultiplexer W s).1
      ↔ (getMultiplexer W s).2 = (s.configValue &&& 0x7000) >>> 12 := by
  obtain ⟨-, h2, h3⟩ := h
  simp only [TrackedMatchesShadow, getMultiplexer, readRegister_members]
  exact ⟨fun hh => hh.1, fun hh => ⟨hh, h2, h3⟩⟩

theorem trackedMatchesShadow_getGain_iff (h : TrackedMatchesShadow s) :
    TrackedMatchesShadow (getGain W s).1
      ↔ (getGain W s).2 = (s.configValue &&& 0x0E00) >>> 9 := by
  obtain ⟨h1, -, h3⟩ := h
  simp only [TrackedMatchesShadow, getGain, readRegister_members]
  exact ⟨fun hh => hh.2.1, fun hh => ⟨h1, hh, h3⟩⟩

theorem trackedMatchesShadow_getMode_iff (h : TrackedMatchesShadow s) :
    TrackedMatchesShadow (getMode W s).1
      ↔ (getMode W s).2 = (s.configValue &&& 0x0100) >>> 8 := by
  obtain ⟨h1, h2, -⟩ := h
  simp only [TrackedMatchesShadow, getMode, readRegister_members]
  exact ⟨fun hh => hh.2.2, fun hh => ⟨h1, h2, hh⟩⟩

/-- A convenience conversion whose target is already the tracked selector, in
single-shot mode: its only configuration write is the trigger, and the word
written has the target in its mux field. -/
theorem convenience_skip_trigger (f : Handle β → Handle β × Int) (target : Nat)
    (hf : ∀ t, f t = getConversion W
      (if t.muxMode ≠ target then setMultiplexer W t target else t) true)
    (h : TrackedMatchesShadow s) (hm : s.muxMode = target) (hd : s.devMode = 1) :
    ∃ k, (f s).1.log = s.log ++ writeTxn s.devAddr 0x01 (s.configValue ||| 0x8000)
          ++ repeatCalls k (readTxn s.devAddr 0x01) ++ readTxn s.devAddr 0x00 ∧
      ((s.configValue ||| 0x8000) &&& 0x7000) >>> 12 = target := by
  obtain ⟨k, -, -, -, -, hlog⟩ := getConversion_log_triggered W s hd
  refine ⟨k, ?_, ?_⟩
  · rw [hf, if_neg (not_not.mpr hm)]
    exact hlog
  · rw [or_and_compl _ _ _ (by decide), ← h.1]
    exact hm

end Tracked

/-- Claim C25.  The millivolts-per-count constant of `getMvPerCount`, read as
an exact decimal and multiplied by 32768, equals `getFullScale` for the gain
selectors 0 to 4; for the selectors 5, 6 and 7 the constant is 0.007813 and
the product is 256.016384, while `getFullScale` returns 256. -/
theorem mvPerCount_times_32768 (s : Handle β) :
    getMvPerCount { s with pgaMode := 0 } * 32768 = (getFullScale 0 : ℚ) ∧
    getMvPerCount { s with pgaMode := 1 } * 32768 = (getFullScale 1 : ℚ) ∧
    getMvPerCount { s with pgaMode := 2 } * 32768 = (getFullScale 2 : ℚ) ∧
    getMvPerCount { s with pgaMode := 3 } * 32768 = (getFullScale 3 : ℚ) ∧
    getMvPerCount { s with pgaMode := 4 } * 32768 = (getFullScale 4 : ℚ) ∧
    getMvPerCount { s with pgaMode := 5 } * 32768 = 256.016384 ∧
    getMvPerCount { s with pgaMode := 6 } * 32768 = 256.016384 ∧
    getMvPerCount { s with pgaMode := 7 } * 32768 = 256.016384 ∧
    getFullScale 5 = 256 ∧ getFullScale 6 = 256 ∧ getFullScale 7 = 256 ∧
    getMvPerCount { s with pgaMode := 5 } * 32768 ≠ (getFullScale 5 : ℚ) ∧
    getMvPerCount { s with pgaMode := 6 } * 32768 ≠ (getFullScale 6 : ℚ) ∧
    getMvPerCount { s with pgaMode := 7 } * 32768 ≠ (getFullScale 7 : ℚ) := by
  have f0 : getFullScale 0 = 6144 := by decide
  have f1 : getFullScale 1 = 4096 := by decide
  have f2 : getFullScale 2 = 2048 := by decide
  have f3 : getFullScale 3 = 1024 := by decide
  have f4 : getFullScale 4 = 512 := by decide
  have f5 : getFullScale 5 = 256 := by decide
  have f6 : getFullScale 6 = 256 := by decide
  have f7 : getFullScale 7 = 256 := by decide
  rw [getMvPerCount_of_pgaMode _ 0 rfl, getMvPerCount_of_pgaMode _ 1 rfl,
    getMvPerCount_of_pgaMode _ 2 rfl, getMvPerCount_of_pgaMode _ 3 rfl,
    getMvPerCount_of_pgaMode _ 4 rfl, getMvPerCount_of_pgaMode _ 5 rfl,
    getMvPerCount_of_pgaMode _ 6 rfl, getMvPerCount_of_pgaMode _ 7 rfl,
    f0, f1, f2, f3, f4, f5, f6, f7]
  norm_num

/-! ## Out-of-range selectors -/

section RawSelectors

variable (W : TwoWire β) (s : Handle β)

theorem setGain_field (g : Nat) :
    (setGain W s g).configValue &&& 3584 = (g <<< 9) &&& 3584 := by
  rw [setGain_configValue]
  split
  · rw [cycle_keeps _ 3584 (by decide) (by decide) (by decide)]
    exact merge_and_mask _ _ _ _ (by decide)
  · exact merge_and_mask _ _ _ _ (by decide)

theorem setMultiplexer_field (m : Nat) :
    (setMultiplexer W s m).configValue &&& 28672 = (m <<< 12) &&& 28672 := by
  rw [setMultiplexer_configValue]
  split
  · rw [cycle_keeps _ 28672 (by decide) (by decide) (by decide)]
    exact merge_and_mask _ _ _ _ (by decide)
  · exact merge_and_mask _ _ _ _ (by decide)

/-- A convenience conversion on a tracked selector different from its target
writes the mux first. -/
theorem convenience_rewrites_mux (f : Handle β → Handle β × Int) (target : Nat)
    (hf : ∀ t, f t = getConversion W
      (if t.muxMode ≠ target then setMultiplexer W t target else t) true)
    (h : s.muxMode ≠ target) :
    f s = getConversion W (setMultiplexer W s target) true := by
  rw [hf, if_pos h]

end RawSelectors

/-- Claim C26, counterexample.  On the initialised driver of the echoing
double, `setGain(10)` writes gain field 2 (10 mod 8), whose constant is
0.0625, but `getMvPerCount()` then returns 0; `setMultiplexer(12)` writes mux
field 4 (12 mod 8) but the tracked mux selector is 12. -/
theorem raw_selector_counterexample :
    10 < 256 ∧
    ((setGain echoWire handleReady 10).configValue &&& 0x0E00) >>> 9 = 10 % 8 ∧
    getMvPerCount (setGain echoWire handleReady 10) = 0 ∧
    getMvPerCount { handleReady with pgaMode := 10 % 8 } = 0.0625 ∧
    getMvPerCount (setGain echoWire handleReady 10)
      ≠ getMvPerCount { handleReady with pgaMode := 10 % 8 } ∧
    12 < 256 ∧
    ((setMultiplexer echoWire handleReady 12).configValue &&& 0x7000) >>> 12 = 12 % 8 ∧
    (setMultiplexer echoWire handleReady 12).muxMode = 12 ∧
    (setMultiplexer echoWire handleReady 12).muxMode ≠ 12 % 8 := by
  have h1 : getMvPerCount (setGain echoWire handleReady 10) = 0 :=
    getMvPerCount_zero_of_large _ (by decide)
  have h2 : getMvPerCount { handleReady with pgaMode := 10 % 8 } = 0.0625 := by
    rw [getMvPerCount_of_pgaMode _ 2 rfl]
    norm_num
  refine ⟨by decide, by decide, h1, h2, ?_, by decide, by decide, by decide, by decide⟩
  rw [h1, h2]
  norm_num

/-- Claim C26 (amended).  For every 8-bit argument the field written by
`setGain(g)` is g mod 8 and the field written by `setMultiplexer(m)` is
m mod 8, while the tracked selector is the argument itself.  For g in 0..7
`getMvPerCount()` returns the constant of the gain field written, and for m
in 0..7 the tracked mux selector equals the mux field written.  For g in
8..255 `getMvPerCount()` returns 0, not the (positive) constant of g mod 8;
for m in 8..255 the tracked mux selector differs from m mod 8 and from every
convenience target, so each convenience conversion writes the mux again. -/
theorem tracked_selector_is_raw_argument (W : TwoWire β) (s : Handle β) (g m : Nat)
    (hg : g < 256) (hm : m < 256) :
    ((setGain W s g).configValue &&& 0x0E00) >>> 9 = g % 8 ∧
    (setGain W s g).pgaMode = g ∧
    (g < 8 → getMvPerCount (setGain W s g)
      = getMvPerCount { s with pgaMode := ((setGain W s g).configValue &&& 0x0E00) >>> 9 }) ∧
    (8 ≤ g → getMvPerCount (setGain W s g) = 0 ∧
      0 < getMvPerCount { s with pgaMode := ((setGain W s g).configValue &&& 0x0E00) >>> 9 }) ∧
    ((setMultiplexer W s m).configValue &&& 0x7000) >>> 12 = m % 8 ∧
    (setMultiplexer W s m).muxMode = m ∧
    (m < 8 → (setMultiplexer W s m).muxMode
      = ((setMultiplexer W s m).configValue &&& 0x7000) >>> 12) ∧
    (8 ≤ m → (setMultiplexer W s m).muxMode
        ≠ ((setMultiplexer W s m).configValue &&& 0x7000) >>> 12 ∧
      ∀ p, p ∈ [(getConversionP0N1 W, ADS1115_MUX_P0_N1),
                 (getConversionP0N3 W, ADS1115_MUX_P0_N3),
                 (getConversionP1N3 W, ADS1115_MUX_P1_N3),
                 (getConversionP2N3 W, ADS1115_MUX_P2_N3),
                 (getConversionP0GND W, ADS1115_MUX_P0_NG),
                 (getConversionP1GND W, ADS1115_MUX_P1_NG),
                 (getConversionP2GND W, ADS1115_MUX_P2_NG),
                 (getConversionP3GND W, ADS1115_MUX_P3_NG)] →
        p.2 < 8 ∧
        p.1 (setMultiplexer W s m)
          = getConversion W (setMultiplexer W (setMultiplexer W s m) p.2) true) := by
  have hgf : ((setGain W s g).configValue &&& 0x0E00) >>> 9 = g % 8 := by
    show ((setGain W s g).configValue &&& 3584) >>> 9 = g % 8
    rw [setGain_field, extract_pga g hg]
  have hmf : ((setMultiplexer W s m).configValue &&& 0x7000) >>> 12 = m % 8 := by
    show ((setMultiplexer W s m).configValue &&& 28672) >>> 12 = m % 8
    rw [setMultiplexer_field, extract_mux m hm]
  have hgp : (setGain W s g).pgaMode = g := (setGain_members W s g).2.2.2
  have hmp : (setMultiplexer W s m).muxMode = m := (setMultiplexer_members W s m).2.2.1
  refine ⟨hgf, hgp, ?_, ?_, hmf, hmp, ?_, ?_⟩
  · intro h8
    apply getMvPerCount_congr
    rw [hgp, hgf, Nat.mod_eq_of_lt h8]
  · intro h8
    refine ⟨getMvPerCount_zero_of_large _ (by rw [hgp]; exact h8), ?_⟩
    apply getMvPerCount_pos
    show ((setGain W s g).configValue &&& 0x0E00) >>> 9 ≤ 7
    rw [hgf]
    omega
  · intro h8
    rw [hmp, hmf, Nat.mod_eq_of_lt h8]
  · intro h8
    refine ⟨by rw [hmp, hmf]; omega, ?_⟩
    intro p hp
    simp only [List.mem_cons, List.mem_singleton, List.not_mem_nil, or_false] at hp
    rcases hp with rfl | rfl | rfl | rfl | rfl | rfl | rfl | rfl <;>
      refine ⟨Nat.le_of_ble_eq_true rfl, convenience_rewrites_mux W _ _ _ (fun _ => rfl) ?_⟩ <;>
      rw [hmp] <;>
      simp only [ADS1115_MUX_P0_N1, ADS1115_MUX_P0_N3, ADS1115_MUX_P1_N3, ADS1115_MUX_P2_N3,
        ADS1115_MUX_P0_NG, ADS1115_MUX_P1_NG, ADS1115_MUX_P2_NG, ADS1115_MUX_P3_NG] <;>
      omega

/-- Witness for claim C26: the arguments 10 and 12 on the initialised driver
of the echoing double. -/
theorem tracked_selector_is_raw_argument_witness :
    10 < 256 ∧ 12 < 256 ∧
    ((setGain echoWire handleReady 10).configValue &&& 0x0E00) >>> 9 = 10 % 8 ∧
    (setGain echoWire handleReady 10).pgaMode = 10 ∧
    ((setMultiplexer echoWire handleReady 12).configValue &&& 0x7000) >>> 12 = 12 % 8 ∧
    (setMultiplexer echoWire handleReady 12).muxMode = 12 :=
  ⟨by decide, by decide,
   (tracked_selector_is_raw_argument echoWire handleReady 10 12 (by decide) (by decide)).1,
   (tracked_selector_is_raw_argument echoWire handleReady 10 12 (by decide) (by decide)).2.1,
   (tracked_selector_is_raw_argument echoWire handleReady 10 12
      (by decide) (by decide)).2.2.2.2.1,
   (tracked_selector_is_raw_argument echoWire handleReady 10 12
      (by decide) (by decide)).2.2.2.2.2.1⟩

end ADS1115
